import Mathlib

/-!
RigelEngine: renderer interface, map renderer and user profile

A shallow embedding of `src/renderer/renderer.hpp` (texture coordinates, the
`saveState` helper) together with a model of the renderer behind that
interface, of `src/engine/map_renderer.cpp` (backdrop texture coordinates,
tile rendering) and of `src/common/user_profile.cpp` (saved games and
high-score lists to and from json).  `int` values are integers; the `int`
products, sums and difference of `backdropOffset` and `renderMapTiles`, whose
overflow changes what the code does, and the conversions of json numbers are
wrapped to 32 bits (`toInt32`); `std::uint32_t` texture ids and `std::uint8_t`
colour channels are naturals.
`float` values are rationals.  The functions that compute in `float` are
embedded twice: in exact arithmetic (`toTexCoords`,
`MapRenderer.calculateBackdropTexCoords`) and with every operation rounded to
the nearest binary32 value (`toTexCoordsFloat`,
`MapRenderer.calculateBackdropTexCoordsFloat`).
-/

namespace Rigel

/-! ## Spatial types (`base/spatial_types.hpp`, as used by the sources) -/

/-- Embedding of `base::Point<T>`: a pair of coordinates. -/
structure Point (α : Type) where
  x : α
  y : α
deriving DecidableEq, Repr

/-- Embedding of `base::Size<T>`: a width and a height. -/
structure Size (α : Type) where
  width : α
  height : α
deriving DecidableEq, Repr

/-- Embedding of `base::Rect<T>`: top-left corner and size. -/
structure Rect (α : Type) where
  topLeft : Point α
  size : Size α
deriving DecidableEq, Repr

/-- Embedding of `base::Color`: four 8-bit channels. -/
structure Color where
  r : Nat
  g : Nat
  b : Nat
  a : Nat
deriving DecidableEq, Repr

/-- Embedding of `renderer::TextureId` (`std::uint32_t`). -/
abbrev TextureId := Nat

/-! ## Machine numbers -/

/-- The 32-bit `int` that holds the exact integer `n`: `n` itself inside
`[-2^31, 2^31)`, wrapped into that range otherwise (two's complement, as the
compiled code behaves on overflow and on conversion). -/
def toInt32 (n : Int) : Int :=
  (n + 2 ^ 31) % 2 ^ 32 - 2 ^ 31

/-- The integers a 32-bit `int` can hold. -/
def fitsInt32 (n : Int) : Prop :=
  -2 ^ 31 ≤ n ∧ n < 2 ^ 31

instance (n : Int) : Decidable (fitsInt32 n) :=
  inferInstanceAs (Decidable (-2 ^ 31 ≤ n ∧ n < 2 ^ 31))

/-- The integer nearest to `q`, and of two equally near integers the even one:
the rounding direction of IEEE 754 arithmetic that the compiled code runs
with. -/
def roundHalfEven (q : ℚ) : Int :=
  let f := Int.floor q
  let r := q - (f : ℚ)
  if r < 1 / 2 then f else if 1 / 2 < r then f + 1 else if f % 2 = 0 then f else f + 1

/-- The binary exponent under which a `float` (IEEE 754 binary32) stores the
value nearest to `q`: `⌊log₂ |q|⌋`, and the least exponent `-126` for what lies
below the normal range.  For `q = 0` the value plays no role: zero is rounded
to zero under every spacing. -/
def F32.exponent (q : ℚ) : Int :=
  max (Int.log 2 |q|) (-126)

/-- The spacing of the `float` values around `q`: 24 significant bits. -/
def F32.ulp (q : ℚ) : ℚ :=
  (2 : ℚ) ^ (F32.exponent q - 23)

/-- The multiple of the spacing around `q` nearest to `q`, ties to the even
multiple: the `float` value nearest to `q`, the range of the exponent left
open at the top. -/
def F32.round (q : ℚ) : ℚ :=
  (roundHalfEven (q / F32.ulp q) : ℚ) * F32.ulp q

/-- The `float` that an operation with exact result `q` returns: `q` rounded
to the nearest `float` value, and `none` when that is an infinity (the rounded
value reaches `2^128`). -/
def F32.ofRat (q : ℚ) : Option ℚ :=
  if |F32.round q| < 2 ^ 128 then some (F32.round q) else none

/-- The conversion `float(n)` of an `int`. -/
def F32.ofInt (n : Int) : Option ℚ :=
  F32.ofRat (n : ℚ)

/-- The sum `a + b` of two `float` values. -/
def F32.add (a b : ℚ) : Option ℚ :=
  F32.ofRat (a + b)

/-- The quotient `a / b` of two `float` values; `none` for a zero divisor,
where the result is an infinity or not a number. -/
def F32.div (a b : ℚ) : Option ℚ :=
  if b = 0 then none else F32.ofRat (a / b)

/-! ## `renderer.hpp`: texture coordinates -/

/-- Embedding of `struct TexCoords`: four `float`s, each the rational it
stands for. -/
structure TexCoords where
  left : ℚ
  top : ℚ
  right : ℚ
  bottom : ℚ
deriving DecidableEq, Repr

/-- Embedding of `toTexCoords` (renderer.hpp, lines 61-74) in exact
arithmetic: the conversions, quotients and sums are taken without rounding.
Each `int` operand is converted before the division, as `x / float(texWidth)`
does in the source. -/
def toTexCoords (sourceRect : Rect Int) (texWidth texHeight : Int) : TexCoords :=
  let left := (sourceRect.topLeft.x : ℚ) / (texWidth : ℚ)
  let top := (sourceRect.topLeft.y : ℚ) / (texHeight : ℚ)
  let width := (sourceRect.size.width : ℚ) / (texWidth : ℚ)
  let height := (sourceRect.size.height : ℚ) / (texHeight : ℚ)
  let right := left + width
  let bottom := top + height
  { left := left, top := top, right := right, bottom := bottom }

/-- Embedding of `toTexCoords` (renderer.hpp, lines 61-74) in `float`
arithmetic: every conversion `float(n)`, every division and every addition
rounds to the nearest `float`.  The result is `none` when an operation does
not return a finite `float` (division by a zero texture dimension). -/
def toTexCoordsFloat (sourceRect : Rect Int) (texWidth texHeight : Int) : Option TexCoords :=
  match F32.ofInt texWidth with
  | none => none
  | some fTexWidth =>
  match F32.ofInt texHeight with
  | none => none
  | some fTexHeight =>
  match F32.ofInt sourceRect.topLeft.x with
  | none => none
  | some x =>
  match F32.div x fTexWidth with
  | none => none
  | some left =>
  match F32.ofInt sourceRect.topLeft.y with
  | none => none
  | some y =>
  match F32.div y fTexHeight with
  | none => none
  | some top =>
  match F32.ofInt sourceRect.size.width with
  | none => none
  | some w =>
  match F32.div w fTexWidth with
  | none => none
  | some width =>
  match F32.ofInt sourceRect.size.height with
  | none => none
  | some h =>
  match F32.div h fTexHeight with
  | none => none
  | some height =>
  match F32.add left width with
  | none => none
  | some right =>
  match F32.add top height with
  | none => none
  | some bottom =>
  some { left := left, top := top, right := right, bottom := bottom }

/-! ## The renderer behind `renderer.hpp`

`class Renderer` is declared in `renderer.hpp`; its member functions are
defined in `renderer.cpp`, which is not among the sources.  The definitions
of this section model them from the specification (sections 3 and 4) and
from the documentation comments of the declarations. -/

/-- Modelled from the spec: the `RenderState` record of section 3, missing
`Renderer::Impl` (renderer.cpp).  The render target is a texture id, id `0`
standing for the screen (`setRenderTarget` documentation). -/
structure RenderState where
  overlayColor : Color
  colorModulation : Color
  textureRepeatEnabled : Bool
  globalTranslation : Point Int
  globalScale : Point ℚ
  clipRect : Option (Rect Int)
  renderTarget : TextureId
deriving DecidableEq, Repr

/-- Modelled from the spec: the documented default values of section 3 and of
the setter documentation in renderer.hpp (missing: the initialisation in
renderer.cpp). -/
def RenderState.default : RenderState :=
  { overlayColor := ⟨0, 0, 0, 0⟩
    colorModulation := ⟨255, 255, 255, 255⟩
    textureRepeatEnabled := false
    globalTranslation := ⟨0, 0⟩
    globalScale := ⟨1, 1⟩
    clipRect := none
    renderTarget := 0 }

/-- Modelled from the spec: the destination a render-target id denotes
(section 3, invariant 4: handle `0` always means the default back buffer). -/
inductive RenderTarget where
  | screen
  | texture (id : TextureId)
deriving DecidableEq, Repr

/-- Modelled from the spec: the active render target of a state; id `0` is the
screen (missing: the framebuffer binding of renderer.cpp). -/
def RenderState.activeRenderTarget (s : RenderState) : RenderTarget :=
  if s.renderTarget = 0 then RenderTarget.screen else RenderTarget.texture s.renderTarget

/-- Modelled from the spec: the fixed set of shader programs of section 2
(missing: the shader table of renderer.cpp). -/
inductive ShaderVariant where
  | plain
  | colorModulated
  | overlayTinted
  | repeatTiled
  | waterDistortion
deriving DecidableEq, Repr

/-- Modelled from the spec: the operation kinds of section 4.2. -/
inductive OperationKind where
  | texturedQuad
  | waterEffectQuad
  | solidPoint
deriving DecidableEq, Repr

/-- Modelled from the spec: the ShaderVariantSelector of section 4.2 (missing:
the shader selection of renderer.cpp).  The water effect always has its own
variant; a textured quad is "plain" exactly when overlay colour, colour
modulation and repeat flag have their defaults, and otherwise escalates to the
most expensive variant a deviating field asks for, in the order in which
section 2 lists the variants.  Points ignore colour modulation and overlay
(section 4.6) and carry no texture, so they take the plain variant. -/
def selectShaderVariant (s : RenderState) (op : OperationKind) : ShaderVariant :=
  match op with
  | OperationKind.waterEffectQuad => ShaderVariant.waterDistortion
  | OperationKind.solidPoint => ShaderVariant.plain
  | OperationKind.texturedQuad =>
    if s.textureRepeatEnabled then ShaderVariant.repeatTiled
    else if s.overlayColor ≠ RenderState.default.overlayColor then ShaderVariant.overlayTinted
    else if s.colorModulation ≠ RenderState.default.colorModulation then
      ShaderVariant.colorModulated
    else ShaderVariant.plain

/-- Modelled from the spec: the `Vertex` record of section 3; the position is
already transformed. -/
structure Vertex where
  position : Point ℚ
  texCoord : Point ℚ
  color : Color
deriving DecidableEq, Repr

/-- Modelled from the spec: the `Batch` record of section 3.  The texture is
absent for untextured geometry (points). -/
structure Batch where
  texture : Option TextureId
  shaderVariant : ShaderVariant
  renderTarget : TextureId
  vertices : List Vertex
deriving DecidableEq, Repr

/-- Modelled from the spec: the renderer behind the façade (missing:
`Renderer::Impl`).  `state` is the current render state, `stateStack` the
saved snapshots (most recent first), `openBatch` the batch being accumulated
and `submitted` the batches handed to the GPU so far, in submission order. -/
structure Renderer where
  state : RenderState
  stateStack : List RenderState
  openBatch : Option Batch
  submitted : List Batch
deriving DecidableEq, Repr

/-- Modelled from the spec: the CoordinateTransformer of section 4.5,
`transform(p) = p * globalScale + globalTranslation`. -/
def transform (s : RenderState) (p : Point Int) : Point ℚ :=
  { x := (p.x : ℚ) * s.globalScale.x + (s.globalTranslation.x : ℚ)
    y := (p.y : ℚ) * s.globalScale.y + (s.globalTranslation.y : ℚ) }

/-- Modelled from the spec: `flush()` of section 4.1 submits the open batch as
one GPU draw call and clears it; flushing an empty batch is a no-op. -/
def Renderer.flush (r : Renderer) : Renderer :=
  match r.openBatch with
  | none => r
  | some b =>
    if b.vertices.isEmpty then r
    else { r with openBatch := none, submitted := r.submitted ++ [b] }

/-- Modelled from the spec: `forceSubmit()`, the public `submitBatch`, flushes
unconditionally. -/
def Renderer.submitBatch (r : Renderer) : Renderer :=
  r.flush

/-- Modelled from the spec: `append` of section 4.1 either extends the open
batch (same texture, shader variant and render target) or flushes the open
batch and opens a new one. -/
def Renderer.append (r : Renderer) (vertices : List Vertex) (texture : Option TextureId)
    (variant : ShaderVariant) (target : TextureId) : Renderer :=
  match r.openBatch with
  | some b =>
    if b.texture = texture ∧ b.shaderVariant = variant ∧ b.renderTarget = target then
      { r with openBatch := some { b with vertices := b.vertices ++ vertices } }
    else
      { r.flush with
        openBatch := some
          { texture := texture, shaderVariant := variant, renderTarget := target,
            vertices := vertices } }
  | none =>
    { r with
      openBatch := some
        { texture := texture, shaderVariant := variant, renderTarget := target,
          vertices := vertices } }

/-- Modelled from the spec: the four vertices of a textured quad; the
destination rectangle is transform-mapped, the texture coordinates are used as
they are (section 4.6). -/
def quadVertices (s : RenderState) (src : TexCoords) (dest : Rect Int) : List Vertex :=
  let l := dest.topLeft.x
  let t := dest.topLeft.y
  let rgt := dest.topLeft.x + dest.size.width
  let btm := dest.topLeft.y + dest.size.height
  [ { position := transform s ⟨l, t⟩, texCoord := ⟨src.left, src.top⟩,
      color := s.colorModulation },
    { position := transform s ⟨rgt, t⟩, texCoord := ⟨src.right, src.top⟩,
      color := s.colorModulation },
    { position := transform s ⟨l, btm⟩, texCoord := ⟨src.left, src.bottom⟩,
      color := s.colorModulation },
    { position := transform s ⟨rgt, btm⟩, texCoord := ⟨src.right, src.bottom⟩,
      color := s.colorModulation } ]

/-- Modelled from the spec: `Renderer::drawTexture` (declared in renderer.hpp,
lines 121-124; section 4.6): the quad is appended to the batch keyed by the
texture, the shader variant of the current state and the active render
target. -/
def Renderer.drawTexture (r : Renderer) (texture : TextureId) (sourceRect : TexCoords)
    (destRect : Rect Int) : Renderer :=
  r.append (quadVertices r.state sourceRect destRect) (some texture)
    (selectShaderVariant r.state OperationKind.texturedQuad) r.state.renderTarget

/-- Modelled from the spec: `Renderer::drawPoint` (declared in renderer.hpp,
line 135): one vertex at the transformed position, in the given colour; the
declaration documents it as batched. -/
def Renderer.drawPoint (r : Renderer) (position : Point Int) (color : Color) : Renderer :=
  r.append [{ position := transform r.state position, texCoord := ⟨0, 0⟩, color := color }]
    none (selectShaderVariant r.state OperationKind.solidPoint) r.state.renderTarget

/-- Modelled from the spec: the common shape of the state setters: a call that
changes the current state interrupts the open batch ("Changing any state will
also interrupt the current batch", renderer.hpp), a call that changes nothing
does not; only the current state is written, never the saved snapshots. -/
def Renderer.updateState (r : Renderer) (s : RenderState) : Renderer :=
  if s = r.state then r else { r.flush with state := s }

/-- Modelled from the spec: `Renderer::setOverlayColor`. -/
def Renderer.setOverlayColor (r : Renderer) (color : Color) : Renderer :=
  r.updateState { r.state with overlayColor := color }

/-- Modelled from the spec: `Renderer::setColorModulation`. -/
def Renderer.setColorModulation (r : Renderer) (colorModulation : Color) : Renderer :=
  r.updateState { r.state with colorModulation := colorModulation }

/-- Modelled from the spec: `Renderer::setTextureRepeatEnabled`. -/
def Renderer.setTextureRepeatEnabled (r : Renderer) (enable : Bool) : Renderer :=
  r.updateState { r.state with textureRepeatEnabled := enable }

/-- Modelled from the spec: `Renderer::setGlobalTranslation`. -/
def Renderer.setGlobalTranslation (r : Renderer) (translation : Point Int) : Renderer :=
  r.updateState { r.state with globalTranslation := translation }

/-- Modelled from the spec: `Renderer::setGlobalScale`. -/
def Renderer.setGlobalScale (r : Renderer) (scale : Point ℚ) : Renderer :=
  r.updateState { r.state with globalScale := scale }

/-- Modelled from the spec: `Renderer::setClipRect`. -/
def Renderer.setClipRect (r : Renderer) (clipRect : Option (Rect Int)) : Renderer :=
  r.updateState { r.state with clipRect := clipRect }

/-- Modelled from the spec: `Renderer::setRenderTarget` (section 4.4; missing:
its definition in renderer.cpp): flushes the open batch, binds the new
destination and updates the active render target.  Section 2 lists the call
among the flush points, so the flush does not depend on the target. -/
def Renderer.setRenderTarget (r : Renderer) (target : TextureId) : Renderer :=
  { r.flush with state := { r.state with renderTarget := target } }

/-- Modelled from the spec: `Renderer::pushState` (section 4.3): copies the
current state onto the stack; changes no state and does not interrupt the
batch. -/
def Renderer.pushState (r : Renderer) : Renderer :=
  { r with stateStack := r.state :: r.stateStack }

/-- Modelled from the spec: `Renderer::popState` (section 4.3; missing: its
definition in renderer.cpp): restores the top of the stack as current state
and removes it.  As the declaration documents ("Does only interrupt the
current batch if the restored snapshot is different from the current state"),
the open batch is flushed exactly when the snapshot differs from the current
state.  Popping an empty stack is a fatal error (`none`). -/
def Renderer.popState (r : Renderer) : Option Renderer :=
  match r.stateStack with
  | [] => none
  | saved :: rest =>
    some { (r.updateState saved) with stateStack := rest }

/-- Modelled from the spec: `Renderer::resetState` (section 4.3): restores all
fields to the documented defaults and clears the stack. -/
def Renderer.resetState (r : Renderer) : Renderer :=
  { (r.updateState RenderState.default) with stateStack := [] }

/-- Modelled from the spec: the scope guard that `base::defer` returns
(base/defer.hpp is missing; section 4.3, "a scope guard that calls `pop`
automatically on every exit path"): it holds the callback that its destructor
runs. -/
structure ScopeGuard where
  onExit : Renderer → Option Renderer

/-- Modelled from the spec: destroying a scope guard runs its callback, here
on the renderer the callback refers to. -/
def ScopeGuard.release (g : ScopeGuard) (r : Renderer) : Option Renderer :=
  g.onExit r

/-- Embedding of `saveState` (renderer.hpp, lines 424-428): calls `pushState`
and returns a guard whose destructor calls `popState`. -/
def saveState (r : Renderer) : Renderer × ScopeGuard :=
  (r.pushState, { onExit := fun q => q.popState })

/-- A scope that opens with `const auto saved = saveState(pRenderer);`, runs
`body` and ends, at which point the guard is destroyed. -/
def withSavedState (r : Renderer) (body : Renderer → Renderer) : Option Renderer :=
  (saveState r).2.release (body (saveState r).1)

/-- Consecutive `drawTexture` calls with one texture handle, one call per
(source, destination) pair, with no other call in between. -/
def Renderer.drawTextureRun (r : Renderer) (texture : TextureId)
    (calls : List (TexCoords × Rect Int)) : Renderer :=
  calls.foldl (fun acc c => acc.drawTexture texture c.1 c.2) r

/-- The vertices that a run of `drawTexture` calls contributes, in call
order. -/
def runVertices (s : RenderState) : List (TexCoords × Rect Int) → List Vertex
  | [] => []
  | c :: cs => quadVertices s c.1 c.2 ++ runVertices s cs

/-- The batch that holds a run of `drawTexture` calls made with texture
`texture` in state `s`. -/
def textureBatch (s : RenderState) (texture : TextureId)
    (calls : List (TexCoords × Rect Int)) : Batch :=
  { texture := some texture
    shaderVariant := selectShaderVariant s OperationKind.texturedQuad
    renderTarget := s.renderTarget
    vertices := runVertices s calls }

/-- Modelled from the spec: the renderer right after construction: default
state, nothing saved, nothing pending, nothing submitted. -/
def Renderer.initial : Renderer :=
  { state := RenderState.default, stateStack := [], openBatch := none, submitted := [] }

/-- A run of `drawTexture` calls with texture `t` into which one call with
texture `u` is interleaved: `pre` before it and `post` after it, followed by
the next flush point. -/
def Renderer.interleavedRun (r : Renderer) (t u : TextureId)
    (pre : List (TexCoords × Rect Int)) (c : TexCoords × Rect Int)
    (post : List (TexCoords × Rect Int)) : Renderer :=
  (((r.drawTextureRun t pre).drawTexture u c.1 c.2).drawTextureRun t post).submitBatch

/-- A `drawTexture` call of one 8x8 tile at horizontal position `x`, used as
concrete input. -/
def tileCall (x : Int) : TexCoords × Rect Int :=
  (⟨0, 0, 1, 1⟩, ⟨⟨x, 0⟩, ⟨8, 8⟩⟩)

/-- The vertex most recently added to the open batch, if any. -/
def Renderer.lastVertex (r : Renderer) : Option Vertex :=
  r.openBatch.bind (fun b => b.vertices.getLast?)

/-- The vertices waiting in the open batch. -/
def Renderer.pendingVertices (r : Renderer) : List Vertex :=
  (r.openBatch.map (fun b => b.vertices)).getD []

/-! ## `engine/map_renderer.cpp`

The headers this file includes (`map_renderer.hpp`, `data/game_traits.hpp`,
`data/unit_conversions.hpp`, `base/math_tools.hpp`, `data/map.hpp`) are not
among the sources.  The constants and helper functions it takes from them are
parameters of the embedding; the types it uses are modelled by the members the
code reads. -/

/-- Modelled from the spec: the values and helpers that map_renderer.cpp takes
from missing headers, as parameters: `GameTraits::viewPortWidthPx` and
`GameTraits::viewPortHeightPx`, `data::tilesToPixels`,
`data::tileExtentsToPixelExtents`, `base::round` (a `double` rounded to `int`)
and the query `Renderer::currentRenderTargetSize` (declared in renderer.hpp,
defined in the missing renderer.cpp). -/
structure MapRendererDeps where
  viewPortWidthPx : Int
  viewPortHeightPx : Int
  tilesToPixels : Int → Int
  tileExtentsToPixelExtents : Size Int → Size Int
  round : ℚ → Int
  currentRenderTargetSize : Renderer → Size Int

/-- Modelled from the spec: `data::map::BackdropScrollMode` (data/map.hpp is
missing): the four modes map_renderer.cpp names, and `None` for a backdrop that
does not scroll. -/
inductive BackdropScrollMode where
  | None
  | ParallaxBoth
  | ParallaxHorizontal
  | AutoHorizontal
  | AutoVertical
deriving DecidableEq, Repr

/-- Embedding of the constant `PARALLAX_FACTOR` (map_renderer.cpp, line 41). -/
def PARALLAX_FACTOR : Int := 4

/-- Embedding of the constant `ANIM_STATES` (map_renderer.cpp, line 38). -/
def ANIM_STATES : Nat := 4

/-- Embedding of the constant `FAST_ANIM_FRAME_DELAY` (line 39). -/
def FAST_ANIM_FRAME_DELAY : Nat := 1

/-- Embedding of the constant `SLOW_ANIM_FRAME_DELAY` (line 40). -/
def SLOW_ANIM_FRAME_DELAY : Nat := 2

/-- Embedding of `backdropOffset` (map_renderer.cpp, lines 47-80).  The
auto-scroll offset is a `double`, here a rational; the `int` products and the
`int` difference are 32-bit, so their results are wrapped. -/
def backdropOffset (d : MapRendererDeps) (cameraPosition : Point Int)
    (scrollMode : BackdropScrollMode) (backdropAutoScrollOffset : ℚ) : Point Int :=
  let parallaxBoth := scrollMode == BackdropScrollMode.ParallaxBoth
  let parallaxHorizontal :=
    scrollMode == BackdropScrollMode.ParallaxHorizontal || parallaxBoth
  let autoScrollX := scrollMode == BackdropScrollMode.AutoHorizontal
  let autoScrollY := scrollMode == BackdropScrollMode.AutoVertical
  if parallaxHorizontal || parallaxBoth then
    { x := if parallaxHorizontal then toInt32 (cameraPosition.x * PARALLAX_FACTOR) else 0
      y := if parallaxBoth then toInt32 (cameraPosition.y * PARALLAX_FACTOR) else 0 }
  else if autoScrollX || autoScrollY then
    let offsetPixels := d.round backdropAutoScrollOffset
    if autoScrollX then
      { x := offsetPixels, y := 0 }
    else
      { x := 0, y := toInt32 (d.viewPortHeightPx - offsetPixels) }
  else
    { x := 0, y := 0 }

/-- Modelled from the spec: `renderer::Texture` (missing), by the members
map_renderer.cpp reads: the texture id (`data()`), `width()` and `height()`. -/
structure Texture where
  data : TextureId
  width : Int
  height : Int
deriving DecidableEq, Repr

/-- Embedding of `data::map::TileIndex` (data/map.hpp is missing): an unsigned
index. -/
abbrev TileIndex := Nat

/-- Modelled from the spec: the tile attributes map_renderer.cpp queries
(`isForeGround()`, `isAnimated()`, `isFastAnimation()`); their class is
missing. -/
structure TileAttributes where
  isForeGround : Bool
  isAnimated : Bool
  isFastAnimation : Bool
deriving DecidableEq, Repr

/-- Modelled from the spec: `data::map::Map` (missing), by the members
map_renderer.cpp calls: `width()`, `height()`, `tileAt(layer, x, y)` and
`attributeDict().attributes(index)`. -/
structure Map where
  width : Int
  height : Int
  tileAt : Int → Int → Int → TileIndex
  attributes : TileIndex → TileAttributes

/-- Modelled from the spec: the data members of `MapRenderer` that the
embedded member functions read (map_renderer.hpp is missing). -/
structure MapRenderer where
  mpMap : Map
  mBackdropTexture : Texture
  mScrollMode : BackdropScrollMode
  mBackdropAutoScrollOffset : ℚ
  mElapsedFrames : Nat

/-- Modelled from the spec: `Renderer::globalScale()` (declared in
renderer.hpp, line 411) reads the current global scale. -/
def Renderer.globalScale (r : Renderer) : Point ℚ :=
  r.state.globalScale

/-- Embedding of `MapRenderer::calculateBackdropTexCoords` (map_renderer.cpp,
lines 175-213) in exact arithmetic: every `float` operation is taken without
rounding, and the literal `1.2f` is `6/5`. -/
def MapRenderer.calculateBackdropTexCoords (m : MapRenderer) (d : MapRendererDeps)
    (r : Renderer) (cameraPosition : Point Int) (viewPortSize : Size Int) : TexCoords :=
  let offset := backdropOffset d cameraPosition m.mScrollMode m.mBackdropAutoScrollOffset
  let offsetX := (offset.x : ℚ) / (d.viewPortWidthPx : ℚ)
  let offsetY := (offset.y : ℚ) / (d.viewPortHeightPx : ℚ)
  let windowWidth : ℚ := ((d.currentRenderTargetSize r).width : ℚ)
  let windowHeight : ℚ := ((d.currentRenderTargetSize r).height : ℚ)
  let scaleY := windowHeight / (m.mBackdropTexture.height : ℚ)
  let isOriginalSize :=
    m.mBackdropTexture.width == d.viewPortWidthPx &&
    m.mBackdropTexture.height == d.viewPortHeightPx
  let needsAspectRatioCorrection :=
    isOriginalSize && decide (windowHeight ≠ (d.viewPortHeightPx : ℚ))
  let correctionFactor : ℚ := if needsAspectRatioCorrection then 1 / (6 / 5) else 1
  let scaledWidth := scaleY * (m.mBackdropTexture.width : ℚ) * correctionFactor
  let remappingFactor := windowWidth / scaledWidth
  let targetWidth := ((d.tilesToPixels viewPortSize.width : Int) : ℚ) * r.globalScale.x
  let targetHeight := ((d.tilesToPixels viewPortSize.height : Int) : ℚ) * r.globalScale.y
  let visibleTargetPortionX := targetWidth / windowWidth
  let visibleTargetPortionY := targetHeight / windowHeight
  let left := offsetX
  let top := offsetY
  let right := left + visibleTargetPortionX * remappingFactor
  let bottom := top + visibleTargetPortionY
  { left := left, top := top, right := right, bottom := bottom }

/-- A `drawTexture` call as the renderer receives it: its arguments and the
render state in force when it is made. -/
structure DrawTextureCall where
  texture : TextureId
  sourceRect : TexCoords
  destRect : Rect Int
  state : RenderState
deriving DecidableEq, Repr

/-- The renderer a `MapRenderer` draws with (`mpRenderer`), together with the
record of the `drawTexture` calls made on it, in call order. -/
structure TracedRenderer where
  renderer : Renderer
  drawTextureCalls : List DrawTextureCall
deriving DecidableEq, Repr

/-- The call `mpRenderer->setTextureRepeatEnabled(enable)`. -/
def TracedRenderer.setTextureRepeatEnabled (t : TracedRenderer) (enable : Bool) :
    TracedRenderer :=
  { t with renderer := t.renderer.setTextureRepeatEnabled enable }

/-- The call `mpRenderer->drawTexture(texture, sourceRect, destRect)`; the
call is recorded. -/
def TracedRenderer.drawTexture (t : TracedRenderer) (texture : TextureId)
    (sourceRect : TexCoords) (destRect : Rect Int) : TracedRenderer :=
  { renderer := t.renderer.drawTexture texture sourceRect destRect
    drawTextureCalls := t.drawTextureCalls ++
      [{ texture := texture, sourceRect := sourceRect, destRect := destRect,
         state := t.renderer.state }] }

/-- The call `renderer::saveState(mpRenderer)`. -/
def TracedRenderer.saveState (t : TracedRenderer) : TracedRenderer × ScopeGuard :=
  ({ t with renderer := (Rigel.saveState t.renderer).1 }, (Rigel.saveState t.renderer).2)

/-- The end of the scope that holds the guard: its destructor runs on the
renderer. -/
def TracedRenderer.release (t : TracedRenderer) (g : ScopeGuard) : Option TracedRenderer :=
  (g.release t.renderer).map (fun r => { t with renderer := r })

/-- Embedding of `MapRenderer::renderBackdrop` (map_renderer.cpp, lines
216-226): `{}` is the origin. -/
def MapRenderer.renderBackdrop (m : MapRenderer) (d : MapRendererDeps) (t : TracedRenderer)
    (cameraPosition : Point Int) (viewPortSize : Size Int) : Option TracedRenderer :=
  let saved := t.saveState
  let t1 := saved.1.setTextureRepeatEnabled true
  let t2 := t1.drawTexture m.mBackdropTexture.data
    (m.calculateBackdropTexCoords d t1.renderer cameraPosition viewPortSize)
    { topLeft := ⟨0, 0⟩, size := d.tileExtentsToPixelExtents viewPortSize }
  t2.release saved.2

/-- A call `mTileSetTexture.renderTile(index, x, y)`; the tiled texture class
is missing, so the call itself is the observable effect. -/
structure TileDrawCall where
  tileIndex : TileIndex
  x : Int
  y : Int
deriving DecidableEq, Repr

/-- Embedding of `MapRenderer::animatedTileIndex` (map_renderer.cpp, lines
303-321). -/
def MapRenderer.animatedTileIndex (m : MapRenderer) (tileIndex : TileIndex) : TileIndex :=
  if (m.mpMap.attributes tileIndex).isAnimated then
    let fastAnimOffset := (m.mElapsedFrames / FAST_ANIM_FRAME_DELAY) % ANIM_STATES
    let slowAnimOffset := (m.mElapsedFrames / SLOW_ANIM_FRAME_DELAY) % ANIM_STATES
    let isFastAnim := (m.mpMap.attributes tileIndex).isFastAnimation
    tileIndex + (if isFastAnim then fastAnimOffset else slowAnimOffset)
  else
    tileIndex

/-- Embedding of `MapRenderer::renderTile` (map_renderer.cpp, lines 288-300):
the tile draws it issues. -/
def MapRenderer.renderTile (m : MapRenderer) (tileIndex : TileIndex) (x y : Int) :
    List TileDrawCall :=
  if tileIndex ≠ 0 then
    let tileIndexToDraw := m.animatedTileIndex tileIndex
    [{ tileIndex := tileIndexToDraw, x := x, y := y }]
  else
    []

/-- Embedding of `MapRenderer::renderSingleTile` (map_renderer.cpp, lines
278-285). -/
def MapRenderer.renderSingleTile (m : MapRenderer) (index : TileIndex)
    (position cameraPosition : Point Int) : List TileDrawCall :=
  let screenPosition : Point Int :=
    { x := position.x - cameraPosition.x, y := position.y - cameraPosition.y }
  m.renderTile index screenPosition.x screenPosition.y

/-- Embedding of `MapRenderer::DrawMode` (map_renderer.hpp is missing; the two
values map_renderer.cpp names). -/
inductive DrawMode where
  | Background
  | Foreground
deriving DecidableEq, Repr

/-- The body of the innermost loop of `MapRenderer::renderMapTiles`
(map_renderer.cpp, lines 240-257) for one `layer`, `y`, `x`; `continue` issues
no draw.  The sums `x + sectionStart.x` and `y + sectionStart.y` are 32-bit
`int` additions, so their results are wrapped. -/
def MapRenderer.renderMapTilesCell (m : MapRenderer) (sectionStart : Point Int)
    (drawMode : DrawMode) (layer y x : Int) : List TileDrawCall :=
  let col := toInt32 (x + sectionStart.x)
  let row := toInt32 (y + sectionStart.y)
  if col ≥ m.mpMap.width ∨ row ≥ m.mpMap.height then
    []
  else
    let tileIndex := m.mpMap.tileAt layer col row
    let isForeground := (m.mpMap.attributes tileIndex).isForeGround
    let shouldRenderForeground := drawMode == DrawMode.Foreground
    if isForeground != shouldRenderForeground then
      []
    else
      m.renderTile tileIndex x y

/-- The values `0, 1, ..., n-1` that `for (int i = 0; i < n; ++i)` runs
through; none when `n ≤ 0`. -/
def intRange (n : Int) : List Int :=
  List.map Int.ofNat (List.range n.toNat)

/-- Embedding of `MapRenderer::renderMapTiles` (map_renderer.cpp, lines
229-261): the tile draws issued, in loop order. -/
def MapRenderer.renderMapTiles (m : MapRenderer) (sectionStart : Point Int)
    (sectionSize : Size Int) (drawMode : DrawMode) : List TileDrawCall :=
  (intRange 2).flatMap fun layer =>
    (intRange sectionSize.height).flatMap fun y =>
      (intRange sectionSize.width).flatMap fun x =>
        m.renderMapTilesCell sectionStart drawMode layer y x

/-- Embedding of `MapRenderer::renderBackground` (map_renderer.cpp, lines
159-164). -/
def MapRenderer.renderBackground (m : MapRenderer) (sectionStart : Point Int)
    (sectionSize : Size Int) : List TileDrawCall :=
  m.renderMapTiles sectionStart sectionSize DrawMode.Background

/-- Embedding of `MapRenderer::renderForeground` (map_renderer.cpp, lines
167-172). -/
def MapRenderer.renderForeground (m : MapRenderer) (sectionStart : Point Int)
    (sectionSize : Size Int) : List TileDrawCall :=
  m.renderMapTiles sectionStart sectionSize DrawMode.Foreground

/-- The cells `(layer, y, x)` that the three loops of
`MapRenderer::renderMapTiles` run through, in loop order. -/
def sectionCells (sectionSize : Size Int) : List (Int × Int × Int) :=
  (intRange 2).flatMap fun layer =>
    (intRange sectionSize.height).flatMap fun y =>
      (intRange sectionSize.width).map fun x => (layer, y, x)

/-- Concrete parameters used as input: a 256x160 viewport, 8-pixel tiles,
rounding half up, and a 1920x1080 render target. -/
def exampleDeps : MapRendererDeps :=
  { viewPortWidthPx := 256
    viewPortHeightPx := 160
    tilesToPixels := fun tiles => tiles * 8
    tileExtentsToPixelExtents := fun s => ⟨s.width * 8, s.height * 8⟩
    round := fun q => Int.floor (q + 1 / 2)
    currentRenderTargetSize := fun _ => ⟨1920, 1080⟩ }

/-- A concrete 4x3 map used as input: layer 0 holds tile `col + row`, layer 1
holds tile 5 in column 1 and nothing elsewhere; tiles from 5 on are foreground
and animated. -/
def exampleMap : Map :=
  { width := 4
    height := 3
    tileAt := fun layer col row =>
      if layer = 0 then (col + row).toNat else if col = 1 then 5 else 0
    attributes := fun index =>
      { isForeGround := decide (5 ≤ index), isAnimated := decide (5 ≤ index),
        isFastAnimation := false } }

/-- A concrete map renderer used as input: a backdrop of the original size
256x160 that scrolls with the camera. -/
def exampleMapRenderer : MapRenderer :=
  { mpMap := exampleMap
    mBackdropTexture := { data := 3, width := 256, height := 160 }
    mScrollMode := BackdropScrollMode.ParallaxBoth
    mBackdropAutoScrollOffset := 0
    mElapsedFrames := 6 }

/-- The start of the section used as concrete input: column 1, row 0. -/
def exampleStart : Point Int := ⟨1, 0⟩

/-- The size of the section used as concrete input: 4 columns, 3 rows, so that
its last column lies outside the example map. -/
def exampleSize : Size Int := ⟨4, 3⟩

/-- A concrete 4x3 map used as input: every cell of both layers, whatever its
coordinates, holds tile 1, a background tile. -/
def uniformMap : Map :=
  { width := 4
    height := 3
    tileAt := fun _ _ _ => 1
    attributes := fun _ =>
      { isForeGround := false, isAnimated := false, isFastAnimation := false } }

/-- A concrete map renderer used as input, on the uniform map. -/
def uniformMapRenderer : MapRenderer :=
  { exampleMapRenderer with mpMap := uniformMap }

/-- A section start used as concrete input: the largest `int` as column. -/
def overflowStart : Point Int := ⟨2147483647, 0⟩

/-- A section size used as concrete input: 2 columns, 1 row. -/
def overflowSize : Size Int := ⟨2, 1⟩

/-! ## `common/user_profile.cpp`

The file works on `nlohmann::json` values (a library outside the repository)
and on types and constants of `data/` headers that are not among the sources.
The JSON operations the code uses are modelled below; the constants are
parameters. -/

/-- A `nlohmann::json` value.  Integers of either signedness are `int`,
floating-point numbers are exact rationals; an object keeps its members in key
order, as the library's `std::map` does. -/
inductive Json where
  | null
  | bool (b : Bool)
  | int (n : Int)
  | float (q : ℚ)
  | string (s : String)
  | array (items : List Json)
  | object (members : List (String × Json))

/-- How loading can fail: a `nlohmann::json` exception (`at` on a missing key
or on a non-object, `get` on a value of the wrong type), which `loadProfile`
catches, or a write outside the bounds of a `std::array`, which is undefined
behaviour. -/
inductive LoadError where
  | jsonException
  | outOfRangeWrite
deriving DecidableEq, Repr

/-- The test `json.is_null()`. -/
def Json.isNull : Json → Bool
  | Json.null => true
  | _ => false

/-- Lookup of a key among the members of an object. -/
def lookupMember (key : String) : List (String × Json) → Option Json
  | [] => none
  | (k, v) :: rest => if k = key then some v else lookupMember key rest

/-- The call `json.at(key)`: the member of an object, an exception if the key
is missing or the value is no object. -/
def Json.at (j : Json) (key : String) : Except LoadError Json :=
  match j with
  | Json.object members =>
    match lookupMember key members with
    | some v => Except.ok v
    | none => Except.error LoadError.jsonException
  | _ => Except.error LoadError.jsonException

/-- Insertion of a member into the key-ordered members of an object; an
existing member of that key is replaced. -/
def insertMember (key : String) (value : Json) : List (String × Json) → List (String × Json)
  | [] => [(key, value)]
  | (k, v) :: rest =>
    if k = key then (key, value) :: rest
    else if key < k then (key, value) :: (k, v) :: rest
    else (k, v) :: insertMember key value rest

/-- The assignment `json[key] = value`: `null` becomes an object, an object
gets the member.  (On any other value the library throws; the code only
assigns to values it has just default-constructed.) -/
def Json.set (j : Json) (key : String) (value : Json) : Json :=
  match j with
  | Json.null => Json.object [(key, value)]
  | Json.object members => Json.object (insertMember key value members)
  | other => other

/-- The values a range-based `for` over a json value runs through: the
elements of an array, the member values of an object, nothing for `null`, the
value itself for any other value. -/
def Json.elements : Json → List Json
  | Json.null => []
  | Json.array items => items
  | Json.object members => members.map (fun kv => kv.2)
  | other => [other]

/-- The call `get<int>()`: numbers and booleans convert (a floating-point
number is truncated towards zero; where C++ leaves the conversion of a value
outside the `int` range open, the model wraps), anything else is an
exception. -/
def Json.getInt : Json → Except LoadError Int
  | Json.int n => Except.ok (toInt32 n)
  | Json.bool b => Except.ok (if b then 1 else 0)
  | Json.float q => Except.ok (toInt32 (if 0 ≤ q then Int.floor q else Int.ceil q))
  | _ => Except.error LoadError.jsonException

/-- The call `get<std::string>()`: only strings convert. -/
def Json.getString : Json → Except LoadError String
  | Json.string s => Except.ok s
  | _ => Except.error LoadError.jsonException

/-- The `to_json` that `NLOHMANN_JSON_SERIALIZE_ENUM` generates: the name
paired with the value in the table, the first pair's name if there is none. -/
def enumToJson {α : Type} [DecidableEq α] (first : α × String) (rest : List (α × String))
    (value : α) : Json :=
  match (first :: rest).find? (fun p => decide (p.1 = value)) with
  | some p => Json.string p.2
  | none => Json.string first.2

/-- The `from_json` that `NLOHMANN_JSON_SERIALIZE_ENUM` generates: the value
paired with the json in the table, the first pair's value if there is none (in
particular for every json that is no string). -/
def enumFromJson {α : Type} (first : α × String) (rest : List (α × String)) (j : Json) : α :=
  match j with
  | Json.string s =>
    match (first :: rest).find? (fun p => decide (p.2 = s)) with
    | some p => p.1
    | none => first.1
  | _ => first.1

/-- Embedding of `std::clamp(v, lo, hi)`. -/
def clamp (v lo hi : Int) : Int :=
  if v < lo then lo else if hi < v then hi else v

/-- The assignment `array[i] = value` on a `std::array`: a write outside the
bounds is undefined behaviour. -/
def writeAt {α : Type} (l : List α) (i : Nat) (value : α) : Except LoadError (List α) :=
  if i < l.length then Except.ok (l.set i value) else Except.error LoadError.outOfRangeWrite

/-- Modelled from the spec: `data::Difficulty` (its header is missing), with
the enumerators of the JSON table (user_profile.cpp, lines 36-40). -/
inductive Difficulty where
  | Easy
  | Medium
  | Hard
deriving DecidableEq, Repr

/-- Modelled from the spec: `data::WeaponType` (its header is missing), with
the enumerators of the JSON table (lines 42-47). -/
inductive WeaponType where
  | Normal
  | Laser
  | Rocket
  | FlameThrower
deriving DecidableEq, Repr

/-- Modelled from the spec: `data::TutorialMessageId` (its header is missing),
with the enumerators of the JSON table (lines 50-76), in that order. -/
inductive TutorialMessageId where
  | FoundRapidFire
  | FoundHealthMolecule
  | FoundRegularWeapon
  | FoundLaser
  | FoundFlameThrower
  | FoundRocketLauncher
  | EarthQuake
  | FoundBlueKey
  | FoundAccessCard
  | FoundSpaceShip
  | FoundLetterN
  | FoundLetterU
  | FoundLetterK
  | FoundLetterE
  | KeyNeeded
  | AccessCardNeeded
  | CloakNeeded
  | RadarsStillFunctional
  | HintGlobeNeeded
  | FoundTurboLift
  | FoundTeleporter
  | LettersCollectedRightOrder
  | FoundSoda
  | FoundForceField
  | FoundDoor
deriving DecidableEq, Repr

/-- Embedding of the table of `NLOHMANN_JSON_SERIALIZE_ENUM(Difficulty, ...)`
without its first pair. -/
def difficultyTable : List (Difficulty × String) :=
  [(Difficulty.Medium, "Medium"), (Difficulty.Hard, "Hard")]

/-- The `to_json` of `Difficulty` (user_profile.cpp, lines 36-40). -/
def Difficulty.toJson (value : Difficulty) : Json :=
  enumToJson (Difficulty.Easy, "Easy") difficultyTable value

/-- The `from_json` of `Difficulty`. -/
def Difficulty.fromJson (j : Json) : Difficulty :=
  enumFromJson (Difficulty.Easy, "Easy") difficultyTable j

/-- Embedding of the table of `NLOHMANN_JSON_SERIALIZE_ENUM(WeaponType, ...)`
without its first pair. -/
def weaponTypeTable : List (WeaponType × String) :=
  [(WeaponType.Laser, "Laser"), (WeaponType.Rocket, "Rocket"),
   (WeaponType.FlameThrower, "FlameThrower")]

/-- The `to_json` of `WeaponType` (user_profile.cpp, lines 42-47). -/
def WeaponType.toJson (value : WeaponType) : Json :=
  enumToJson (WeaponType.Normal, "Normal") weaponTypeTable value

/-- The `from_json` of `WeaponType`. -/
def WeaponType.fromJson (j : Json) : WeaponType :=
  enumFromJson (WeaponType.Normal, "Normal") weaponTypeTable j

/-- Embedding of the table of
`NLOHMANN_JSON_SERIALIZE_ENUM(TutorialMessageId, ...)` without its first
pair. -/
def tutorialMessageIdTable : List (TutorialMessageId × String) :=
  [(TutorialMessageId.FoundHealthMolecule, "FoundHealthMolecule"),
   (TutorialMessageId.FoundRegularWeapon, "FoundRegularWeapon"),
   (TutorialMessageId.FoundLaser, "FoundLaser"),
   (TutorialMessageId.FoundFlameThrower, "FoundFlameThrower"),
   (TutorialMessageId.FoundRocketLauncher, "FoundRocketLauncher"),
   (TutorialMessageId.EarthQuake, "EarthQuake"),
   (TutorialMessageId.FoundBlueKey, "FoundBlueKey"),
   (TutorialMessageId.FoundAccessCard, "FoundAccessCard"),
   (TutorialMessageId.FoundSpaceShip, "FoundSpaceShip"),
   (TutorialMessageId.FoundLetterN, "FoundLetterN"),
   (TutorialMessageId.FoundLetterU, "FoundLetterU"),
   (TutorialMessageId.FoundLetterK, "FoundLetterK"),
   (TutorialMessageId.FoundLetterE, "FoundLetterE"),
   (TutorialMessageId.KeyNeeded, "KeyNeeded"),
   (TutorialMessageId.AccessCardNeeded, "AccessCardNeeded"),
   (TutorialMessageId.CloakNeeded, "CloakNeeded"),
   (TutorialMessageId.RadarsStillFunctional, "RadarsStillFunctional"),
   (TutorialMessageId.HintGlobeNeeded, "HintGlobeNeeded"),
   (TutorialMessageId.FoundTurboLift, "FoundTurboLift"),
   (TutorialMessageId.FoundTeleporter, "FoundTeleporter"),
   (TutorialMessageId.LettersCollectedRightOrder, "LettersCollectedRightOrder"),
   (TutorialMessageId.FoundSoda, "FoundSoda"),
   (TutorialMessageId.FoundForceField, "FoundForceField"),
   (TutorialMessageId.FoundDoor, "FoundDoor")]

/-- The `to_json` of `TutorialMessageId` (user_profile.cpp, lines 50-76). -/
def TutorialMessageId.toJson (value : TutorialMessageId) : Json :=
  enumToJson (TutorialMessageId.FoundRapidFire, "FoundRapidFire") tutorialMessageIdTable value

/-- The `from_json` of `TutorialMessageId`. -/
def TutorialMessageId.fromJson (j : Json) : TutorialMessageId :=
  enumFromJson (TutorialMessageId.FoundRapidFire, "FoundRapidFire") tutorialMessageIdTable j

/-- Modelled from the spec: `data::NUM_TUTORIAL_MESSAGES` (its header is
missing), taken to be the number of enumerators. -/
def NUM_TUTORIAL_MESSAGES : Nat := 25

/-- The conversion `static_cast<data::TutorialMessageId>(i)`: the enumerator
of value `i`, the enumerators numbered from 0 in the order of the table. -/
def TutorialMessageId.staticCast (i : Nat) : TutorialMessageId :=
  (((TutorialMessageId.FoundRapidFire, "FoundRapidFire") :: tutorialMessageIdTable).map
    (fun p => p.1)).getD i TutorialMessageId.FoundRapidFire

/-- Modelled from the spec: `data::TutorialMessageState` (its header is
missing), by its two members the code calls: the state is the set of messages
marked as shown. -/
structure TutorialMessageState where
  shown : TutorialMessageId → Bool

/-- Modelled from the spec: a default-constructed `TutorialMessageState` has
no message marked. -/
def TutorialMessageState.empty : TutorialMessageState :=
  { shown := fun _ => false }

/-- Modelled from the spec: `TutorialMessageState::hasBeenShown`. -/
def TutorialMessageState.hasBeenShown (s : TutorialMessageState) (id : TutorialMessageId) :
    Bool :=
  s.shown id

/-- Modelled from the spec: `TutorialMessageState::markAsShown`. -/
def TutorialMessageState.markAsShown (s : TutorialMessageState) (id : TutorialMessageId) :
    TutorialMessageState :=
  { shown := fun other => if other = id then true else s.shown other }

/-- Modelled from the spec: `data::GameSessionId` (its header is missing), by
the members user_profile.cpp reads and writes. -/
structure GameSessionId where
  mEpisode : Int
  mLevel : Int
  mDifficulty : Difficulty

/-- Modelled from the spec: `data::SavedGame` (its header is missing), by the
members user_profile.cpp reads and writes. -/
structure SavedGame where
  mSessionId : GameSessionId
  mTutorialMessagesAlreadySeen : TutorialMessageState
  mName : String
  mWeapon : WeaponType
  mAmmo : Int
  mScore : Int

/-- Modelled from the spec: `data::HighScoreEntry` (its header is missing), by
the members user_profile.cpp reads and writes. -/
structure HighScoreEntry where
  mName : String
  mScore : Int
deriving DecidableEq, Repr

/-- Modelled from the spec: what user_profile.cpp takes from missing `data/`
headers, as parameters: the constants `NUM_EPISODES`,
`NUM_LEVELS_PER_EPISODE`, `MAX_AMMO`, `MAX_AMMO_FLAME_THROWER`, `MAX_SCORE`,
`NUM_HIGH_SCORE_ENTRIES`, the sizes of `SaveSlotArray` and
`HighScoreListArray`, the default-constructed `HighScoreEntry` and the
`operator<` of `HighScoreEntry` that `sort` uses. -/
structure ProfileDeps where
  NUM_EPISODES : Int
  NUM_LEVELS_PER_EPISODE : Int
  MAX_AMMO : Int
  MAX_AMMO_FLAME_THROWER : Int
  MAX_SCORE : Int
  NUM_HIGH_SCORE_ENTRIES : Nat
  NUM_SAVE_SLOTS : Nat
  NUM_HIGH_SCORE_LISTS : Nat
  defaultHighScoreEntry : HighScoreEntry
  highScoreLess : HighScoreEntry → HighScoreEntry → Bool

/-- Embedding of `serialize(const data::TutorialMessageState&)`
(user_profile.cpp, lines 120-131). -/
def serializeTutorialMessageState (messageState : TutorialMessageState) : Json :=
  Json.array ((List.range NUM_TUTORIAL_MESSAGES).filterMap (fun i =>
    let value := TutorialMessageId.staticCast i
    if messageState.hasBeenShown value then some value.toJson else none))

/-- Embedding of `serialize(const data::SavedGame&)` (user_profile.cpp, lines
134-148). -/
def serializeSavedGame (savedGame : SavedGame) : Json :=
  let serialized := Json.null
  let serialized := serialized.set "episode" (Json.int savedGame.mSessionId.mEpisode)
  let serialized := serialized.set "level" (Json.int savedGame.mSessionId.mLevel)
  let serialized := serialized.set "difficulty" savedGame.mSessionId.mDifficulty.toJson
  let serialized := serialized.set "tutorialMessagesAlreadySeen"
    (serializeTutorialMessageState savedGame.mTutorialMessagesAlreadySeen)
  let serialized := serialized.set "name" (Json.string savedGame.mName)
  let serialized := serialized.set "weapon" savedGame.mWeapon.toJson
  let serialized := serialized.set "ammo" (Json.int savedGame.mAmmo)
  let serialized := serialized.set "score" (Json.int savedGame.mScore)
  serialized

/-- Embedding of `serialize(const data::SaveSlotArray&)` (user_profile.cpp,
lines 151-161). -/
def serializeSaveSlotArray (saveSlots : List (Option SavedGame)) : Json :=
  Json.array (saveSlots.map (fun slot =>
    match slot with
    | some savedGame => serializeSavedGame savedGame
    | none => Json.null))

/-- Embedding of `deserialize<data::SavedGame>` (user_profile.cpp, lines
209-237). -/
def deserializeSavedGame (k : ProfileDeps) (json : Json) : Except LoadError SavedGame := do
  let mEpisode := clamp (← (← json.at "episode").getInt) 0 (k.NUM_EPISODES - 1)
  let mLevel := clamp (← (← json.at "level").getInt) 0 (k.NUM_LEVELS_PER_EPISODE - 1)
  let mDifficulty := Difficulty.fromJson (← json.at "difficulty")
  let messageIds ← json.at "tutorialMessagesAlreadySeen"
  let mTutorialMessagesAlreadySeen := messageIds.elements.foldl
    (fun state messageId => state.markAsShown (TutorialMessageId.fromJson messageId))
    TutorialMessageState.empty
  let mName ← (← json.at "name").getString
  let mWeapon := WeaponType.fromJson (← json.at "weapon")
  let maxAmmo := if mWeapon = WeaponType.FlameThrower then k.MAX_AMMO_FLAME_THROWER
    else k.MAX_AMMO
  let mAmmo := clamp (← (← json.at "ammo").getInt) 0 maxAmmo
  let mScore := clamp (← (← json.at "score").getInt) 0 k.MAX_SCORE
  pure
    { mSessionId := { mEpisode := mEpisode, mLevel := mLevel, mDifficulty := mDifficulty }
      mTutorialMessagesAlreadySeen := mTutorialMessagesAlreadySeen
      mName := mName
      mWeapon := mWeapon
      mAmmo := mAmmo
      mScore := mScore }

/-- The loop of `deserialize<data::SaveSlotArray>` (user_profile.cpp, lines
246-255), at index `i` with the remaining json values. -/
def deserializeSaveSlotsLoop (k : ProfileDeps) :
    List Json → Nat → List (Option SavedGame) → Except LoadError (List (Option SavedGame))
  | [], _, result => pure result
  | serializedSlot :: rest, i, result => do
    let result ←
      if !serializedSlot.isNull then do
        let savedGame ← deserializeSavedGame k serializedSlot
        writeAt result i (some savedGame)
      else
        pure result
    let i := i + 1
    if i ≥ result.length then
      pure result
    else
      deserializeSaveSlotsLoop k rest i result

/-- Embedding of `deserialize<data::SaveSlotArray>` (user_profile.cpp, lines
240-258); the array starts with every slot empty. -/
def deserializeSaveSlotArray (k : ProfileDeps) (json : Json) :
    Except LoadError (List (Option SavedGame)) :=
  deserializeSaveSlotsLoop k json.elements 0 (List.replicate k.NUM_SAVE_SLOTS none)

/-- Concrete parameters used as input: four episodes of eight levels, ammo up
to 32 (64 for the flame thrower), scores up to 9999999, ten entries in each of
four high-score lists, eight save slots; entries are ordered by descending
score and the default entry has an empty name and score 0. -/
def exampleProfileDeps : ProfileDeps :=
  { NUM_EPISODES := 4
    NUM_LEVELS_PER_EPISODE := 8
    MAX_AMMO := 32
    MAX_AMMO_FLAME_THROWER := 64
    MAX_SCORE := 9999999
    NUM_HIGH_SCORE_ENTRIES := 10
    NUM_SAVE_SLOTS := 8
    NUM_HIGH_SCORE_LISTS := 4
    defaultHighScoreEntry := { mName := "", mScore := 0 }
    highScoreLess := fun a b => decide (a.mScore > b.mScore) }

/-- A concrete saved game used as input: episode 2, level 5, flame thrower
with 50 shots. -/
def exampleSavedGame : SavedGame :=
  { mSessionId := { mEpisode := 1, mLevel := 4, mDifficulty := Difficulty.Hard }
    mTutorialMessagesAlreadySeen :=
      (TutorialMessageState.empty.markAsShown TutorialMessageId.FoundLaser).markAsShown
        TutorialMessageId.FoundDoor
    mName := "Duke"
    mWeapon := WeaponType.FlameThrower
    mAmmo := 50
    mScore := 123400 }

/-- Concrete save slots used as input: the example game in the third of eight
slots. -/
def exampleSaveSlots : List (Option SavedGame) :=
  [none, none, some exampleSavedGame, none, none, none, none, none]

/-- A call `mpMap->tileAt(layer, col, row)` with its three arguments. -/
structure MapAccess where
  layer : Int
  col : Int
  row : Int
deriving DecidableEq, Repr

/-- The body of the innermost loop of `MapRenderer::renderMapTiles`
(map_renderer.cpp, lines 240-257) for one `layer`, `y`, `x`, with the map
accesses it makes next to the tile draws it issues: a cell that fails the
bounds check is skipped before the map is read, every other cell reads the map
once, before the draw mode is looked at.  The two sums are 32-bit `int`
additions, as in `renderMapTilesCell`. -/
def MapRenderer.renderMapTilesCellTraced (m : MapRenderer) (sectionStart : Point Int)
    (drawMode : DrawMode) (layer y x : Int) : List MapAccess × List TileDrawCall :=
  let col := toInt32 (x + sectionStart.x)
  let row := toInt32 (y + sectionStart.y)
  if col ≥ m.mpMap.width ∨ row ≥ m.mpMap.height then
    ([], [])
  else
    let access : MapAccess := { layer := layer, col := col, row := row }
    let tileIndex := m.mpMap.tileAt layer col row
    let isForeground := (m.mpMap.attributes tileIndex).isForeGround
    let shouldRenderForeground := drawMode == DrawMode.Foreground
    if isForeground != shouldRenderForeground then
      ([access], [])
    else
      ([access], m.renderTile tileIndex x y)

/-- The map accesses `MapRenderer::renderMapTiles` (map_renderer.cpp, lines
229-261) makes, in loop order. -/
def MapRenderer.renderMapTilesAccesses (m : MapRenderer) (sectionStart : Point Int)
    (sectionSize : Size Int) (drawMode : DrawMode) : List MapAccess :=
  (intRange 2).flatMap fun layer =>
    (intRange sectionSize.height).flatMap fun y =>
      (intRange sectionSize.width).flatMap fun x =>
        (m.renderMapTilesCellTraced sectionStart drawMode layer y x).1

/-! ## Theorems -/

/-! ### Machine integers -/

theorem toInt32_of_mem (n : Int) (h1 : -2 ^ 31 ≤ n) (h2 : n < 2 ^ 31) : toInt32 n = n := by
  unfold toInt32
  omega

theorem toInt32_of_fits (n : Int) (h : fitsInt32 n) : toInt32 n = n :=
  toInt32_of_mem n h.1 h.2

/-! ### Rounding to the nearest `float` -/

theorem roundHalfEven_intCast (n : Int) : roundHalfEven (n : ℚ) = n := by
  simp [roundHalfEven]

theorem roundHalfEven_bounds (q : ℚ) :
    (roundHalfEven q : ℚ) - 1 / 2 ≤ q ∧ q ≤ (roundHalfEven q : ℚ) + 1 / 2 := by
  have h1 := Int.floor_le q
  have h2 := Int.lt_floor_add_one q
  unfold roundHalfEven
  simp only
  split_ifs <;> push_cast <;> constructor <;> linarith

theorem roundHalfEven_eq_of_abs_lt (q : ℚ) (n : Int) (h : |q - n| < 1 / 2) :
    roundHalfEven q = n := by
  obtain ⟨h1, h2⟩ := roundHalfEven_bounds q
  rw [abs_lt] at h
  obtain ⟨h3, h4⟩ := h
  have h5 : ((roundHalfEven q : ℤ) : ℚ) < (n : ℚ) + 1 := by linarith
  have h6 : (n : ℚ) - 1 < ((roundHalfEven q : ℤ) : ℚ) := by linarith
  have h7 : roundHalfEven q < n + 1 := by exact_mod_cast h5
  have h8 : n - 1 < roundHalfEven q := by exact_mod_cast h6
  omega

theorem roundHalfEven_mono {s t : ℚ} (h : s ≤ t) : roundHalfEven s ≤ roundHalfEven t := by
  have hf : Int.floor s ≤ Int.floor t := Int.floor_mono h
  have hs1 := Int.floor_le s
  have hs2 := Int.lt_floor_add_one s
  have ht1 := Int.floor_le t
  have ht2 := Int.lt_floor_add_one t
  rcases hf.lt_or_eq with hlt | heq
  · have h1 : roundHalfEven s ≤ Int.floor s + 1 := by
      unfold roundHalfEven
      simp only
      split_ifs <;> omega
    have h2 : Int.floor t ≤ roundHalfEven t := by
      unfold roundHalfEven
      simp only
      split_ifs <;> omega
    omega
  · unfold roundHalfEven
    simp only
    rw [heq]
    have hr : s - (Int.floor t : ℚ) ≤ t - (Int.floor t : ℚ) := by linarith
    split_ifs <;> first | omega | (exfalso; linarith)

theorem roundHalfEven_tie_even (n : Int) (h : n % 2 = 0) :
    roundHalfEven ((n : ℚ) + 1 / 2) = n := by
  have hf : Int.floor ((n : ℚ) + 1 / 2) = n := by
    rw [Int.floor_eq_iff]
    constructor <;> linarith
  unfold roundHalfEven
  simp only [hf]
  norm_num [h]

theorem F32.log_eq {r : ℚ} {e : ℤ} (h1 : (2 : ℚ) ^ e ≤ r) (h2 : r < (2 : ℚ) ^ (e + 1)) :
    Int.log 2 r = e := by
  have hpos : 0 < r := lt_of_lt_of_le (zpow_pos (by norm_num) e) h1
  have ha : e ≤ Int.log 2 r := by
    rw [← Int.zpow_le_iff_le_log (by norm_num) hpos]
    simpa using h1
  have hb : Int.log 2 r < e + 1 := by
    rw [← Int.lt_zpow_iff_log_lt (by norm_num) hpos]
    simpa using h2
  omega

theorem F32.exponent_ge (q : ℚ) : -126 ≤ F32.exponent q :=
  le_max_right _ _

theorem F32.exponent_eq {q : ℚ} {e : ℤ} (he : -126 ≤ e) (h1 : (2 : ℚ) ^ e ≤ |q|)
    (h2 : |q| < (2 : ℚ) ^ (e + 1)) : F32.exponent q = e := by
  unfold F32.exponent
  rw [F32.log_eq h1 h2]
  exact max_eq_left he

theorem F32.exponent_le {q : ℚ} {e : ℤ} (he : -126 ≤ e) (h0 : q ≠ 0)
    (h2 : |q| < (2 : ℚ) ^ (e + 1)) : F32.exponent q ≤ e := by
  unfold F32.exponent
  have hpos : 0 < |q| := abs_pos.mpr h0
  have hb : Int.log 2 |q| < e + 1 := by
    rw [← Int.lt_zpow_iff_log_lt (by norm_num) hpos]
    simpa using h2
  exact max_le (by omega) he

theorem F32.abs_lt_zpow_exponent (q : ℚ) : |q| < (2 : ℚ) ^ (F32.exponent q + 1) := by
  have h := Int.lt_zpow_succ_log_self (b := 2) (by norm_num) |q|
  have h2 : ((2 : ℕ) : ℚ) ^ (Int.log 2 |q| + 1) ≤ (2 : ℚ) ^ (F32.exponent q + 1) := by
    simp only [Nat.cast_ofNat]
    apply zpow_le_zpow_right₀ (by norm_num)
    unfold F32.exponent
    have := le_max_left (Int.log 2 |q|) (-126)
    omega
  exact lt_of_lt_of_le h h2

theorem F32.zpow_exponent_le {q : ℚ} (h0 : q ≠ 0) (hn : F32.exponent q ≠ -126) :
    (2 : ℚ) ^ F32.exponent q ≤ |q| := by
  have hpos : 0 < |q| := abs_pos.mpr h0
  have h := Int.zpow_log_le_self (b := 2) (by norm_num) hpos
  have he : F32.exponent q = Int.log 2 |q| := by
    unfold F32.exponent at hn ⊢
    rcases max_cases (Int.log 2 |q|) (-126) with ⟨h1, _⟩ | ⟨h1, _⟩
    · exact h1
    · exact absurd h1 hn
  rw [he]
  simpa using h

theorem F32.exponent_mono {a b : ℚ} (ha : a ≠ 0) (h : |a| ≤ |b|) :
    F32.exponent a ≤ F32.exponent b := by
  unfold F32.exponent
  have hpos : 0 < |a| := abs_pos.mpr ha
  exact max_le_max (Int.log_mono_right hpos h) le_rfl

theorem F32.ulp_pos (q : ℚ) : 0 < F32.ulp q :=
  zpow_pos (by norm_num) _

theorem F32.round_zero : F32.round 0 = 0 := by
  simp [F32.round, roundHalfEven]

theorem F32.round_nonneg {q : ℚ} (h : 0 ≤ q) : 0 ≤ F32.round q := by
  unfold F32.round
  have h1 : (0 : ℚ) ≤ q / F32.ulp q := div_nonneg h (F32.ulp_pos q).le
  have h2 := roundHalfEven_mono h1
  have h3 : roundHalfEven 0 = 0 := by simpa using roundHalfEven_intCast 0
  rw [h3] at h2
  exact mul_nonneg (by exact_mod_cast h2) (F32.ulp_pos q).le

/-- A multiple of a power of two that is no finer than the spacing at `q`
is not changed by rounding. -/
theorem F32.round_eq_self {q : ℚ} (k j : ℤ) (hq : q = (k : ℚ) * (2 : ℚ) ^ j)
    (hj : F32.exponent q - 23 ≤ j) : F32.round q = q := by
  unfold F32.round F32.ulp
  set E := F32.exponent q with hE
  have hm : (0 : ℤ) ≤ j - (E - 23) := by omega
  obtain ⟨m, hm2⟩ := Int.eq_ofNat_of_zero_le hm
  have h2 : (2 : ℚ) ^ j = (2 : ℚ) ^ (m : ℤ) * (2 : ℚ) ^ (E - 23) := by
    rw [← zpow_add₀ (by norm_num : (2 : ℚ) ≠ 0)]
    congr 1
    omega
  have h3 : q / (2 : ℚ) ^ (E - 23) = ((k * 2 ^ m : ℤ) : ℚ) := by
    rw [hq, h2]
    have hne : (2 : ℚ) ^ (E - 23) ≠ 0 := zpow_ne_zero _ (by norm_num)
    field_simp
    ring
  rw [h3, roundHalfEven_intCast]
  rw [hq, h2]
  push_cast
  rw [zpow_natCast]
  ring

theorem F32.round_zpow (k : ℤ) (hk : -126 ≤ k) : F32.round ((2 : ℚ) ^ k) = (2 : ℚ) ^ k := by
  have hpos : (0 : ℚ) < (2 : ℚ) ^ k := zpow_pos (by norm_num) k
  have he : F32.exponent ((2 : ℚ) ^ k) = k := by
    apply F32.exponent_eq hk
    · rw [abs_of_pos hpos]
    · rw [abs_of_pos hpos]
      exact zpow_lt_zpow_right₀ (by norm_num) (by omega)
  apply F32.round_eq_self 1 k
  · simp
  · rw [he]
    omega

theorem F32.round_intCast (n : ℤ) (h0 : 0 ≤ n) (h1 : n ≤ 2 ^ 24) :
    F32.round (n : ℚ) = n := by
  rcases h1.lt_or_eq with hlt | heq
  · rcases h0.lt_or_eq with hpos | hz
    · apply F32.round_eq_self n 0
      · simp
      · have hn0 : (n : ℚ) ≠ 0 := by exact_mod_cast hpos.ne.symm
        have hlt2 : |(n : ℚ)| < (2 : ℚ) ^ ((23 : ℤ) + 1) := by
          rw [abs_of_pos (by exact_mod_cast hpos)]
          norm_num
          exact_mod_cast hlt
        have := F32.exponent_le (by norm_num) hn0 hlt2
        omega
    · rw [← hz]
      simpa using F32.round_zero
  · rw [heq]
    have := F32.round_zpow 24 (by norm_num)
    norm_num at this ⊢
    exact this

theorem F32.two_pow_24_mul_ulp (q : ℚ) :
    ((2 ^ 24 : ℤ) : ℚ) * F32.ulp q = (2 : ℚ) ^ (F32.exponent q + 1) := by
  unfold F32.ulp
  have h : ((2 ^ 24 : ℤ) : ℚ) = (2 : ℚ) ^ (24 : ℤ) := by norm_num
  rw [h, ← zpow_add₀ (by norm_num : (2 : ℚ) ≠ 0)]
  congr 1
  ring

theorem F32.two_pow_23_mul_ulp (q : ℚ) :
    ((2 ^ 23 : ℤ) : ℚ) * F32.ulp q = (2 : ℚ) ^ F32.exponent q := by
  unfold F32.ulp
  have h : ((2 ^ 23 : ℤ) : ℚ) = (2 : ℚ) ^ (23 : ℤ) := by norm_num
  rw [h, ← zpow_add₀ (by norm_num : (2 : ℚ) ≠ 0)]
  congr 1
  ring

theorem F32.round_one : F32.round 1 = 1 := by
  simpa using F32.round_intCast 1 (by norm_num) (by norm_num)

/-- Rounding moves a value by at most half the spacing at it. -/
theorem F32.round_bounds (q : ℚ) :
    F32.round q - F32.ulp q / 2 ≤ q ∧ q ≤ F32.round q + F32.ulp q / 2 := by
  obtain ⟨h1, h2⟩ := roundHalfEven_bounds (q / F32.ulp q)
  have hu := F32.ulp_pos q
  unfold F32.round
  rw [le_div_iff₀ hu] at h1
  rw [div_le_iff₀ hu] at h2
  constructor <;> nlinarith

/-- The rounded value of a non-zero `q` stays within the binade of `q`,
closed at the top. -/
theorem F32.round_le_zpow {q : ℚ} (h : 0 ≤ q) :
    F32.round q ≤ (2 : ℚ) ^ (F32.exponent q + 1) := by
  have hu := F32.ulp_pos q
  have h1 : q / F32.ulp q ≤ ((2 ^ 24 : ℤ) : ℚ) := by
    rw [div_le_iff₀ hu]
    have h2 := F32.abs_lt_zpow_exponent q
    rw [abs_of_nonneg h] at h2
    have h3 := F32.two_pow_24_mul_ulp q
    rw [h3]
    exact h2.le
  have h4 := roundHalfEven_mono h1
  rw [roundHalfEven_intCast] at h4
  have h5 : ((roundHalfEven (q / F32.ulp q) : ℤ) : ℚ) ≤ ((2 ^ 24 : ℤ) : ℚ) := by
    exact_mod_cast h4
  unfold F32.round
  calc (roundHalfEven (q / F32.ulp q) : ℚ) * F32.ulp q
      ≤ ((2 ^ 24 : ℤ) : ℚ) * F32.ulp q := mul_le_mul_of_nonneg_right h5 hu.le
    _ = (2 : ℚ) ^ (F32.exponent q + 1) := F32.two_pow_24_mul_ulp q

theorem F32.zpow_le_round {q : ℚ} (h : 0 < q) (hn : F32.exponent q ≠ -126) :
    (2 : ℚ) ^ F32.exponent q ≤ F32.round q := by
  have hu := F32.ulp_pos q
  have h3 := F32.two_pow_23_mul_ulp q
  have h1 : ((2 ^ 23 : ℤ) : ℚ) ≤ q / F32.ulp q := by
    rw [le_div_iff₀ hu, h3]
    have h2 := F32.zpow_exponent_le h.ne.symm hn
    rwa [abs_of_pos h] at h2
  have h4 := roundHalfEven_mono h1
  rw [roundHalfEven_intCast] at h4
  have h5 : ((2 ^ 23 : ℤ) : ℚ) ≤ ((roundHalfEven (q / F32.ulp q) : ℤ) : ℚ) := by
    exact_mod_cast h4
  unfold F32.round
  rw [← h3]
  exact mul_le_mul_of_nonneg_right h5 hu.le

theorem F32.round_mono {a b : ℚ} (ha : 0 ≤ a) (hab : a ≤ b) : F32.round a ≤ F32.round b := by
  rcases ha.lt_or_eq with hpos | hz
  · have hb : 0 < b := lt_of_lt_of_le hpos hab
    have he : F32.exponent a ≤ F32.exponent b := by
      apply F32.exponent_mono hpos.ne.symm
      rw [abs_of_pos hpos, abs_of_pos hb]
      exact hab
    rcases he.lt_or_eq with hlt | heq
    · have h1 := F32.round_le_zpow ha
      have h2 : F32.exponent b ≠ -126 := by
        have := F32.exponent_ge a
        omega
      have h3 := F32.zpow_le_round hb h2
      have h4 : (2 : ℚ) ^ (F32.exponent a + 1) ≤ (2 : ℚ) ^ F32.exponent b :=
        zpow_le_zpow_right₀ (by norm_num) (by omega)
      linarith
    · have hu : F32.ulp a = F32.ulp b := by
        unfold F32.ulp
        rw [heq]
      unfold F32.round
      rw [hu]
      have h1 : a / F32.ulp b ≤ b / F32.ulp b :=
        div_le_div_of_nonneg_right hab (F32.ulp_pos b).le
      have h2 := roundHalfEven_mono h1
      exact mul_le_mul_of_nonneg_right (by exact_mod_cast h2) (F32.ulp_pos b).le
  · rw [← hz, F32.round_zero]
    exact F32.round_nonneg (hz ▸ hab)

theorem F32.round_idem {q : ℚ} (h : 0 ≤ q) : F32.round (F32.round q) = F32.round q := by
  rcases h.lt_or_eq with hpos | hz
  · have hup := F32.round_le_zpow h
    have hnn := F32.round_nonneg h
    rcases hup.lt_or_eq with hlt | heq
    · rcases hnn.lt_or_eq with hrpos | hrz
      · apply F32.round_eq_self (roundHalfEven (q / F32.ulp q)) (F32.exponent q - 23)
        · rfl
        · have := F32.exponent_le (F32.exponent_ge q) hrpos.ne.symm
            (by rwa [abs_of_pos hrpos])
          omega
      · rw [← hrz, F32.round_zero]
    · rw [heq]
      exact F32.round_zpow _ (by have := F32.exponent_ge q; omega)
  · rw [← hz, F32.round_zero, F32.round_zero]

theorem F32.round_near_one {s : ℚ} (h1 : 1 ≤ s) (h2 : s ≤ 1 + (2 : ℚ) ^ (-24 : ℤ)) :
    F32.round s = 1 := by
  have hpos : (0 : ℚ) < s := by linarith
  have hs2 : s < 2 := by
    have : (2 : ℚ) ^ (-24 : ℤ) < 1 := by norm_num
    linarith
  have he : F32.exponent s = 0 := by
    apply F32.exponent_eq (by norm_num)
    · rw [abs_of_pos hpos]
      simpa using h1
    · rw [abs_of_pos hpos]
      simpa using hs2
  have hu : F32.ulp s = (2 : ℚ) ^ (-23 : ℤ) := by
    unfold F32.ulp
    rw [he]
    norm_num
  unfold F32.round
  rw [hu]
  have hlo : (((2 ^ 23 : ℤ)) : ℚ) ≤ s / (2 : ℚ) ^ (-23 : ℤ) := by
    rw [le_div_iff₀ (by norm_num)]
    norm_num
    linarith
  have hhi : s / (2 : ℚ) ^ (-23 : ℤ) ≤ (((2 ^ 23 : ℤ)) : ℚ) + 1 / 2 := by
    rw [div_le_iff₀ (by norm_num)]
    norm_num at h2 ⊢
    linarith
  have h3 := roundHalfEven_mono hlo
  have h4 := roundHalfEven_mono hhi
  rw [roundHalfEven_intCast] at h3
  rw [roundHalfEven_tie_even _ (by norm_num)] at h4
  have h5 : roundHalfEven (s / (2 : ℚ) ^ (-23 : ℤ)) = 2 ^ 23 := le_antisymm h4 h3
  rw [h5]
  norm_num

theorem F32.round_le_add {q : ℚ} {k : ℤ} (h0 : 0 < q) (h1 : q < (2 : ℚ) ^ k) (hk : -125 ≤ k) :
    F32.round q ≤ q + (2 : ℚ) ^ (k - 25) := by
  have he : F32.exponent q ≤ k - 1 := by
    apply F32.exponent_le (by omega) h0.ne.symm
    rw [abs_of_pos h0]
    simpa using h1
  have hu : F32.ulp q ≤ (2 : ℚ) ^ (k - 24) := by
    unfold F32.ulp
    exact zpow_le_zpow_right₀ (by norm_num) (by omega)
  have h2 : (2 : ℚ) ^ (k - 24) / 2 = (2 : ℚ) ^ (k - 25) := by
    rw [show k - 24 = (k - 25) + 1 by ring, zpow_add_one₀ (by norm_num)]
    field_simp
  have h3 := (F32.round_bounds q).1
  linarith

theorem F32.ofRat_eq_some {q : ℚ} (h0 : 0 ≤ q) (h1 : q ≤ (2 : ℚ) ^ (31 : ℤ)) :
    F32.ofRat q = some (F32.round q) := by
  unfold F32.ofRat
  have h2 := F32.round_nonneg h0
  have h3 := F32.round_mono h0 h1
  rw [F32.round_zpow 31 (by norm_num)] at h3
  rw [if_pos]
  rw [abs_of_nonneg h2]
  calc F32.round q ≤ (2 : ℚ) ^ (31 : ℤ) := h3
    _ < 2 ^ 128 := by norm_num

theorem F32.ofInt_eq_some (n : ℤ) (h0 : 0 ≤ n) (h1 : n ≤ 2 ^ 24) :
    F32.ofInt n = some (n : ℚ) := by
  unfold F32.ofInt
  have h2 : (0 : ℚ) ≤ n := by exact_mod_cast h0
  have h3 : (n : ℚ) ≤ (2 : ℚ) ^ (31 : ℤ) := by
    have : (n : ℚ) ≤ ((2 ^ 24 : ℤ) : ℚ) := by exact_mod_cast h1
    norm_num at this ⊢
    linarith
  rw [F32.ofRat_eq_some h2 h3, F32.round_intCast n h0 h1]

/-- The float quotients and their sum along one axis of a rectangle inside a
texture whose extent is exactly representable. -/
theorem F32.axis (x w W : ℤ) (hW : 0 < W) (hWmax : W ≤ 2 ^ 24) (hx : 0 ≤ x) (hw : 0 ≤ w)
    (hxw : x + w ≤ W) :
    F32.ofInt x = some (x : ℚ) ∧ F32.ofInt w = some (w : ℚ) ∧ F32.ofInt W = some (W : ℚ) ∧
    F32.div x W = some (F32.round ((x : ℚ) / W)) ∧
    F32.div w W = some (F32.round ((w : ℚ) / W)) ∧
    F32.add (F32.round ((x : ℚ) / W)) (F32.round ((w : ℚ) / W)) =
      some (F32.round (F32.round ((x : ℚ) / W) + F32.round ((w : ℚ) / W))) ∧
    (0 ≤ F32.round ((x : ℚ) / W) ∧ F32.round ((x : ℚ) / W) ≤ 1) ∧
    (0 ≤ F32.round (F32.round ((x : ℚ) / W) + F32.round ((w : ℚ) / W)) ∧
      F32.round (F32.round ((x : ℚ) / W) + F32.round ((w : ℚ) / W)) ≤ 1) ∧
    F32.round ((x : ℚ) / W) ≤ F32.round (F32.round ((x : ℚ) / W) + F32.round ((w : ℚ) / W)) := by
  have hWq : (0 : ℚ) < W := by exact_mod_cast hW
  have hxq : (0 : ℚ) ≤ x := by exact_mod_cast hx
  have hwq : (0 : ℚ) ≤ w := by exact_mod_cast hw
  have hxwq : (x : ℚ) + w ≤ W := by exact_mod_cast hxw
  have ha0 : (0 : ℚ) ≤ (x : ℚ) / W := div_nonneg hxq hWq.le
  have hb0 : (0 : ℚ) ≤ (w : ℚ) / W := div_nonneg hwq hWq.le
  have hab : (x : ℚ) / W + (w : ℚ) / W ≤ 1 := by
    rw [← add_div, div_le_one hWq]
    exact hxwq
  have ha1 : (x : ℚ) / W ≤ 1 := by linarith
  have hb1 : (w : ℚ) / W ≤ 1 := by linarith
  have hdx : F32.div x W = some (F32.round ((x : ℚ) / W)) := by
    unfold F32.div
    rw [if_neg hWq.ne.symm]
    exact F32.ofRat_eq_some ha0 (by norm_num; linarith)
  have hdw : F32.div w W = some (F32.round ((w : ℚ) / W)) := by
    unfold F32.div
    rw [if_neg hWq.ne.symm]
    exact F32.ofRat_eq_some hb0 (by norm_num; linarith)
  refine ⟨F32.ofInt_eq_some x hx (by omega), F32.ofInt_eq_some w hw (by omega),
    F32.ofInt_eq_some W hW.le hWmax, hdx, hdw, ?_⟩
  clear hdx hdw
  generalize (x : ℚ) / W = a at ha0 hab ha1 ⊢
  generalize (w : ℚ) / W = b at hb0 hab hb1 ⊢
  have hone : (1 : ℚ) ≤ (2 : ℚ) ^ (31 : ℤ) := by norm_num
  have hL0 := F32.round_nonneg ha0
  have hD0 := F32.round_nonneg hb0
  have hL1 : F32.round a ≤ 1 := by
    have := F32.round_mono ha0 ha1
    rwa [F32.round_one] at this
  have hD1 : F32.round b ≤ 1 := by
    have := F32.round_mono hb0 hb1
    rwa [F32.round_one] at this
  have hhalf : F32.round ((2 : ℚ) ^ (-1 : ℤ)) = (2 : ℚ) ^ (-1 : ℤ) :=
    F32.round_zpow (-1) (by norm_num)
  have hsmall : ∀ c : ℚ, 0 ≤ c → c ≤ (2 : ℚ) ^ (-1 : ℤ) →
      F32.round c ≤ c + (2 : ℚ) ^ (-26 : ℤ) := by
    intro c hc0 hc1
    rcases hc0.lt_or_eq with hcpos | hcz
    · rcases hc1.lt_or_eq with hclt | hceq
      · have := F32.round_le_add hcpos hclt (by norm_num)
        norm_num at this ⊢
        exact this
      · rw [hceq, hhalf]
        norm_num
    · rw [← hcz, F32.round_zero]
      norm_num
  have hbig : ∀ c : ℚ, 0 ≤ c → c ≤ 1 → F32.round c ≤ c + (2 : ℚ) ^ (-25 : ℤ) := by
    intro c hc0 hc1
    rcases hc0.lt_or_eq with hcpos | hcz
    · rcases hc1.lt_or_eq with hclt | hceq
      · have := F32.round_le_add (k := 0) hcpos (by simpa using hclt) (by norm_num)
        norm_num at this ⊢
        exact this
      · rw [hceq, F32.round_one]
        norm_num
    · rw [← hcz, F32.round_zero]
      norm_num
  have hS : F32.round a + F32.round b ≤ 1 + (2 : ℚ) ^ (-24 : ℤ) := by
    by_cases hah : a ≤ (2 : ℚ) ^ (-1 : ℤ)
    · by_cases hbh : b ≤ (2 : ℚ) ^ (-1 : ℤ)
      · have h1 := F32.round_mono ha0 hah
        have h2 := F32.round_mono hb0 hbh
        rw [hhalf] at h1 h2
        norm_num at h1 h2 ⊢
        linarith
      · have h1 := hsmall a ha0 hah
        have h2 := hbig b hb0 hb1
        norm_num at h1 h2 ⊢
        linarith
    · have hbh : b ≤ (2 : ℚ) ^ (-1 : ℤ) := by
        norm_num at hah ⊢
        linarith
      have h1 := hbig a ha0 ha1
      have h2 := hsmall b hb0 hbh
      norm_num at h1 h2 ⊢
      linarith
  have hS0 : 0 ≤ F32.round a + F32.round b := add_nonneg hL0 hD0
  have hR1 : F32.round (F32.round a + F32.round b) ≤ 1 := by
    by_cases h : F32.round a + F32.round b ≤ 1
    · have := F32.round_mono hS0 h
      rwa [F32.round_one] at this
    · rw [F32.round_near_one (le_of_lt (not_le.mp h)) hS]
  have hLR : F32.round a ≤ F32.round (F32.round a + F32.round b) := by
    have := F32.round_mono hL0 (show F32.round a ≤ F32.round a + F32.round b by linarith)
    rwa [F32.round_idem ha0] at this
  refine ⟨?_, ⟨hL0, hL1⟩, ⟨F32.round_nonneg hS0, hR1⟩, hLR⟩
  unfold F32.add
  exact F32.ofRat_eq_some hS0 (by norm_num at hS ⊢; linarith)

theorem roundHalfEven_tie_odd (n : Int) (h : n % 2 = 1) :
    roundHalfEven ((n : ℚ) + 1 / 2) = n + 1 := by
  have hf : Int.floor ((n : ℚ) + 1 / 2) = n := by
    rw [Int.floor_eq_iff]
    constructor <;> linarith
  unfold roundHalfEven
  simp only [hf]
  norm_num [h]

/-- The integer nearest to `t`, the even one of the two when `t` lies half-way,
is what `roundHalfEven` returns. -/
theorem roundHalfEven_eq (t : ℚ) (n : Int)
    (h : (-(1 / 2) < t - n ∧ t - n < 1 / 2) ∨ (t - n = 1 / 2 ∧ n % 2 = 0) ∨
      (t - n = -(1 / 2) ∧ n % 2 = 0)) :
    roundHalfEven t = n := by
  rcases h with h | h | h
  · exact roundHalfEven_eq_of_abs_lt t n (abs_lt.mpr h)
  · have ht : t = (n : ℚ) + 1 / 2 := by linarith [h.1]
    rw [ht]
    exact roundHalfEven_tie_even n h.2
  · have ht : t = ((n - 1 : ℤ) : ℚ) + 1 / 2 := by
      push_cast
      linarith [h.1]
    rw [ht, roundHalfEven_tie_odd (n - 1) (by omega)]
    ring

/-- Evaluation of `F32.round` at a positive value, from its binade and the
nearest multiple of the spacing. -/
theorem F32.round_eval (q v : ℚ) (e n : ℤ) (he : -126 ≤ e)
    (h1 : (2 : ℚ) ^ e ≤ q ∨ (e = -126 ∧ 0 < q)) (h2 : q < (2 : ℚ) ^ (e + 1))
    (hn : (-(1 / 2) < q / (2 : ℚ) ^ (e - 23) - n ∧ q / (2 : ℚ) ^ (e - 23) - n < 1 / 2) ∨
      (q / (2 : ℚ) ^ (e - 23) - n = 1 / 2 ∧ n % 2 = 0) ∨
      (q / (2 : ℚ) ^ (e - 23) - n = -(1 / 2) ∧ n % 2 = 0))
    (hv : v = (n : ℚ) * (2 : ℚ) ^ (e - 23)) : F32.round q = v := by
  have hpos : 0 < q := by
    rcases h1 with h1 | h1
    · exact lt_of_lt_of_le (zpow_pos (by norm_num) e) h1
    · exact h1.2
  have hexp : F32.exponent q = e := by
    rcases h1 with h1 | h1
    · exact F32.exponent_eq he (by rwa [abs_of_pos hpos]) (by rwa [abs_of_pos hpos])
    · apply le_antisymm
      · exact F32.exponent_le he hpos.ne.symm (by rwa [abs_of_pos hpos])
      · rw [h1.1]
        exact F32.exponent_ge q
  unfold F32.round F32.ulp
  rw [hexp, roundHalfEven_eq _ n hn, hv]

theorem F32.ofRat_eval (q v : ℚ) (e n : ℤ) (he : -126 ≤ e)
    (h1 : (2 : ℚ) ^ e ≤ q ∨ (e = -126 ∧ 0 < q)) (h2 : q < (2 : ℚ) ^ (e + 1))
    (hn : (-(1 / 2) < q / (2 : ℚ) ^ (e - 23) - n ∧ q / (2 : ℚ) ^ (e - 23) - n < 1 / 2) ∨
      (q / (2 : ℚ) ^ (e - 23) - n = 1 / 2 ∧ n % 2 = 0) ∨
      (q / (2 : ℚ) ^ (e - 23) - n = -(1 / 2) ∧ n % 2 = 0))
    (hv : v = (n : ℚ) * (2 : ℚ) ^ (e - 23)) (hfin : v < 2 ^ 128) :
    F32.ofRat q = some v := by
  have hpos : 0 ≤ q := by
    rcases h1 with h1 | h1
    · exact le_trans (zpow_pos (by norm_num) e).le h1
    · exact h1.2.le
  have hr := F32.round_eval q v e n he h1 h2 hn hv
  have hv0 : 0 ≤ v := by
    rw [← hr]
    exact F32.round_nonneg hpos
  have hfin2 : |v| < 2 ^ 128 := by
    rw [abs_of_nonneg hv0]
    exact hfin
  unfold F32.ofRat
  rw [hr, if_pos hfin2]

theorem F32.ofRat_zero : F32.ofRat 0 = some 0 := by
  unfold F32.ofRat
  rw [F32.round_zero]
  norm_num

/-- The result of `toTexCoordsFloat` from the results of its ten float
operations. -/
theorem toTexCoordsFloat_eval (x y w h texWidth texHeight : Int)
    (fx fy fw fh fTexWidth fTexHeight left top width height right bottom : ℚ)
    (hx : F32.ofInt x = some fx) (hy : F32.ofInt y = some fy)
    (hw : F32.ofInt w = some fw) (hh : F32.ofInt h = some fh)
    (hTexWidth : F32.ofInt texWidth = some fTexWidth)
    (hTexHeight : F32.ofInt texHeight = some fTexHeight)
    (hLeft : F32.div fx fTexWidth = some left) (hTop : F32.div fy fTexHeight = some top)
    (hWidth : F32.div fw fTexWidth = some width)
    (hHeight : F32.div fh fTexHeight = some height)
    (hRight : F32.add left width = some right) (hBottom : F32.add top height = some bottom) :
    toTexCoordsFloat ⟨⟨x, y⟩, ⟨w, h⟩⟩ texWidth texHeight =
      some { left := left, top := top, right := right, bottom := bottom } := by
  unfold toTexCoordsFloat
  rw [hTexWidth]
  dsimp only
  rw [hTexHeight]
  dsimp only
  rw [hx]
  dsimp only
  rw [hLeft]
  dsimp only
  rw [hy]
  dsimp only
  rw [hTop]
  dsimp only
  rw [hw]
  dsimp only
  rw [hWidth]
  dsimp only
  rw [hh]
  dsimp only
  rw [hHeight]
  dsimp only
  rw [hRight]
  dsimp only
  rw [hBottom]

/-! ### Basic facts about flushing and appending -/

theorem Renderer.flush_state (r : Renderer) : r.flush.state = r.state := by
  unfold Renderer.flush
  split
  · rfl
  · split <;> rfl

theorem Renderer.flush_stateStack (r : Renderer) : r.flush.stateStack = r.stateStack := by
  unfold Renderer.flush
  split
  · rfl
  · split <;> rfl

/-- After a flush the open batch holds no vertices. -/
theorem Renderer.flush_idle (r : Renderer) (b : Batch) (h : r.flush.openBatch = some b) :
    b.vertices = [] := by
  unfold Renderer.flush at h
  split at h
  · simp_all
  · rename_i b0 hb0
    split at h
    · rename_i he
      rw [hb0] at h
      cases h
      simpa using he
    · simp at h

theorem Renderer.flush_of_idle (r : Renderer)
    (h : ∀ b, r.openBatch = some b → b.vertices = []) : r.flush = r := by
  unfold Renderer.flush
  split
  · rfl
  · rename_i b hb
    simp [h b hb]

theorem Renderer.flush_of_open (r : Renderer) (b : Batch) (hb : r.openBatch = some b)
    (hne : b.vertices ≠ []) :
    r.flush = { r with openBatch := none, submitted := r.submitted ++ [b] } := by
  unfold Renderer.flush
  rw [hb]
  simp [hne]

theorem quadVertices_ne_nil (s : RenderState) (src : TexCoords) (dest : Rect Int) :
    quadVertices s src dest ≠ [] := by
  simp [quadVertices]

theorem runVertices_ne_nil (s : RenderState) (calls : List (TexCoords × Rect Int))
    (h : calls ≠ []) : runVertices s calls ≠ [] := by
  cases calls with
  | nil => exact absurd rfl h
  | cons c cs => simp [runVertices, quadVertices]

theorem runVertices_append (s : RenderState) (xs ys : List (TexCoords × Rect Int)) :
    runVertices s (xs ++ ys) = runVertices s xs ++ runVertices s ys := by
  induction xs with
  | nil => simp [runVertices]
  | cons c cs ih => simp [runVertices, ih]

/-- On a renderer with nothing pending, `drawTexture` opens a batch holding
just its quad and submits nothing. -/
theorem Renderer.drawTexture_of_idle (r : Renderer) (t : TextureId) (src : TexCoords)
    (dest : Rect Int) (h : ∀ b, r.openBatch = some b → b.vertices = []) :
    r.drawTexture t src dest = { r with openBatch := some (textureBatch r.state t [(src, dest)]) } := by
  unfold Renderer.drawTexture Renderer.append
  split
  · rename_i b hb
    have hv := h b hb
    split
    · rename_i hk
      obtain ⟨h1, h2, h3⟩ := hk
      cases b
      simp_all [textureBatch, runVertices]
    · rw [Renderer.flush_of_idle r h]
      simp [textureBatch, runVertices]
  · simp [textureBatch, runVertices]

/-- A `drawTexture` call whose key matches the open batch extends that batch
and submits nothing. -/
theorem Renderer.drawTexture_extend (r : Renderer) (t : TextureId)
    (pre : List (TexCoords × Rect Int)) (src : TexCoords) (dest : Rect Int)
    (h : r.openBatch = some (textureBatch r.state t pre)) :
    r.drawTexture t src dest =
      { r with openBatch := some (textureBatch r.state t (pre ++ [(src, dest)])) } := by
  unfold Renderer.drawTexture Renderer.append
  rw [h]
  simp [textureBatch, runVertices_append, runVertices]

/-- A run of `drawTexture` calls on an open batch of the same key extends that
batch and submits nothing. -/
theorem Renderer.drawTextureRun_extend (t : TextureId) (calls : List (TexCoords × Rect Int)) :
    ∀ (r : Renderer) (pre : List (TexCoords × Rect Int)),
      r.openBatch = some (textureBatch r.state t pre) →
      r.drawTextureRun t calls =
        { r with openBatch := some (textureBatch r.state t (pre ++ calls)) } := by
  induction calls with
  | nil =>
    intro r pre h
    simp [Renderer.drawTextureRun, ← h]
  | cons c cs ih =>
    intro r pre h
    have h1 := Renderer.drawTexture_extend r t pre c.1 c.2 h
    have h2 := ih (r.drawTexture t c.1 c.2) (pre ++ [c]) (by rw [h1])
    simp only [Renderer.drawTextureRun, List.foldl_cons] at h2 ⊢
    rw [h2, h1]
    simp

/-- A non-empty run of `drawTexture` calls on a renderer with nothing pending
leaves exactly the batch of the run open and submits nothing. -/
theorem Renderer.drawTextureRun_of_idle (r : Renderer) (t : TextureId)
    (c : TexCoords × Rect Int) (cs : List (TexCoords × Rect Int))
    (h : ∀ b, r.openBatch = some b → b.vertices = []) :
    r.drawTextureRun t (c :: cs) =
      { r with openBatch := some (textureBatch r.state t (c :: cs)) } := by
  have h1 := Renderer.drawTexture_of_idle r t c.1 c.2 h
  have h2 := Renderer.drawTextureRun_extend t cs (r.drawTexture t c.1 c.2) [c] (by rw [h1])
  simp only [Renderer.drawTextureRun, List.foldl_cons] at h2 ⊢
  rw [h2, h1]
  simp

/-- C1: for every source rectangle `(x, y, w, h)` and non-zero texture
dimensions, `toTexCoords` returns `left = x/texWidth`, `top = y/texHeight`,
`right = left + w/texWidth` and `bottom = top + h/texHeight`; the quotients
are exact, so multiplying back by the texture dimensions recovers the pixel
rectangle. -/
theorem toTexCoords_spec (x y w h texWidth texHeight : Int)
    (hw : texWidth ≠ 0) (hh : texHeight ≠ 0) :
    (toTexCoords ⟨⟨x, y⟩, ⟨w, h⟩⟩ texWidth texHeight).left = (x : ℚ) / texWidth ∧
    (toTexCoords ⟨⟨x, y⟩, ⟨w, h⟩⟩ texWidth texHeight).top = (y : ℚ) / texHeight ∧
    (toTexCoords ⟨⟨x, y⟩, ⟨w, h⟩⟩ texWidth texHeight).right =
      (toTexCoords ⟨⟨x, y⟩, ⟨w, h⟩⟩ texWidth texHeight).left + (w : ℚ) / texWidth ∧
    (toTexCoords ⟨⟨x, y⟩, ⟨w, h⟩⟩ texWidth texHeight).bottom =
      (toTexCoords ⟨⟨x, y⟩, ⟨w, h⟩⟩ texWidth texHeight).top + (h : ℚ) / texHeight ∧
    (toTexCoords ⟨⟨x, y⟩, ⟨w, h⟩⟩ texWidth texHeight).left * texWidth = x ∧
    (toTexCoords ⟨⟨x, y⟩, ⟨w, h⟩⟩ texWidth texHeight).top * texHeight = y ∧
    ((toTexCoords ⟨⟨x, y⟩, ⟨w, h⟩⟩ texWidth texHeight).right -
      (toTexCoords ⟨⟨x, y⟩, ⟨w, h⟩⟩ texWidth texHeight).left) * texWidth = w ∧
    ((toTexCoords ⟨⟨x, y⟩, ⟨w, h⟩⟩ texWidth texHeight).bottom -
      (toTexCoords ⟨⟨x, y⟩, ⟨w, h⟩⟩ texWidth texHeight).top) * texHeight = h := by
  have hw' : (texWidth : ℚ) ≠ 0 := by exact_mod_cast hw
  have hh' : (texHeight : ℚ) ≠ 0 := by exact_mod_cast hh
  refine ⟨rfl, rfl, rfl, rfl, ?_, ?_, ?_, ?_⟩ <;> simp only [toTexCoords] <;> field_simp

/-- Witness for C1: the header's example rectangle "from 8,8 to 32,64" in a
64x128 texture. -/
theorem toTexCoords_spec_witness :
    (toTexCoords ⟨⟨8, 8⟩, ⟨24, 56⟩⟩ 64 128).left = ((8 : Int) : ℚ) / (64 : Int) ∧
    (toTexCoords ⟨⟨8, 8⟩, ⟨24, 56⟩⟩ 64 128).top = ((8 : Int) : ℚ) / (128 : Int) ∧
    (toTexCoords ⟨⟨8, 8⟩, ⟨24, 56⟩⟩ 64 128).right =
      (toTexCoords ⟨⟨8, 8⟩, ⟨24, 56⟩⟩ 64 128).left + ((24 : Int) : ℚ) / (64 : Int) ∧
    (toTexCoords ⟨⟨8, 8⟩, ⟨24, 56⟩⟩ 64 128).bottom =
      (toTexCoords ⟨⟨8, 8⟩, ⟨24, 56⟩⟩ 64 128).top + ((56 : Int) : ℚ) / (128 : Int) ∧
    (toTexCoords ⟨⟨8, 8⟩, ⟨24, 56⟩⟩ 64 128).left * (64 : Int) = (8 : Int) ∧
    (toTexCoords ⟨⟨8, 8⟩, ⟨24, 56⟩⟩ 64 128).top * (128 : Int) = (8 : Int) ∧
    ((toTexCoords ⟨⟨8, 8⟩, ⟨24, 56⟩⟩ 64 128).right -
      (toTexCoords ⟨⟨8, 8⟩, ⟨24, 56⟩⟩ 64 128).left) * (64 : Int) = (24 : Int) ∧
    ((toTexCoords ⟨⟨8, 8⟩, ⟨24, 56⟩⟩ 64 128).bottom -
      (toTexCoords ⟨⟨8, 8⟩, ⟨24, 56⟩⟩ 64 128).top) * (128 : Int) = (56 : Int) :=
  toTexCoords_spec 8 8 24 56 64 128 (by decide) (by decide)

/-- A `drawTexture` call whose texture differs from that of a pending,
non-empty batch submits that batch and opens a new one. -/
theorem Renderer.drawTextureRun_switch (r : Renderer) (t : TextureId) (b : Batch)
    (c : TexCoords × Rect Int) (cs : List (TexCoords × Rect Int))
    (hb : r.openBatch = some b) (hne : b.vertices ≠ []) (ht : b.texture ≠ some t) :
    r.drawTextureRun t (c :: cs) =
      { r with openBatch := some (textureBatch r.state t (c :: cs)),
               submitted := r.submitted ++ [b] } := by
  have h1 : r.drawTexture t c.1 c.2 =
      { r with openBatch := some (textureBatch r.state t [c]),
               submitted := r.submitted ++ [b] } := by
    unfold Renderer.drawTexture Renderer.append
    rw [hb]
    simp only [ht, false_and, if_false]
    rw [Renderer.flush_of_open r b hb hne]
    simp [textureBatch, runVertices]
  have h2 := Renderer.drawTextureRun_extend t cs (r.drawTexture t c.1 c.2) [c] (by rw [h1])
  simp only [Renderer.drawTextureRun, List.foldl_cons] at h2 ⊢
  rw [h2, h1]
  simp

/-! ### C2: batch coalescing -/

theorem textureBatch_vertices_ne_nil (s : RenderState) (t : TextureId)
    (c : TexCoords × Rect Int) (cs : List (TexCoords × Rect Int)) :
    (textureBatch s t (c :: cs)).vertices ≠ [] :=
  runVertices_ne_nil s (c :: cs) (by simp)

/-- Submitting after a non-empty run on a renderer with nothing pending hands
exactly the batch of the run to the GPU. -/
theorem Renderer.submit_run_of_idle (r : Renderer) (t : TextureId)
    (c : TexCoords × Rect Int) (cs : List (TexCoords × Rect Int))
    (h : ∀ b, r.openBatch = some b → b.vertices = []) :
    (r.drawTextureRun t (c :: cs)).submitBatch =
      { r with openBatch := none,
               submitted := r.submitted ++ [textureBatch r.state t (c :: cs)] } := by
  rw [Renderer.drawTextureRun_of_idle r t c cs h]
  unfold Renderer.submitBatch
  rw [Renderer.flush_of_open _ (textureBatch r.state t (c :: cs)) rfl
    (textureBatch_vertices_ne_nil _ _ _ _)]

/-- Submitting after a non-empty run that follows a pending batch of another
texture hands first that batch and then the batch of the run to the GPU. -/
theorem Renderer.submit_run_switch (r : Renderer) (t : TextureId) (b : Batch)
    (c : TexCoords × Rect Int) (cs : List (TexCoords × Rect Int))
    (hb : r.openBatch = some b) (hne : b.vertices ≠ []) (ht : b.texture ≠ some t) :
    (r.drawTextureRun t (c :: cs)).submitBatch =
      { r with openBatch := none,
               submitted := r.submitted ++ [b] ++ [textureBatch r.state t (c :: cs)] } := by
  rw [Renderer.drawTextureRun_switch r t b c cs hb hne ht]
  unfold Renderer.submitBatch
  rw [Renderer.flush_of_open _ (textureBatch r.state t (c :: cs)) rfl
    (textureBatch_vertices_ne_nil _ _ _ _)]

theorem Renderer.drawTexture_state (r : Renderer) (t : TextureId) (src : TexCoords)
    (dest : Rect Int) : (r.drawTexture t src dest).state = r.state := by
  unfold Renderer.drawTexture Renderer.append
  split
  · split
    · rfl
    · exact Renderer.flush_state r
  · rfl

/-- Whatever is pending, a `drawTexture` call leaves a batch of its own key
open that ends with its quad. -/
theorem Renderer.drawTexture_open (r : Renderer) (t : TextureId) (src : TexCoords)
    (dest : Rect Int) :
    ∃ b : Batch, (r.drawTexture t src dest).openBatch = some b ∧ b.texture = some t ∧
      b.shaderVariant = selectShaderVariant r.state OperationKind.texturedQuad ∧
      b.renderTarget = r.state.renderTarget ∧
      quadVertices r.state src dest <:+ b.vertices := by
  unfold Renderer.drawTexture Renderer.append
  split
  · rename_i b hb
    split
    · rename_i hk
      exact ⟨_, rfl, hk.1, hk.2.1, hk.2.2, List.suffix_append _ _⟩
    · exact ⟨_, rfl, rfl, rfl, rfl, List.suffix_refl _⟩
  · exact ⟨_, rfl, rfl, rfl, rfl, List.suffix_refl _⟩

/-- A `drawTexture` call submits nothing but, at most, the batch that was
pending when it was made. -/
theorem Renderer.drawTexture_submitted (r : Renderer) (t : TextureId) (src : TexCoords)
    (dest : Rect Int) :
    (r.drawTexture t src dest).submitted = r.submitted ∨
      ∃ b0 : Batch, r.openBatch = some b0 ∧
        (r.drawTexture t src dest).submitted = r.submitted ++ [b0] := by
  unfold Renderer.drawTexture Renderer.append
  split
  · rename_i b hb
    split
    · exact Or.inl rfl
    · by_cases hv : b.vertices = []
      · left
        show r.flush.submitted = r.submitted
        rw [Renderer.flush_of_idle r (fun b2 hb2 => by rw [hb] at hb2; cases hb2; exact hv)]
      · right
        refine ⟨b, hb, ?_⟩
        show r.flush.submitted = r.submitted ++ [b]
        rw [Renderer.flush_of_open r b hb hv]
  · exact Or.inl rfl

/-- A `drawTexture` call whose key matches the open batch extends that batch
and submits nothing, whatever the batch holds. -/
theorem Renderer.drawTexture_extend_open (r : Renderer) (t : TextureId) (b : Batch)
    (src : TexCoords) (dest : Rect Int) (hb : r.openBatch = some b)
    (h1 : b.texture = some t)
    (h2 : b.shaderVariant = selectShaderVariant r.state OperationKind.texturedQuad)
    (h3 : b.renderTarget = r.state.renderTarget) :
    r.drawTexture t src dest =
      { r with
        openBatch := some { b with vertices := b.vertices ++ quadVertices r.state src dest } } := by
  unfold Renderer.drawTexture Renderer.append
  rw [hb]
  simp [h1, h2, h3]

/-- A run of `drawTexture` calls whose key matches the open batch extends that
batch and submits nothing, whatever the batch holds. -/
theorem Renderer.drawTextureRun_extend_open (t : TextureId)
    (calls : List (TexCoords × Rect Int)) :
    ∀ (r : Renderer) (b : Batch), r.openBatch = some b → b.texture = some t →
      b.shaderVariant = selectShaderVariant r.state OperationKind.texturedQuad →
      b.renderTarget = r.state.renderTarget →
      r.drawTextureRun t calls =
        { r with
          openBatch := some { b with vertices := b.vertices ++ runVertices r.state calls } } := by
  induction calls with
  | nil =>
    intro r b hb _ _ _
    simp [Renderer.drawTextureRun, runVertices, ← hb]
  | cons c cs ih =>
    intro r b hb h1 h2 h3
    have hd := Renderer.drawTexture_extend_open r t b c.1 c.2 hb h1 h2 h3
    have h := ih (r.drawTexture t c.1 c.2)
      { b with vertices := b.vertices ++ quadVertices r.state c.1 c.2 }
      (by rw [hd]) h1 (by rw [hd]; exact h2) (by rw [hd]; exact h3)
    simp only [Renderer.drawTextureRun, List.foldl_cons] at h ⊢
    rw [h, hd]
    simp [runVertices]

/-- A non-empty run of `drawTexture` calls, whatever was pending before it,
submits nothing after its first call and leaves one batch open that ends with
the vertices of the whole run. -/
theorem Renderer.drawTextureRun_open (r : Renderer) (t : TextureId)
    (c : TexCoords × Rect Int) (cs : List (TexCoords × Rect Int)) :
    ∃ b : Batch, r.drawTextureRun t (c :: cs) =
        { r.drawTexture t c.1 c.2 with openBatch := some b } ∧
      b.texture = some t ∧
      b.shaderVariant = selectShaderVariant r.state OperationKind.texturedQuad ∧
      b.renderTarget = r.state.renderTarget ∧
      runVertices r.state (c :: cs) <:+ b.vertices := by
  obtain ⟨b, hb, h1, h2, h3, h4⟩ := Renderer.drawTexture_open r t c.1 c.2
  have hst := Renderer.drawTexture_state r t c.1 c.2
  have h := Renderer.drawTextureRun_extend_open t cs (r.drawTexture t c.1 c.2) b hb h1
    (by rw [hst]; exact h2) (by rw [hst]; exact h3)
  refine ⟨{ b with vertices := b.vertices ++ runVertices r.state cs }, ?_, h1, h2, h3, ?_⟩
  · simp only [Renderer.drawTextureRun, List.foldl_cons] at h ⊢
    rw [h, hst]
  · obtain ⟨v0, hv0⟩ := h4
    refine ⟨v0, ?_⟩
    simp only [runVertices]
    rw [← hv0]
    simp

/-- C2: for every renderer, whatever is pending, and every non-empty run of
consecutive `drawTexture` calls with one texture, made in one state: the run
submits nothing but, at most, the batch that was pending before it, and
nothing at all after its first call; it leaves one batch open that ends with
the vertices of all its calls in call order, and the next flush point submits
exactly that one batch (which is exactly the batch of the run when nothing was
pending before it).  A call with a different texture interleaved into the run,
with calls of the run on both sides, forces exactly two submissions before the
flush point, where the uninterleaved run has none: the batch of the calls
before it and the batch of the call itself, in call order; the flush point
then submits the calls after it, as it submits the run when nothing is
interleaved. -/
theorem drawTexture_batch_coalescing (r : Renderer) (t u : TextureId)
    (c d : TexCoords × Rect Int) (cs pre post : List (TexCoords × Rect Int))
    (hu : u ≠ t) (hpre : pre ≠ []) (hpost : post ≠ []) :
    ((r.drawTextureRun t (c :: cs)).submitted = r.submitted ∨
      ∃ b0 : Batch, r.openBatch = some b0 ∧
        (r.drawTextureRun t (c :: cs)).submitted = r.submitted ++ [b0]) ∧
    (r.drawTextureRun t (c :: cs)).submitted = (r.drawTexture t c.1 c.2).submitted ∧
    (∃ b : Batch, (r.drawTextureRun t (c :: cs)).openBatch = some b ∧
      b.texture = some t ∧ runVertices r.state (c :: cs) <:+ b.vertices ∧
      (r.drawTextureRun t (c :: cs)).submitBatch.submitted =
        (r.drawTextureRun t (c :: cs)).submitted ++ [b] ∧
      (r.drawTextureRun t (c :: cs)).submitBatch.openBatch = none) ∧
    ((∀ b0, r.openBatch = some b0 → b0.vertices = []) →
      (r.drawTextureRun t (c :: cs)).submitBatch.submitted =
        r.submitted ++ [textureBatch r.state t (c :: cs)]) ∧
    (∃ b1 : Batch, (r.drawTextureRun t pre).openBatch = some b1 ∧ b1.texture = some t ∧
      runVertices r.state pre <:+ b1.vertices ∧
      (r.drawTextureRun t (pre ++ post)).submitted = (r.drawTextureRun t pre).submitted ∧
      (((r.drawTextureRun t pre).drawTexture u d.1 d.2).drawTextureRun t post).submitted =
        (r.drawTextureRun t pre).submitted ++ [b1, textureBatch r.state u [d]] ∧
      (r.interleavedRun t u pre d post).submitted =
        (r.drawTextureRun t pre).submitted ++
          [b1, textureBatch r.state u [d], textureBatch r.state t post]) := by
  have hne : ∀ (x : TexCoords × Rect Int) (xs : List (TexCoords × Rect Int)) (b : Batch),
      runVertices r.state (x :: xs) <:+ b.vertices → b.vertices ≠ [] := by
    intro x xs b hs hnil
    rw [hnil] at hs
    exact runVertices_ne_nil r.state (x :: xs) (by simp) (List.suffix_nil.mp hs)
  refine ⟨?_, ?_, ?_, ?_, ?_⟩
  · obtain ⟨b, hb, -⟩ := Renderer.drawTextureRun_open r t c cs
    rw [hb]
    exact Renderer.drawTexture_submitted r t c.1 c.2
  · obtain ⟨b, hb, -⟩ := Renderer.drawTextureRun_open r t c cs
    rw [hb]
  · obtain ⟨b, hb, h1, h2, h3, h4⟩ := Renderer.drawTextureRun_open r t c cs
    have hopen : (r.drawTextureRun t (c :: cs)).openBatch = some b := by rw [hb]
    refine ⟨b, hopen, h1, h4, ?_, ?_⟩
    · unfold Renderer.submitBatch
      rw [Renderer.flush_of_open _ b hopen (hne c cs b h4)]
    · unfold Renderer.submitBatch
      rw [Renderer.flush_of_open _ b hopen (hne c cs b h4)]
  · intro hidle
    rw [Renderer.submit_run_of_idle r t c cs hidle]
  · cases pre with
    | nil => exact absurd rfl hpre
    | cons p ps =>
      cases post with
      | nil => exact absurd rfl hpost
      | cons q qs =>
        obtain ⟨b1, hb1, h1, h2, h3, h4⟩ := Renderer.drawTextureRun_open r t p ps
        have hst1 : (r.drawTextureRun t (p :: ps)).state = r.state := by
          rw [hb1]
          exact Renderer.drawTexture_state r t p.1 p.2
        have hopen : (r.drawTextureRun t (p :: ps)).openBatch = some b1 := by rw [hb1]
        have happ : r.drawTextureRun t (p :: ps ++ q :: qs) =
            (r.drawTextureRun t (p :: ps)).drawTextureRun t (q :: qs) := by
          simp only [Renderer.drawTextureRun, List.foldl_append]
        have hsingle : ∀ x : Renderer, x.drawTexture u d.1 d.2 = x.drawTextureRun u [d] :=
          fun _ => rfl
        have hb1ne : b1.vertices ≠ [] := hne p ps b1 h4
        have hb1u : b1.texture ≠ some u := by
          rw [h1]
          simp only [ne_eq, Option.some.injEq]
          exact fun h => hu h.symm
        have hut : (textureBatch r.state u [d]).texture ≠ some t := by
          simp [textureBatch, hu]
        refine ⟨b1, hopen, h1, h4, ?_, ?_, ?_⟩
        · rw [happ]
          generalize r.drawTextureRun t (p :: ps) = r1 at hst1 hopen
          rw [Renderer.drawTextureRun_extend_open t (q :: qs) r1 b1 hopen h1
            (by rw [hst1]; exact h2) (by rw [hst1]; exact h3)]
        · generalize r.drawTextureRun t (p :: ps) = r1 at hst1 hopen
          rw [hsingle, Renderer.drawTextureRun_switch r1 u b1 d [] hopen hb1ne hb1u, hst1]
          rw [Renderer.drawTextureRun_switch _ t (textureBatch r.state u [d]) q qs rfl
            (textureBatch_vertices_ne_nil _ _ _ _) hut]
          simp
        · unfold Renderer.interleavedRun
          generalize r.drawTextureRun t (p :: ps) = r1 at hst1 hopen
          rw [hsingle, Renderer.drawTextureRun_switch r1 u b1 d [] hopen hb1ne hb1u, hst1]
          rw [Renderer.submit_run_switch _ t (textureBatch r.state u [d]) q qs rfl
            (textureBatch_vertices_ne_nil _ _ _ _) hut]
          simp

/-- Witness for C2: on a renderer with a point pending, two tile draws with
texture 1; and a draw with texture 2 placed between two draws with texture
1. -/
theorem drawTexture_batch_coalescing_witness :
    ((2 : TextureId) ≠ 1 ∧ [tileCall 0] ≠ [] ∧ [tileCall 16] ≠ []) ∧
    (((Renderer.initial.drawPoint ⟨3, 4⟩ ⟨255, 0, 0, 255⟩).drawTextureRun 1
          (tileCall 0 :: [tileCall 8])).submitted =
        (Renderer.initial.drawPoint ⟨3, 4⟩ ⟨255, 0, 0, 255⟩).submitted ∨
      ∃ b0 : Batch, (Renderer.initial.drawPoint ⟨3, 4⟩ ⟨255, 0, 0, 255⟩).openBatch = some b0 ∧
        ((Renderer.initial.drawPoint ⟨3, 4⟩ ⟨255, 0, 0, 255⟩).drawTextureRun 1
          (tileCall 0 :: [tileCall 8])).submitted =
        (Renderer.initial.drawPoint ⟨3, 4⟩ ⟨255, 0, 0, 255⟩).submitted ++ [b0]) ∧
    ((Renderer.initial.drawPoint ⟨3, 4⟩ ⟨255, 0, 0, 255⟩).drawTextureRun 1
        (tileCall 0 :: [tileCall 8])).submitted =
      ((Renderer.initial.drawPoint ⟨3, 4⟩ ⟨255, 0, 0, 255⟩).drawTexture 1 (tileCall 0).1
        (tileCall 0).2).submitted ∧
    (∃ b : Batch, ((Renderer.initial.drawPoint ⟨3, 4⟩ ⟨255, 0, 0, 255⟩).drawTextureRun 1
          (tileCall 0 :: [tileCall 8])).openBatch = some b ∧
      b.texture = some 1 ∧
      runVertices (Renderer.initial.drawPoint ⟨3, 4⟩ ⟨255, 0, 0, 255⟩).state
        (tileCall 0 :: [tileCall 8]) <:+ b.vertices ∧
      ((Renderer.initial.drawPoint ⟨3, 4⟩ ⟨255, 0, 0, 255⟩).drawTextureRun 1
          (tileCall 0 :: [tileCall 8])).submitBatch.submitted =
        ((Renderer.initial.drawPoint ⟨3, 4⟩ ⟨255, 0, 0, 255⟩).drawTextureRun 1
          (tileCall 0 :: [tileCall 8])).submitted ++ [b] ∧
      ((Renderer.initial.drawPoint ⟨3, 4⟩ ⟨255, 0, 0, 255⟩).drawTextureRun 1
        (tileCall 0 :: [tileCall 8])).submitBatch.openBatch = none) ∧
    ((∀ b0, (Renderer.initial.drawPoint ⟨3, 4⟩ ⟨255, 0, 0, 255⟩).openBatch = some b0 →
        b0.vertices = []) →
      ((Renderer.initial.drawPoint ⟨3, 4⟩ ⟨255, 0, 0, 255⟩).drawTextureRun 1
          (tileCall 0 :: [tileCall 8])).submitBatch.submitted =
        (Renderer.initial.drawPoint ⟨3, 4⟩ ⟨255, 0, 0, 255⟩).submitted ++
          [textureBatch (Renderer.initial.drawPoint ⟨3, 4⟩ ⟨255, 0, 0, 255⟩).state 1
            (tileCall 0 :: [tileCall 8])]) ∧
    (∃ b1 : Batch,
      ((Renderer.initial.drawPoint ⟨3, 4⟩ ⟨255, 0, 0, 255⟩).drawTextureRun 1
        [tileCall 0]).openBatch = some b1 ∧
      b1.texture = some 1 ∧
      runVertices (Renderer.initial.drawPoint ⟨3, 4⟩ ⟨255, 0, 0, 255⟩).state [tileCall 0] <:+
        b1.vertices ∧
      ((Renderer.initial.drawPoint ⟨3, 4⟩ ⟨255, 0, 0, 255⟩).drawTextureRun 1
          ([tileCall 0] ++ [tileCall 16])).submitted =
        ((Renderer.initial.drawPoint ⟨3, 4⟩ ⟨255, 0, 0, 255⟩).drawTextureRun 1
          [tileCall 0]).submitted ∧
      ((((Renderer.initial.drawPoint ⟨3, 4⟩ ⟨255, 0, 0, 255⟩).drawTextureRun 1
          [tileCall 0]).drawTexture 2 (tileCall 8).1 (tileCall 8).2).drawTextureRun 1
          [tileCall 16]).submitted =
        ((Renderer.initial.drawPoint ⟨3, 4⟩ ⟨255, 0, 0, 255⟩).drawTextureRun 1
          [tileCall 0]).submitted ++
          [b1, textureBatch (Renderer.initial.drawPoint ⟨3, 4⟩ ⟨255, 0, 0, 255⟩).state 2
            [tileCall 8]] ∧
      ((Renderer.initial.drawPoint ⟨3, 4⟩ ⟨255, 0, 0, 255⟩).interleavedRun 1 2 [tileCall 0]
          (tileCall 8) [tileCall 16]).submitted =
        ((Renderer.initial.drawPoint ⟨3, 4⟩ ⟨255, 0, 0, 255⟩).drawTextureRun 1
          [tileCall 0]).submitted ++
          [b1, textureBatch (Renderer.initial.drawPoint ⟨3, 4⟩ ⟨255, 0, 0, 255⟩).state 2
            [tileCall 8],
            textureBatch (Renderer.initial.drawPoint ⟨3, 4⟩ ⟨255, 0, 0, 255⟩).state 1
              [tileCall 16]]) :=
  ⟨⟨by decide, by simp, by simp⟩,
    drawTexture_batch_coalescing (Renderer.initial.drawPoint ⟨3, 4⟩ ⟨255, 0, 0, 255⟩) 1 2
      (tileCall 0) (tileCall 8) [tileCall 8] [tileCall 0] [tileCall 16] (by decide) (by simp)
      (by simp)⟩

/-! ### The state stack -/

theorem Renderer.updateState_state (r : Renderer) (s : RenderState) :
    (r.updateState s).state = s := by
  unfold Renderer.updateState
  split
  · rename_i h
    exact h.symm
  · rfl

theorem Renderer.updateState_stateStack (r : Renderer) (s : RenderState) :
    (r.updateState s).stateStack = r.stateStack := by
  unfold Renderer.updateState
  split
  · rfl
  · exact Renderer.flush_stateStack r

theorem Renderer.popState_cons (r : Renderer) (saved : RenderState) (rest : List RenderState)
    (h : r.stateStack = saved :: rest) :
    r.popState = some { (r.updateState saved) with stateStack := rest } := by
  unfold Renderer.popState
  rw [h]

/-- After a flush no vertices are pending. -/
theorem Renderer.flush_pendingVertices (r : Renderer) : r.flush.pendingVertices = [] := by
  unfold Renderer.pendingVertices
  cases h : r.flush.openBatch with
  | none => rfl
  | some b => simpa using Renderer.flush_idle r b h

/-- C3: from every renderer state, `pushState(); setGlobalScale((3,3));
setOverlayColor(red); popState()` succeeds and leaves the whole render state
(overlay colour, colour modulation, texture repeat, translation, scale, clip
rect, render target) and the saved-state stack exactly as they were before the
`pushState()`; the same holds for every scale and colour set in between. -/
theorem pushState_popState_roundtrip (r : Renderer) (scale : Point ℚ) (color : Color) :
    (((r.pushState.setGlobalScale ⟨3, 3⟩).setOverlayColor ⟨255, 0, 0, 255⟩).popState.map
      (fun q => (q.state, q.stateStack))) = some (r.state, r.stateStack) ∧
    (((r.pushState.setGlobalScale scale).setOverlayColor color).popState.map
      (fun q => (q.state, q.stateStack))) = some (r.state, r.stateStack) ∧
    ((r.pushState.setGlobalScale scale).setOverlayColor color).stateStack =
      r.state :: r.stateStack := by
  have key : ∀ (sc : Point ℚ) (col : Color),
      ((r.pushState.setGlobalScale sc).setOverlayColor col).stateStack =
        r.state :: r.stateStack := by
    intro sc col
    simp [Renderer.setOverlayColor, Renderer.setGlobalScale, Renderer.updateState_stateStack,
      Renderer.pushState]
  refine ⟨?_, ?_, key scale color⟩
  · rw [Renderer.popState_cons _ r.state r.stateStack (key _ _)]
    simp [Renderer.updateState_state]
  · rw [Renderer.popState_cons _ r.state r.stateStack (key _ _)]
    simp [Renderer.updateState_state]

/-! ### C4: the coordinate transform -/

theorem Renderer.append_lastVertex (r : Renderer) (v : Vertex) (texture : Option TextureId)
    (variant : ShaderVariant) (target : TextureId) :
    (r.append [v] texture variant target).lastVertex = some v := by
  unfold Renderer.append Renderer.lastVertex
  split
  · split <;> simp [List.getLast?_concat]
  · simp

/-- C4: with global scale `(sx, sy)` and global translation `(tx, ty)`, a
point `(x, y)` is transformed to `(x*sx + tx, y*sy + ty)`, scale first and
translation second, and `drawPoint` puts its vertex at that position; with
scale `(2,2)` and translation `(10,5)`, `(0,0)` goes to `(10,5)` and `(3,4)`
to `(16,13)`. -/
theorem transform_scale_then_translate (r : Renderer) (sx sy : ℚ) (tx ty x y : Int)
    (color : Color) :
    transform ((r.setGlobalScale ⟨sx, sy⟩).setGlobalTranslation ⟨tx, ty⟩).state ⟨x, y⟩ =
      ⟨(x : ℚ) * sx + tx, (y : ℚ) * sy + ty⟩ ∧
    transform ((r.setGlobalTranslation ⟨tx, ty⟩).setGlobalScale ⟨sx, sy⟩).state ⟨x, y⟩ =
      ⟨(x : ℚ) * sx + tx, (y : ℚ) * sy + ty⟩ ∧
    ((((r.setGlobalScale ⟨sx, sy⟩).setGlobalTranslation ⟨tx, ty⟩).drawPoint ⟨x, y⟩
        color).lastVertex.map (fun v => (v.position, v.color))) =
      some (⟨(x : ℚ) * sx + tx, (y : ℚ) * sy + ty⟩, color) ∧
    ((((r.setGlobalScale ⟨2, 2⟩).setGlobalTranslation ⟨10, 5⟩).drawPoint ⟨0, 0⟩
        color).lastVertex.map (fun v => v.position)) = some ⟨10, 5⟩ ∧
    ((((r.setGlobalScale ⟨2, 2⟩).setGlobalTranslation ⟨10, 5⟩).drawPoint ⟨3, 4⟩
        color).lastVertex.map (fun v => v.position)) = some ⟨16, 13⟩ := by
  have hst : ∀ (sc : Point ℚ) (tr : Point Int),
      ((r.setGlobalScale sc).setGlobalTranslation tr).state =
        { r.state with globalScale := sc, globalTranslation := tr } := by
    intro sc tr
    simp [Renderer.setGlobalTranslation, Renderer.setGlobalScale, Renderer.updateState_state]
  have hst2 : ∀ (sc : Point ℚ) (tr : Point Int),
      ((r.setGlobalTranslation tr).setGlobalScale sc).state =
        { r.state with globalScale := sc, globalTranslation := tr } := by
    intro sc tr
    simp [Renderer.setGlobalTranslation, Renderer.setGlobalScale, Renderer.updateState_state]
  refine ⟨?_, ?_, ?_, ?_, ?_⟩
  · rw [hst]
    simp [transform]
  · rw [hst2]
    simp [transform]
  · unfold Renderer.drawPoint
    rw [Renderer.append_lastVertex, hst]
    simp [transform]
  · unfold Renderer.drawPoint
    rw [Renderer.append_lastVertex, hst]
    simp [transform]
  · unfold Renderer.drawPoint
    rw [Renderer.append_lastVertex, hst]
    simp only [transform, Option.map_some', Option.some.injEq, Point.mk.injEq]
    norm_num

/-! ### C5: the `saveState` scope guard -/

/-- C5: `saveState` performs exactly `pushState` (the stack grows by one) and
the guard it returns performs exactly `popState` when released; so for every
scope body that leaves the stack depth as it found it, the scope succeeds and
the depth after the guard is released equals the depth before `saveState`. -/
theorem saveState_balanced (r : Renderer) (body : Renderer → Renderer) (q : Renderer)
    (hbody : (body r.pushState).stateStack.length = r.pushState.stateStack.length) :
    (saveState r).1 = r.pushState ∧
    (saveState r).1.stateStack.length = r.stateStack.length + 1 ∧
    (saveState r).2.release q = q.popState ∧
    ((q.pushState.popState).map (fun p => p.stateStack.length)) = some q.stateStack.length ∧
    ((withSavedState r body).map (fun p => p.stateStack.length)) =
      some r.stateStack.length := by
  refine ⟨rfl, ?_, rfl, ?_, ?_⟩
  · simp [saveState, Renderer.pushState]
  · simp [Renderer.popState, Renderer.pushState]
  · have hlen : (body r.pushState).stateStack.length = r.stateStack.length + 1 := by
      rw [hbody]
      simp [Renderer.pushState]
    unfold withSavedState saveState ScopeGuard.release
    simp only
    cases hs : (body r.pushState).stateStack with
    | nil =>
      rw [hs] at hlen
      simp at hlen
    | cons s rest =>
      rw [hs] at hlen
      rw [Renderer.popState_cons _ s rest hs]
      simp at hlen ⊢
      exact hlen

/-- Witness for C5: the scope of `MapRenderer::renderBackdrop`, which enables
texture repeat and draws one texture, run on a fresh renderer. -/
theorem saveState_balanced_witness :
    ((fun p : Renderer => (p.setTextureRepeatEnabled true).drawTexture 1 (tileCall 0).1
        (tileCall 0).2) Renderer.initial.pushState).stateStack.length =
      Renderer.initial.pushState.stateStack.length ∧
    (saveState Renderer.initial).1 = Renderer.initial.pushState ∧
    (saveState Renderer.initial).1.stateStack.length = Renderer.initial.stateStack.length + 1 ∧
    (saveState Renderer.initial).2.release Renderer.initial = Renderer.initial.popState ∧
    ((Renderer.initial.pushState.popState).map (fun p => p.stateStack.length)) =
      some Renderer.initial.stateStack.length ∧
    ((withSavedState Renderer.initial
        (fun p : Renderer => (p.setTextureRepeatEnabled true).drawTexture 1 (tileCall 0).1
          (tileCall 0).2)).map (fun p => p.stateStack.length)) =
      some Renderer.initial.stateStack.length :=
  ⟨by decide,
    saveState_balanced Renderer.initial
      (fun p : Renderer => (p.setTextureRepeatEnabled true).drawTexture 1 (tileCall 0).1
        (tileCall 0).2) Renderer.initial (by decide)⟩

/-! ### C6 to C8: `popState`, `pushState`, `resetState` -/

/-- C6: when the stack holds `saved` on top of `rest`, `popState` makes
`saved` the current state and leaves `rest` as the stack; the open batch is
flushed if `saved` differs from the state before the pop, and is left
untouched (nothing submitted, pending vertices kept) if `saved` is identical
to it; after a flush no vertices are pending. -/
theorem popState_restores (r : Renderer) (saved : RenderState) (rest : List RenderState)
    (h : r.stateStack = saved :: rest) :
    r.popState = some
      { state := saved
        stateStack := rest
        openBatch := if saved = r.state then r.openBatch else r.flush.openBatch
        submitted := if saved = r.state then r.submitted else r.flush.submitted } ∧
    r.flush.pendingVertices = [] ∧
    r.flush.submitted ++ (r.flush.openBatch.toList.filter (fun b => !b.vertices.isEmpty)) =
      r.submitted ++ (r.openBatch.toList.filter (fun b => !b.vertices.isEmpty)) := by
  refine ⟨?_, Renderer.flush_pendingVertices r, ?_⟩
  · rw [Renderer.popState_cons r saved rest h]
    unfold Renderer.updateState
    by_cases hs : saved = r.state
    · subst hs
      simp
    · simp [hs]
  · unfold Renderer.flush
    cases hb : r.openBatch with
    | none => simp [hb]
    | some b =>
      by_cases he : b.vertices.isEmpty
      · simp [hb, he]
      · simp [hb, he]

/-- Witness for C6: a renderer with one pending tile draw whose saved snapshot
has a different overlay colour. -/
theorem popState_restores_witness :
    ((Renderer.initial.pushState.setOverlayColor ⟨255, 0, 0, 255⟩).drawTexture 1
        (tileCall 0).1 (tileCall 0).2).stateStack = RenderState.default :: [] ∧
    (((Renderer.initial.pushState.setOverlayColor ⟨255, 0, 0, 255⟩).drawTexture 1
        (tileCall 0).1 (tileCall 0).2).popState = some
      { state := RenderState.default
        stateStack := []
        openBatch :=
          if RenderState.default =
              ((Renderer.initial.pushState.setOverlayColor ⟨255, 0, 0, 255⟩).drawTexture 1
                (tileCall 0).1 (tileCall 0).2).state
          then ((Renderer.initial.pushState.setOverlayColor ⟨255, 0, 0, 255⟩).drawTexture 1
                (tileCall 0).1 (tileCall 0).2).openBatch
          else ((Renderer.initial.pushState.setOverlayColor ⟨255, 0, 0, 255⟩).drawTexture 1
                (tileCall 0).1 (tileCall 0).2).flush.openBatch
        submitted :=
          if RenderState.default =
              ((Renderer.initial.pushState.setOverlayColor ⟨255, 0, 0, 255⟩).drawTexture 1
                (tileCall 0).1 (tileCall 0).2).state
          then ((Renderer.initial.pushState.setOverlayColor ⟨255, 0, 0, 255⟩).drawTexture 1
                (tileCall 0).1 (tileCall 0).2).submitted
          else ((Renderer.initial.pushState.setOverlayColor ⟨255, 0, 0, 255⟩).drawTexture 1
                (tileCall 0).1 (tileCall 0).2).flush.submitted } ∧
    ((Renderer.initial.pushState.setOverlayColor ⟨255, 0, 0, 255⟩).drawTexture 1
        (tileCall 0).1 (tileCall 0).2).flush.pendingVertices = [] ∧
    ((Renderer.initial.pushState.setOverlayColor ⟨255, 0, 0, 255⟩).drawTexture 1
        (tileCall 0).1 (tileCall 0).2).flush.submitted ++
      (((Renderer.initial.pushState.setOverlayColor ⟨255, 0, 0, 255⟩).drawTexture 1
        (tileCall 0).1 (tileCall 0).2).flush.openBatch.toList.filter
          (fun b => !b.vertices.isEmpty)) =
      ((Renderer.initial.pushState.setOverlayColor ⟨255, 0, 0, 255⟩).drawTexture 1
        (tileCall 0).1 (tileCall 0).2).submitted ++
      (((Renderer.initial.pushState.setOverlayColor ⟨255, 0, 0, 255⟩).drawTexture 1
        (tileCall 0).1 (tileCall 0).2).openBatch.toList.filter
          (fun b => !b.vertices.isEmpty))) :=
  ⟨by decide,
    popState_restores
      ((Renderer.initial.pushState.setOverlayColor ⟨255, 0, 0, 255⟩).drawTexture 1
        (tileCall 0).1 (tileCall 0).2) RenderState.default [] (by decide)⟩

/-- C7: `pushState` changes no field of the current render state, leaves the
open batch and the submitted batches as they are, and grows the saved-state
stack by exactly one entry, equal to the current state. -/
theorem pushState_frame (r : Renderer) :
    r.pushState.state = r.state ∧
    r.pushState.openBatch = r.openBatch ∧
    r.pushState.submitted = r.submitted ∧
    r.pushState.stateStack = r.state :: r.stateStack ∧
    r.pushState.stateStack.length = r.stateStack.length + 1 := by
  refine ⟨rfl, rfl, rfl, rfl, ?_⟩
  simp [Renderer.pushState]

/-- C8: after `resetState`, from any prior state, the current render state is
the documented default (overlay colour RGBA 0,0,0,0; colour modulation RGBA
255,255,255,255; texture repeat off; translation (0,0); scale (1,1); no clip
rect; render target the screen) and the saved-state stack is empty. -/
theorem resetState_defaults (r : Renderer) :
    r.resetState.state = RenderState.default ∧
    r.resetState.stateStack = [] ∧
    r.resetState.state.overlayColor = ⟨0, 0, 0, 0⟩ ∧
    r.resetState.state.colorModulation = ⟨255, 255, 255, 255⟩ ∧
    r.resetState.state.textureRepeatEnabled = false ∧
    r.resetState.state.globalTranslation = ⟨0, 0⟩ ∧
    r.resetState.state.globalScale = ⟨1, 1⟩ ∧
    r.resetState.state.clipRect = none ∧
    r.resetState.state.activeRenderTarget = RenderTarget.screen := by
  have h : r.resetState.state = RenderState.default := by
    simp [Renderer.resetState, Renderer.updateState_state]
  refine ⟨h, rfl, ?_, ?_, ?_, ?_, ?_, ?_, ?_⟩ <;> rw [h] <;> rfl

/-! ### C9: render targets -/

/-- C9: `setRenderTarget(target)` flushes the open batch (afterwards no
vertices are pending and the submitted batches are those of a flush), changes
no other state field, and makes `target` the one active render target,
whatever was bound before; for id 0 the active target is the screen. -/
theorem setRenderTarget_binds (r : Renderer) (target : TextureId) :
    (r.setRenderTarget target).state = { r.state with renderTarget := target } ∧
    (r.setRenderTarget target).submitted = r.flush.submitted ∧
    (r.setRenderTarget target).openBatch = r.flush.openBatch ∧
    (r.setRenderTarget target).pendingVertices = [] ∧
    (r.setRenderTarget target).stateStack = r.stateStack ∧
    (r.setRenderTarget 0).state.activeRenderTarget = RenderTarget.screen ∧
    (r.setRenderTarget (target + 1)).state.activeRenderTarget =
      RenderTarget.texture (target + 1) := by
  refine ⟨?_, rfl, rfl, ?_, ?_, ?_, ?_⟩
  · simp [Renderer.setRenderTarget]
  · exact Renderer.flush_pendingVertices r
  · simp [Renderer.setRenderTarget, Renderer.flush_stateStack]
  · simp [Renderer.setRenderTarget, RenderState.activeRenderTarget]
  · simp [Renderer.setRenderTarget, RenderState.activeRenderTarget]

/-! ### C10: shader-variant selection -/

/-- C10: the selected shader variant depends only on the overlay colour, the
colour modulation, the repeat flag and the operation kind: states that agree
on these select the same variant; the default state selects the plain variant
for a textured quad, and a textured quad is plain exactly when overlay colour
is transparent black, colour modulation opaque white and repeat disabled. -/
theorem selectShaderVariant_deterministic (s₁ s₂ : RenderState) (op : OperationKind)
    (hOverlay : s₁.overlayColor = s₂.overlayColor)
    (hModulation : s₁.colorModulation = s₂.colorModulation)
    (hRepeat : s₁.textureRepeatEnabled = s₂.textureRepeatEnabled) :
    selectShaderVariant s₁ op = selectShaderVariant s₂ op ∧
    selectShaderVariant RenderState.default OperationKind.texturedQuad = ShaderVariant.plain ∧
    (selectShaderVariant s₁ OperationKind.texturedQuad = ShaderVariant.plain ↔
      (s₁.overlayColor = ⟨0, 0, 0, 0⟩ ∧ s₁.colorModulation = ⟨255, 255, 255, 255⟩ ∧
        s₁.textureRepeatEnabled = false)) ∧
    selectShaderVariant s₁ OperationKind.waterEffectQuad = ShaderVariant.waterDistortion := by
  refine ⟨?_, by decide, ?_, rfl⟩
  · cases op <;> simp [selectShaderVariant, hOverlay, hModulation, hRepeat]
  · simp only [selectShaderVariant, RenderState.default]
    by_cases h1 : s₁.textureRepeatEnabled = true
    · simp [h1]
    · by_cases h2 : s₁.overlayColor = ⟨0, 0, 0, 0⟩
      · by_cases h3 : s₁.colorModulation = ⟨255, 255, 255, 255⟩
        · simp [h1, h2, h3]
        · simp [h1, h2, h3]
      · simp [h1, h2]

/-- Witness for C10: the default state and a state that differs from it in
translation, scale and render target only. -/
theorem selectShaderVariant_deterministic_witness :
    RenderState.default.overlayColor =
      ({ RenderState.default with
          globalTranslation := ⟨10, 5⟩, globalScale := ⟨2, 2⟩,
          renderTarget := 7 } : RenderState).overlayColor ∧
    (selectShaderVariant RenderState.default OperationKind.texturedQuad =
      selectShaderVariant
        { RenderState.default with
          globalTranslation := ⟨10, 5⟩, globalScale := ⟨2, 2⟩, renderTarget := 7 }
        OperationKind.texturedQuad ∧
    selectShaderVariant RenderState.default OperationKind.texturedQuad = ShaderVariant.plain ∧
    (selectShaderVariant RenderState.default OperationKind.texturedQuad = ShaderVariant.plain ↔
      (RenderState.default.overlayColor = ⟨0, 0, 0, 0⟩ ∧
        RenderState.default.colorModulation = ⟨255, 255, 255, 255⟩ ∧
        RenderState.default.textureRepeatEnabled = false)) ∧
    selectShaderVariant RenderState.default OperationKind.waterEffectQuad =
      ShaderVariant.waterDistortion) :=
  ⟨rfl,
    selectShaderVariant_deterministic RenderState.default
      { RenderState.default with
        globalTranslation := ⟨10, 5⟩, globalScale := ⟨2, 2⟩, renderTarget := 7 }
      OperationKind.texturedQuad rfl rfl rfl⟩

/-! ### C11 and C12: texture coordinates of rectangles inside and beyond the texture -/

/-- C11 (as stated, refuted): the code computes in `float`.  For the rectangle
at `x = 16777219` of width `16777215` in a texture `33554434` wide, which lies
inside the texture, `float(x)` is `16777220` and `float(texWidth)` is
`33554432`, and the returned `right` is `1 + 2^-23`, greater than 1.  The same
value results for a texture only `16777221 = 2^24 + 5` wide, from the rectangle
at `x = 7257746` of width `9519475`. -/
theorem toTexCoordsFloat_normalized_counterexample :
    ((0 : Int) < 33554434 ∧ (0 : Int) < 1 ∧ (0 : Int) ≤ 16777219 ∧ (0 : Int) ≤ 0 ∧
      (0 : Int) ≤ 16777215 ∧ (0 : Int) ≤ 1 ∧ (16777219 : Int) + 16777215 ≤ 33554434 ∧
      (0 : Int) + 1 ≤ 1) ∧
    toTexCoordsFloat ⟨⟨16777219, 0⟩, ⟨16777215, 1⟩⟩ 33554434 1 =
      some ⟨4194305 / 8388608, 0, 8388609 / 8388608, 1⟩ ∧
    ((0 : Int) < 16777221 ∧ (0 : Int) ≤ 7257746 ∧ (0 : Int) ≤ 9519475 ∧
      (7257746 : Int) + 9519475 ≤ 16777221) ∧
    toTexCoordsFloat ⟨⟨7257746, 0⟩, ⟨9519475, 1⟩⟩ 16777221 1 =
      some ⟨14515489 / 33554432, 0, 8388609 / 8388608, 1⟩ ∧
    (8388609 / 8388608 : ℚ) = 1 + 2 ^ (-23 : ℤ) ∧ (1 : ℚ) < 8388609 / 8388608 := by
  have h1 : F32.ofInt 16777219 = some 16777220 := by
    simp only [F32.ofInt, Int.cast_ofNat]
    exact F32.ofRat_eval _ _ 24 8388610 (by norm_num) (Or.inl (by norm_num)) (by norm_num)
      (Or.inr (Or.inr ⟨by norm_num, by norm_num⟩)) (by norm_num) (by norm_num)
  have h2 : F32.ofInt 33554434 = some 33554432 := by
    simp only [F32.ofInt, Int.cast_ofNat]
    exact F32.ofRat_eval _ _ 25 8388608 (by norm_num) (Or.inl (by norm_num)) (by norm_num)
      (Or.inr (Or.inl ⟨by norm_num, by norm_num⟩)) (by norm_num) (by norm_num)
  have h3 : F32.div 16777220 33554432 = some (4194305 / 8388608) := by
    unfold F32.div
    rw [if_neg (by norm_num)]
    exact F32.ofRat_eval _ _ (-1) 8388610 (by norm_num) (Or.inl (by norm_num)) (by norm_num)
      (Or.inl (by norm_num)) (by norm_num) (by norm_num)
  have h4 : F32.ofInt 0 = some 0 := by
    simp only [F32.ofInt, Int.cast_zero]
    exact F32.ofRat_zero
  have h5 : F32.ofInt 1 = some 1 := by
    simp only [F32.ofInt, Int.cast_one]
    exact F32.ofRat_eval _ _ 0 8388608 (by norm_num) (Or.inl (by norm_num)) (by norm_num)
      (Or.inl (by norm_num)) (by norm_num) (by norm_num)
  have h6 : F32.div 0 1 = some 0 := by
    unfold F32.div
    rw [if_neg (by norm_num), zero_div]
    exact F32.ofRat_zero
  have h7 : F32.ofInt 16777215 = some 16777215 := by
    simp only [F32.ofInt, Int.cast_ofNat]
    exact F32.ofRat_eval _ _ 23 16777215 (by norm_num) (Or.inl (by norm_num)) (by norm_num)
      (Or.inl (by norm_num)) (by norm_num) (by norm_num)
  have h8 : F32.div 16777215 33554432 = some (16777215 / 33554432) := by
    unfold F32.div
    rw [if_neg (by norm_num)]
    exact F32.ofRat_eval _ _ (-2) 16777215 (by norm_num) (Or.inl (by norm_num)) (by norm_num)
      (Or.inl (by norm_num)) (by norm_num) (by norm_num)
  have h9 : F32.div 1 1 = some 1 := by
    unfold F32.div
    rw [if_neg (by norm_num)]
    exact F32.ofRat_eval _ _ 0 8388608 (by norm_num) (Or.inl (by norm_num)) (by norm_num)
      (Or.inl (by norm_num)) (by norm_num) (by norm_num)
  have h10 : F32.add (4194305 / 8388608) (16777215 / 33554432) = some (8388609 / 8388608) := by
    unfold F32.add
    exact F32.ofRat_eval _ _ 0 8388609 (by norm_num) (Or.inl (by norm_num)) (by norm_num)
      (Or.inl (by norm_num)) (by norm_num) (by norm_num)
  have h11 : F32.add 0 1 = some 1 := by
    unfold F32.add
    exact F32.ofRat_eval _ _ 0 8388608 (by norm_num) (Or.inl (by norm_num)) (by norm_num)
      (Or.inl (by norm_num)) (by norm_num) (by norm_num)
  have h12 : F32.ofInt 7257746 = some 7257746 := by
    simp only [F32.ofInt, Int.cast_ofNat]
    exact F32.ofRat_eval _ _ 22 14515492 (by norm_num) (Or.inl (by norm_num)) (by norm_num)
      (Or.inl (by norm_num)) (by norm_num) (by norm_num)
  have h13 : F32.ofInt 16777221 = some 16777220 := by
    simp only [F32.ofInt, Int.cast_ofNat]
    exact F32.ofRat_eval _ _ 24 8388610 (by norm_num) (Or.inl (by norm_num)) (by norm_num)
      (Or.inr (Or.inl ⟨by norm_num, by norm_num⟩)) (by norm_num) (by norm_num)
  have h14 : F32.div 7257746 16777220 = some (14515489 / 33554432) := by
    unfold F32.div
    rw [if_neg (by norm_num)]
    exact F32.ofRat_eval _ _ (-2) 14515489 (by norm_num) (Or.inl (by norm_num)) (by norm_num)
      (Or.inl (by norm_num)) (by norm_num) (by norm_num)
  have h15 : F32.ofInt 9519475 = some 9519475 := by
    simp only [F32.ofInt, Int.cast_ofNat]
    exact F32.ofRat_eval _ _ 23 9519475 (by norm_num) (Or.inl (by norm_num)) (by norm_num)
      (Or.inl (by norm_num)) (by norm_num) (by norm_num)
  have h16 : F32.div 9519475 16777220 = some (9519473 / 16777216) := by
    unfold F32.div
    rw [if_neg (by norm_num)]
    exact F32.ofRat_eval _ _ (-1) 9519473 (by norm_num) (Or.inl (by norm_num)) (by norm_num)
      (Or.inl (by norm_num)) (by norm_num) (by norm_num)
  have h17 : F32.add (14515489 / 33554432) (9519473 / 16777216) = some (8388609 / 8388608) := by
    unfold F32.add
    exact F32.ofRat_eval _ _ 0 8388609 (by norm_num) (Or.inl (by norm_num)) (by norm_num)
      (Or.inl (by norm_num)) (by norm_num) (by norm_num)
  have heval : toTexCoordsFloat ⟨⟨16777219, 0⟩, ⟨16777215, 1⟩⟩ 33554434 1 =
      some ⟨4194305 / 8388608, 0, 8388609 / 8388608, 1⟩ :=
    toTexCoordsFloat_eval 16777219 0 16777215 1 33554434 1 16777220 0 16777215 1 33554432 1
      (4194305 / 8388608) 0 (16777215 / 33554432) 1 (8388609 / 8388608) 1 h1 h4 h7 h5 h2 h5 h3 h6
      h8 h9 h10 h11
  have hnear : toTexCoordsFloat ⟨⟨7257746, 0⟩, ⟨9519475, 1⟩⟩ 16777221 1 =
      some ⟨14515489 / 33554432, 0, 8388609 / 8388608, 1⟩ :=
    toTexCoordsFloat_eval 7257746 0 9519475 1 16777221 1 7257746 0 9519475 1 16777220 1
      (14515489 / 33554432) 0 (9519473 / 16777216) 1 (8388609 / 8388608) 1 h12 h4 h15 h5 h13 h5
      h14 h6 h16 h9 h17 h11
  exact ⟨by decide, heval, by decide, hnear, by norm_num, by norm_num⟩

/-- C11 (amended): for a texture of positive size whose width and height do
not exceed `2^24` (every `int` operand is then converted to `float` without
rounding) and a source rectangle lying inside it, `toTexCoords`, computed in
`float`, returns four finite values that lie in `[0, 1]`, with `left ≤ right`
and `top ≤ bottom`; the rectangle covering the whole texture yields exactly
`{0, 0, 1, 1}`. -/
theorem toTexCoordsFloat_normalized (x y w h texWidth texHeight : Int)
    (hTexWidth : 0 < texWidth) (hTexHeight : 0 < texHeight)
    (hMaxWidth : texWidth ≤ 2 ^ 24) (hMaxHeight : texHeight ≤ 2 ^ 24)
    (hx : 0 ≤ x) (hy : 0 ≤ y) (hw : 0 ≤ w) (hh : 0 ≤ h)
    (hxw : x + w ≤ texWidth) (hyh : y + h ≤ texHeight) :
    (∃ t : TexCoords, toTexCoordsFloat ⟨⟨x, y⟩, ⟨w, h⟩⟩ texWidth texHeight = some t ∧
      (0 ≤ t.left ∧ t.left ≤ 1) ∧ (0 ≤ t.top ∧ t.top ≤ 1) ∧
      (0 ≤ t.right ∧ t.right ≤ 1) ∧ (0 ≤ t.bottom ∧ t.bottom ≤ 1) ∧
      t.left ≤ t.right ∧ t.top ≤ t.bottom) ∧
    toTexCoordsFloat ⟨⟨0, 0⟩, ⟨texWidth, texHeight⟩⟩ texWidth texHeight =
      some ⟨0, 0, 1, 1⟩ := by
  constructor
  · obtain ⟨a1, a2, a3, a4, a5, a6, a7, a8, a9⟩ := F32.axis x w texWidth hTexWidth hMaxWidth hx hw hxw
    obtain ⟨b1, b2, b3, b4, b5, b6, b7, b8, b9⟩ :=
      F32.axis y h texHeight hTexHeight hMaxHeight hy hh hyh
    refine ⟨⟨F32.round ((x : ℚ) / texWidth), F32.round ((y : ℚ) / texHeight),
      F32.round (F32.round ((x : ℚ) / texWidth) + F32.round ((w : ℚ) / texWidth)),
      F32.round (F32.round ((y : ℚ) / texHeight) + F32.round ((h : ℚ) / texHeight))⟩,
      ?_, a7, b7, a8, b8, a9, b9⟩
    exact toTexCoordsFloat_eval x y w h texWidth texHeight _ _ _ _ _ _ _ _ _ _ _ _
      a1 b1 a2 b2 a3 b3 a4 b4 a5 b5 a6 b6
  · obtain ⟨a1, a2, a3, a4, a5, a6, -⟩ :=
      F32.axis 0 texWidth texWidth hTexWidth hMaxWidth le_rfl hTexWidth.le (by omega)
    obtain ⟨b1, b2, b3, b4, b5, b6, -⟩ :=
      F32.axis 0 texHeight texHeight hTexHeight hMaxHeight le_rfl hTexHeight.le (by omega)
    have hW : (texWidth : ℚ) ≠ 0 := by exact_mod_cast hTexWidth.ne.symm
    have hH : (texHeight : ℚ) ≠ 0 := by exact_mod_cast hTexHeight.ne.symm
    rw [toTexCoordsFloat_eval 0 0 texWidth texHeight texWidth texHeight _ _ _ _ _ _ _ _ _ _ _ _
      a1 b1 a2 b2 a3 b3 a4 b4 a5 b5 a6 b6]
    simp only [Int.cast_zero, zero_div, div_self hW, div_self hH, F32.round_zero,
      F32.round_one, zero_add]

/-- Witness for C11: the rectangle "from 8,8 to 32,64" of the header's example
inside a 64x128 texture. -/
theorem toTexCoordsFloat_normalized_witness :
    ((0 : Int) < 64 ∧ (0 : Int) < 128 ∧ (64 : Int) ≤ 2 ^ 24 ∧ (128 : Int) ≤ 2 ^ 24 ∧
      (0 : Int) ≤ 8 ∧ (0 : Int) ≤ 24 ∧ (0 : Int) ≤ 56 ∧
      (8 : Int) + 24 ≤ 64 ∧ (8 : Int) + 56 ≤ 128) ∧
    (∃ t : TexCoords, toTexCoordsFloat ⟨⟨8, 8⟩, ⟨24, 56⟩⟩ 64 128 = some t ∧
      (0 ≤ t.left ∧ t.left ≤ 1) ∧ (0 ≤ t.top ∧ t.top ≤ 1) ∧
      (0 ≤ t.right ∧ t.right ≤ 1) ∧ (0 ≤ t.bottom ∧ t.bottom ≤ 1) ∧
      t.left ≤ t.right ∧ t.top ≤ t.bottom) ∧
    toTexCoordsFloat ⟨⟨0, 0⟩, ⟨64, 128⟩⟩ 64 128 = some ⟨0, 0, 1, 1⟩ :=
  ⟨by decide,
    toTexCoordsFloat_normalized 8 8 24 56 64 128 (by decide) (by decide) (by decide) (by decide)
      (by decide) (by decide) (by decide) (by decide) (by decide) (by decide)⟩

/-- C12 (as stated, refuted): the code computes in `float`.  For a texture 3
wide and `k = 5592407`, the width `k * 3 = 16777221` of the source rectangle
is converted to the `float` `16777220`, and the returned `right` is
`5592406.5`, not `k`.  For a texture 1 wide and `k = 2^24 + 1` the returned
`right` is `2^24`. -/
theorem toTexCoordsFloat_repeat_counterexample :
    ((0 : Int) < 3 ∧ (0 : Int) < 7 ∧ (1 : Int) ≤ 5592407) ∧
    toTexCoordsFloat ⟨⟨0, 0⟩, ⟨5592407 * 3, 7⟩⟩ 3 7 = some ⟨0, 0, 11184813 / 2, 1⟩ ∧
    (11184813 / 2 : ℚ) ≠ ((5592407 : Int) : ℚ) ∧
    toTexCoordsFloat ⟨⟨0, 0⟩, ⟨16777217 * 1, 1⟩⟩ 1 1 = some ⟨0, 0, 16777216, 1⟩ ∧
    (16777216 : ℚ) ≠ ((16777217 : Int) : ℚ) := by
  have h1 : F32.ofInt 0 = some 0 := by
    simp only [F32.ofInt, Int.cast_zero]
    exact F32.ofRat_zero
  have h2 : F32.ofInt 3 = some 3 := by
    simp only [F32.ofInt, Int.cast_ofNat]
    exact F32.ofRat_eval _ _ 1 12582912 (by norm_num) (Or.inl (by norm_num)) (by norm_num)
      (Or.inl (by norm_num)) (by norm_num) (by norm_num)
  have h3 : F32.div 0 3 = some 0 := by
    unfold F32.div
    rw [if_neg (by norm_num), zero_div]
    exact F32.ofRat_zero
  have h4 : F32.ofInt 7 = some 7 := by
    simp only [F32.ofInt, Int.cast_ofNat]
    exact F32.ofRat_eval _ _ 2 14680064 (by norm_num) (Or.inl (by norm_num)) (by norm_num)
      (Or.inl (by norm_num)) (by norm_num) (by norm_num)
  have h5 : F32.div 0 7 = some 0 := by
    unfold F32.div
    rw [if_neg (by norm_num), zero_div]
    exact F32.ofRat_zero
  have h6 : F32.ofInt 16777221 = some 16777220 := by
    simp only [F32.ofInt, Int.cast_ofNat]
    exact F32.ofRat_eval _ _ 24 8388610 (by norm_num) (Or.inl (by norm_num)) (by norm_num)
      (Or.inr (Or.inl ⟨by norm_num, by norm_num⟩)) (by norm_num) (by norm_num)
  have h7 : F32.div 16777220 3 = some (11184813 / 2) := by
    unfold F32.div
    rw [if_neg (by norm_num)]
    exact F32.ofRat_eval _ _ 22 11184813 (by norm_num) (Or.inl (by norm_num)) (by norm_num)
      (Or.inl (by norm_num)) (by norm_num) (by norm_num)
  have h8 : F32.div 7 7 = some 1 := by
    unfold F32.div
    rw [if_neg (by norm_num)]
    exact F32.ofRat_eval _ _ 0 8388608 (by norm_num) (Or.inl (by norm_num)) (by norm_num)
      (Or.inl (by norm_num)) (by norm_num) (by norm_num)
  have h9 : F32.add 0 (11184813 / 2) = some (11184813 / 2) := by
    unfold F32.add
    exact F32.ofRat_eval _ _ 22 11184813 (by norm_num) (Or.inl (by norm_num)) (by norm_num)
      (Or.inl (by norm_num)) (by norm_num) (by norm_num)
  have h10 : F32.add 0 1 = some 1 := by
    unfold F32.add
    exact F32.ofRat_eval _ _ 0 8388608 (by norm_num) (Or.inl (by norm_num)) (by norm_num)
      (Or.inl (by norm_num)) (by norm_num) (by norm_num)
  have h11 : F32.ofInt 1 = some 1 := by
    simp only [F32.ofInt, Int.cast_one]
    exact F32.ofRat_eval _ _ 0 8388608 (by norm_num) (Or.inl (by norm_num)) (by norm_num)
      (Or.inl (by norm_num)) (by norm_num) (by norm_num)
  have h12 : F32.div 0 1 = some 0 := by
    unfold F32.div
    rw [if_neg (by norm_num), zero_div]
    exact F32.ofRat_zero
  have h13 : F32.ofInt 16777217 = some 16777216 := by
    simp only [F32.ofInt, Int.cast_ofNat]
    exact F32.ofRat_eval _ _ 24 8388608 (by norm_num) (Or.inl (by norm_num)) (by norm_num)
      (Or.inr (Or.inl ⟨by norm_num, by norm_num⟩)) (by norm_num) (by norm_num)
  have h14 : F32.div 16777216 1 = some 16777216 := by
    unfold F32.div
    rw [if_neg (by norm_num)]
    exact F32.ofRat_eval _ _ 24 8388608 (by norm_num) (Or.inl (by norm_num)) (by norm_num)
      (Or.inl (by norm_num)) (by norm_num) (by norm_num)
  have h15 : F32.div 1 1 = some 1 := by
    unfold F32.div
    rw [if_neg (by norm_num)]
    exact F32.ofRat_eval _ _ 0 8388608 (by norm_num) (Or.inl (by norm_num)) (by norm_num)
      (Or.inl (by norm_num)) (by norm_num) (by norm_num)
  have h16 : F32.add 0 16777216 = some 16777216 := by
    unfold F32.add
    exact F32.ofRat_eval _ _ 24 8388608 (by norm_num) (Or.inl (by norm_num)) (by norm_num)
      (Or.inl (by norm_num)) (by norm_num) (by norm_num)
  have heval : toTexCoordsFloat ⟨⟨0, 0⟩, ⟨16777221, 7⟩⟩ 3 7 =
      some ⟨0, 0, 11184813 / 2, 1⟩ :=
    toTexCoordsFloat_eval 0 0 16777221 7 3 7 0 0 16777220 7 3 7 0 0 (11184813 / 2) 1
      (11184813 / 2) 1 h1 h1 h6 h4 h2 h4 h3 h5 h7 h8 h9 h10
  have htight : toTexCoordsFloat ⟨⟨0, 0⟩, ⟨16777217, 1⟩⟩ 1 1 =
      some ⟨0, 0, 16777216, 1⟩ :=
    toTexCoordsFloat_eval 0 0 16777217 1 1 1 0 0 16777216 1 1 1 0 0 16777216 1 16777216 1 h1 h1
      h13 h11 h11 h11 h12 h12 h14 h15 h16 h10
  have hmul : (5592407 * 3 : Int) = 16777221 := by norm_num
  have hmul1 : (16777217 * 1 : Int) = 16777217 := by norm_num
  rw [hmul, hmul1]
  exact ⟨by decide, heval, by norm_num, htight, by norm_num⟩

/-- C12 (amended): for a texture of positive width `W` and height `H` and
every `k ≥ 1` with `k * W ≤ 2^24` (the width of the source rectangle is then
converted to `float` without rounding), `toTexCoords`, computed in `float`,
of the source rectangle at `(0,0)` of size `(k*W, H)` is `{0, 0, k, 1}`; for
`k = 2` these are `{0, 0, 2, 1}`, which reach beyond the texture by one full
width, and a textured quad drawn with repeat enabled selects the repeat
variant. -/
theorem toTexCoordsFloat_repeat (W H k : Int) (s : RenderState)
    (hW : 0 < W) (hH : 0 < H) (hHInt : H < 2 ^ 31) (hk : 1 ≤ k) (hkW : k * W ≤ 2 ^ 24) :
    toTexCoordsFloat ⟨⟨0, 0⟩, ⟨k * W, H⟩⟩ W H = some ⟨0, 0, k, 1⟩ ∧
    (k = 2 → toTexCoordsFloat ⟨⟨0, 0⟩, ⟨2 * W, H⟩⟩ W H = some ⟨0, 0, 2, 1⟩) ∧
    (∀ t : TexCoords, toTexCoordsFloat ⟨⟨0, 0⟩, ⟨k * W, H⟩⟩ W H = some t → 1 ≤ t.right) ∧
    selectShaderVariant { s with textureRepeatEnabled := true } OperationKind.texturedQuad =
      ShaderVariant.repeatTiled := by
  have hWk : W ≤ k * W := by nlinarith
  have hkk : k ≤ k * W := by nlinarith
  have hWq : (W : ℚ) ≠ 0 := by exact_mod_cast hW.ne.symm
  have hH0 : (0 : ℚ) ≤ H := by exact_mod_cast hH.le
  have hH1 : (1 : ℚ) ≤ H := by exact_mod_cast hH
  have hH31 : (H : ℚ) ≤ (2 : ℚ) ^ (31 : ℤ) := by
    have : (H : ℚ) < ((2 ^ 31 : ℤ) : ℚ) := by exact_mod_cast hHInt
    norm_num at this ⊢
    exact this.le
  have hrH : (1 : ℚ) ≤ F32.round H := by
    have := F32.round_mono (by norm_num : (0 : ℚ) ≤ 1) hH1
    rwa [F32.round_one] at this
  have hrHne : F32.round (H : ℚ) ≠ 0 := by linarith
  have h0 : F32.ofInt 0 = some 0 := by
    simpa using F32.ofInt_eq_some 0 le_rfl (by norm_num)
  have h1 : F32.ofRat 1 = some 1 := by
    simpa using F32.ofInt_eq_some 1 (by norm_num) (by norm_num)
  have hWf : F32.ofInt W = some (W : ℚ) := F32.ofInt_eq_some W hW.le (by omega)
  have hHf : F32.ofInt H = some (F32.round H) := F32.ofRat_eq_some hH0 hH31
  have hkWf : F32.ofInt (k * W) = some ((k * W : Int) : ℚ) :=
    F32.ofInt_eq_some (k * W) (by nlinarith) hkW
  have hkf : F32.ofRat (k : ℚ) = some (k : ℚ) := F32.ofInt_eq_some k (by omega) (by omega)
  have hleft : F32.div 0 (W : ℚ) = some 0 := by
    unfold F32.div
    rw [if_neg hWq, zero_div]
    exact F32.ofRat_zero
  have htop : F32.div 0 (F32.round H) = some 0 := by
    unfold F32.div
    rw [if_neg hrHne, zero_div]
    exact F32.ofRat_zero
  have hwidth : F32.div ((k * W : Int) : ℚ) (W : ℚ) = some (k : ℚ) := by
    unfold F32.div
    rw [if_neg hWq]
    push_cast
    rw [mul_div_assoc, div_self hWq, mul_one]
    exact hkf
  have hheight : F32.div (F32.round H) (F32.round H) = some 1 := by
    unfold F32.div
    rw [if_neg hrHne, div_self hrHne]
    exact h1
  have hright : F32.add 0 (k : ℚ) = some (k : ℚ) := by
    unfold F32.add
    rw [zero_add]
    exact hkf
  have hbottom : F32.add 0 1 = some 1 := by
    unfold F32.add
    rw [zero_add]
    exact h1
  have key : toTexCoordsFloat ⟨⟨0, 0⟩, ⟨k * W, H⟩⟩ W H = some ⟨0, 0, k, 1⟩ :=
    toTexCoordsFloat_eval 0 0 (k * W) H W H 0 0 _ _ _ _ 0 0 k 1 k 1 h0 h0 hkWf hHf hWf hHf
      hleft htop hwidth hheight hright hbottom
  refine ⟨key, ?_, ?_, ?_⟩
  · intro hk2
    rw [hk2] at key
    simpa using key
  · intro t ht
    rw [key] at ht
    cases ht
    show (1 : ℚ) ≤ (k : ℚ)
    exact_mod_cast hk
  · simp [selectShaderVariant]

/-- Witness for C12: a 320x200 backdrop drawn twice side by side. -/
theorem toTexCoordsFloat_repeat_witness :
    ((0 : Int) < 320 ∧ (0 : Int) < 200 ∧ (200 : Int) < 2 ^ 31 ∧ (1 : Int) ≤ 2 ∧
      (2 : Int) * 320 ≤ 2 ^ 24) ∧
    toTexCoordsFloat ⟨⟨0, 0⟩, ⟨2 * 320, 200⟩⟩ 320 200 = some ⟨0, 0, (2 : Int), 1⟩ ∧
    ((2 : Int) = 2 →
      toTexCoordsFloat ⟨⟨0, 0⟩, ⟨2 * 320, 200⟩⟩ 320 200 = some ⟨0, 0, 2, 1⟩) ∧
    (∀ t : TexCoords, toTexCoordsFloat ⟨⟨0, 0⟩, ⟨2 * 320, 200⟩⟩ 320 200 = some t →
      1 ≤ t.right) ∧
    selectShaderVariant { RenderState.default with textureRepeatEnabled := true }
      OperationKind.texturedQuad = ShaderVariant.repeatTiled :=
  ⟨by decide, toTexCoordsFloat_repeat 320 200 2 RenderState.default (by decide) (by decide)
    (by decide) (by decide) (by decide)⟩

/-! ### C13: `renderBackdrop` -/

theorem Renderer.append_state (r : Renderer) (vs : List Vertex) (texture : Option TextureId)
    (variant : ShaderVariant) (target : TextureId) :
    (r.append vs texture variant target).state = r.state := by
  unfold Renderer.append
  split
  · split
    · rfl
    · exact Renderer.flush_state r
  · rfl

theorem Renderer.append_stateStack (r : Renderer) (vs : List Vertex)
    (texture : Option TextureId) (variant : ShaderVariant) (target : TextureId) :
    (r.append vs texture variant target).stateStack = r.stateStack := by
  unfold Renderer.append
  split
  · split
    · rfl
    · exact Renderer.flush_stateStack r
  · rfl

/-- C13: `renderBackdrop` succeeds and issues exactly one `drawTexture` call:
with the backdrop texture, made while texture repeat is enabled (every other
state field as before the call), with destination rectangle at the origin
sized to the viewport in pixels; afterwards the whole render state and the
saved-state stack (hence its depth) are what they were before the call, for
every prior state. -/
theorem renderBackdrop_frame (m : MapRenderer) (d : MapRendererDeps) (t : TracedRenderer)
    (cameraPosition : Point Int) (viewPortSize : Size Int) :
    (m.renderBackdrop d t cameraPosition viewPortSize).map
        (fun q => (q.renderer.state, q.renderer.stateStack, q.drawTextureCalls)) =
      some (t.renderer.state, t.renderer.stateStack,
        t.drawTextureCalls ++
          [{ texture := m.mBackdropTexture.data
             sourceRect := m.calculateBackdropTexCoords d
               (t.renderer.pushState.setTextureRepeatEnabled true) cameraPosition viewPortSize
             destRect := { topLeft := ⟨0, 0⟩, size := d.tileExtentsToPixelExtents viewPortSize }
             state := { t.renderer.state with textureRepeatEnabled := true } }]) ∧
    (m.renderBackdrop d t cameraPosition viewPortSize).map
        (fun q => (q.renderer.stateStack.length, q.drawTextureCalls.length)) =
      some (t.renderer.stateStack.length, t.drawTextureCalls.length + 1) := by
  have hstack : ((t.renderer.pushState.setTextureRepeatEnabled true).drawTexture
      m.mBackdropTexture.data
      (m.calculateBackdropTexCoords d (t.renderer.pushState.setTextureRepeatEnabled true)
        cameraPosition viewPortSize)
      { topLeft := ⟨0, 0⟩, size := d.tileExtentsToPixelExtents viewPortSize }).stateStack =
      t.renderer.state :: t.renderer.stateStack := by
    simp [Renderer.drawTexture, Renderer.append_stateStack, Renderer.setTextureRepeatEnabled,
      Renderer.updateState_stateStack, Renderer.pushState]
  have hstate : (t.renderer.pushState.setTextureRepeatEnabled true).state =
      { t.renderer.state with textureRepeatEnabled := true } := by
    simp [Renderer.setTextureRepeatEnabled, Renderer.updateState_state, Renderer.pushState]
  have hmain : (m.renderBackdrop d t cameraPosition viewPortSize).map
        (fun q => (q.renderer.state, q.renderer.stateStack, q.drawTextureCalls)) =
      some (t.renderer.state, t.renderer.stateStack,
        t.drawTextureCalls ++
          [{ texture := m.mBackdropTexture.data
             sourceRect := m.calculateBackdropTexCoords d
               (t.renderer.pushState.setTextureRepeatEnabled true) cameraPosition viewPortSize
             destRect := { topLeft := ⟨0, 0⟩, size := d.tileExtentsToPixelExtents viewPortSize }
             state := { t.renderer.state with textureRepeatEnabled := true } }]) := by
    simp only [MapRenderer.renderBackdrop, TracedRenderer.release, TracedRenderer.saveState,
      TracedRenderer.drawTexture, TracedRenderer.setTextureRepeatEnabled, saveState,
      ScopeGuard.release]
    rw [Renderer.popState_cons _ _ _ hstack]
    simp [Renderer.updateState_state, hstate]
  refine ⟨hmain, ?_⟩
  cases hr : m.renderBackdrop d t cameraPosition viewPortSize with
  | none => simp [hr] at hmain
  | some q =>
    simp only [hr, Option.map_some', Option.some.injEq, Prod.mk.injEq] at hmain ⊢
    obtain ⟨_, h2, h3⟩ := hmain
    simp [h2, h3]

/-! ### C14 and C15: backdrop texture coordinates -/

/-- C15 (as stated, refuted): the products `cameraPosition.x * PARALLAX_FACTOR`
and `cameraPosition.y * PARALLAX_FACTOR` and the difference
`viewPortHeightPx - offsetPixels` are 32-bit `int` operations.  For the camera
position `(600000000, 0)`, `ParallaxBoth` gives `x = -1894967296`, not
`4 * 600000000`; for the auto-scroll offset `-2147483648`, which rounds to the
`int` of that value, `AutoVertical` gives `y = -2147483488`, not
`160 - (-2147483648)`. -/
theorem backdropOffset_overflow_counterexample :
    backdropOffset exampleDeps ⟨600000000, 0⟩ BackdropScrollMode.ParallaxBoth 0 =
      ⟨-1894967296, 0⟩ ∧
    backdropOffset exampleDeps ⟨600000000, 0⟩ BackdropScrollMode.ParallaxBoth 0 ≠
      ⟨4 * 600000000, 4 * 0⟩ ∧
    backdropOffset exampleDeps ⟨0, 0⟩ BackdropScrollMode.AutoVertical (-2147483648) =
      ⟨0, -2147483488⟩ ∧
    backdropOffset exampleDeps ⟨0, 0⟩ BackdropScrollMode.AutoVertical (-2147483648) ≠
      ⟨0, exampleDeps.viewPortHeightPx - exampleDeps.round (-2147483648)⟩ ∧
    ¬ (∀ (d : MapRendererDeps) (cx cy : Int) (a : ℚ),
        backdropOffset d ⟨cx, cy⟩ BackdropScrollMode.ParallaxBoth a = ⟨4 * cx, 4 * cy⟩) := by
  have h1 : backdropOffset exampleDeps ⟨600000000, 0⟩ BackdropScrollMode.ParallaxBoth 0 =
      ⟨-1894967296, 0⟩ := by
    simp [backdropOffset, PARALLAX_FACTOR, toInt32]
  have hround : exampleDeps.round (-2147483648) = -2147483648 := by
    simp only [exampleDeps]
    rw [Int.floor_eq_iff]
    norm_num
  have h2 : backdropOffset exampleDeps ⟨0, 0⟩ BackdropScrollMode.AutoVertical (-2147483648) =
      ⟨0, -2147483488⟩ := by
    simp only [backdropOffset, hround]
    simp [exampleDeps, toInt32]
  refine ⟨h1, ?_, h2, ?_, ?_⟩
  · rw [h1]
    simp
  · rw [h2, hround]
    simp [exampleDeps]
  · intro hall
    have h3 := hall exampleDeps 600000000 0 0
    rw [h1] at h3
    simp at h3

/-- C15 (amended): `backdropOffset` returns `(4*cx, 4*cy)` for `ParallaxBoth`
when both products fit in a 32-bit `int`, `(4*cx, 0)` for `ParallaxHorizontal`
when `4*cx` fits, `(round a, 0)` for `AutoHorizontal`,
`(0, viewPortHeightPx - round a)` for `AutoVertical` when that difference fits,
and `(0, 0)` otherwise; the camera position has no influence in the
auto-scroll and non-scrolling modes, and the auto-scroll offset none in the
parallax modes. -/
theorem backdropOffset_cases (d : MapRendererDeps) (cx cy cx2 cy2 : Int) (a a2 : ℚ) :
    (fitsInt32 (4 * cx) → fitsInt32 (4 * cy) →
      backdropOffset d ⟨cx, cy⟩ BackdropScrollMode.ParallaxBoth a = ⟨4 * cx, 4 * cy⟩) ∧
    (fitsInt32 (4 * cx) →
      backdropOffset d ⟨cx, cy⟩ BackdropScrollMode.ParallaxHorizontal a = ⟨4 * cx, 0⟩) ∧
    backdropOffset d ⟨cx, cy⟩ BackdropScrollMode.AutoHorizontal a = ⟨d.round a, 0⟩ ∧
    (fitsInt32 (d.viewPortHeightPx - d.round a) →
      backdropOffset d ⟨cx, cy⟩ BackdropScrollMode.AutoVertical a =
        ⟨0, d.viewPortHeightPx - d.round a⟩) ∧
    backdropOffset d ⟨cx, cy⟩ BackdropScrollMode.None a = ⟨0, 0⟩ ∧
    backdropOffset d ⟨cx, cy⟩ BackdropScrollMode.AutoHorizontal a =
      backdropOffset d ⟨cx2, cy2⟩ BackdropScrollMode.AutoHorizontal a ∧
    backdropOffset d ⟨cx, cy⟩ BackdropScrollMode.AutoVertical a =
      backdropOffset d ⟨cx2, cy2⟩ BackdropScrollMode.AutoVertical a ∧
    backdropOffset d ⟨cx, cy⟩ BackdropScrollMode.None a =
      backdropOffset d ⟨cx2, cy2⟩ BackdropScrollMode.None a2 ∧
    backdropOffset d ⟨cx, cy⟩ BackdropScrollMode.ParallaxBoth a =
      backdropOffset d ⟨cx, cy⟩ BackdropScrollMode.ParallaxBoth a2 ∧
    backdropOffset d ⟨cx, cy⟩ BackdropScrollMode.ParallaxHorizontal a =
      backdropOffset d ⟨cx, cy⟩ BackdropScrollMode.ParallaxHorizontal a2 := by
  refine ⟨?_, ?_, ?_, ?_, ?_, ?_, ?_, ?_, ?_, ?_⟩
  · intro hx hy
    have hx2 := toInt32_of_fits _ hx
    have hy2 := toInt32_of_fits _ hy
    rw [mul_comm] at hx2 hy2
    simp [backdropOffset, PARALLAX_FACTOR, hx2, hy2, mul_comm]
  · intro hx
    have hx2 := toInt32_of_fits _ hx
    rw [mul_comm] at hx2
    simp [backdropOffset, PARALLAX_FACTOR, hx2, mul_comm]
  · simp [backdropOffset]
  · intro hv
    simp [backdropOffset, toInt32_of_fits _ hv]
  all_goals simp [backdropOffset]

/-- Witness for C15: the camera position `(3, 5)` and the auto-scroll offset
`7/2`, which rounds to 4, with the example parameters. -/
theorem backdropOffset_cases_witness :
    (fitsInt32 (4 * 3) ∧ fitsInt32 (4 * 5) ∧
      fitsInt32 (exampleDeps.viewPortHeightPx - exampleDeps.round (7 / 2))) ∧
    backdropOffset exampleDeps ⟨3, 5⟩ BackdropScrollMode.ParallaxBoth (7 / 2) =
      ⟨4 * 3, 4 * 5⟩ ∧
    backdropOffset exampleDeps ⟨3, 5⟩ BackdropScrollMode.ParallaxHorizontal (7 / 2) =
      ⟨4 * 3, 0⟩ ∧
    backdropOffset exampleDeps ⟨3, 5⟩ BackdropScrollMode.AutoVertical (7 / 2) =
      ⟨0, exampleDeps.viewPortHeightPx - exampleDeps.round (7 / 2)⟩ :=
  have hround : exampleDeps.round (7 / 2) = 4 := by
    simp only [exampleDeps]
    rw [Int.floor_eq_iff]
    norm_num
  have hv : fitsInt32 (exampleDeps.viewPortHeightPx - exampleDeps.round (7 / 2)) := by
    rw [hround]
    decide
  ⟨⟨by decide, by decide, hv⟩,
    (backdropOffset_cases exampleDeps 3 5 0 0 (7 / 2) 0).1 (by decide) (by decide),
    (backdropOffset_cases exampleDeps 3 5 0 0 (7 / 2) 0).2.1 (by decide),
    (backdropOffset_cases exampleDeps 3 5 0 0 (7 / 2) 0).2.2.2.1 hv⟩

/-- C16: `renderTile` issues no draw for tile index 0, at every position and
for every map, and for a non-zero index exactly one draw, of
`animatedTileIndex(tileIndex)` at the given `(x, y)`; `renderSingleTile` does
the same at `position - cameraPosition`, and a cell of `renderMapTiles` whose
tile has index 0 issues no draw. -/
theorem renderTile_draws (m : MapRenderer) (tileIndex : TileIndex) (x y layer : Int)
    (position cameraPosition sectionStart : Point Int) (drawMode : DrawMode)
    (hIndex : tileIndex ≠ 0) :
    m.renderTile 0 x y = [] ∧
    m.renderTile tileIndex x y =
      [{ tileIndex := m.animatedTileIndex tileIndex, x := x, y := y }] ∧
    m.renderSingleTile 0 position cameraPosition = [] ∧
    m.renderSingleTile tileIndex position cameraPosition =
      [{ tileIndex := m.animatedTileIndex tileIndex, x := position.x - cameraPosition.x,
         y := position.y - cameraPosition.y }] ∧
    (if m.mpMap.tileAt layer (toInt32 (x + sectionStart.x)) (toInt32 (y + sectionStart.y)) = 0
      then m.renderMapTilesCell sectionStart drawMode layer y x else []) = [] := by
  refine ⟨?_, ?_, ?_, ?_, ?_⟩
  · simp [MapRenderer.renderTile]
  · simp [MapRenderer.renderTile, hIndex]
  · simp [MapRenderer.renderSingleTile, MapRenderer.renderTile]
  · simp [MapRenderer.renderSingleTile, MapRenderer.renderTile, hIndex]
  · split
    · rename_i h0
      simp only [MapRenderer.renderMapTilesCell, h0, MapRenderer.renderTile]
      split
      · rfl
      · split <;> simp
    · rfl

/-- Witness for C16: tile 5 of the example map (animated, slow animation,
sixth frame) drawn at `(7, 2)` and, as a single tile, at `(9, 4) - (2, 1)`. -/
theorem renderTile_draws_witness :
    (5 : TileIndex) ≠ 0 ∧
    exampleMapRenderer.renderTile 0 7 2 = [] ∧
    exampleMapRenderer.renderTile 5 7 2 =
      [{ tileIndex := exampleMapRenderer.animatedTileIndex 5, x := 7, y := 2 }] ∧
    exampleMapRenderer.renderSingleTile 0 ⟨9, 4⟩ ⟨2, 1⟩ = [] ∧
    exampleMapRenderer.renderSingleTile 5 ⟨9, 4⟩ ⟨2, 1⟩ =
      [{ tileIndex := exampleMapRenderer.animatedTileIndex 5,
         x := (⟨9, 4⟩ : Point Int).x - (⟨2, 1⟩ : Point Int).x,
         y := (⟨9, 4⟩ : Point Int).y - (⟨2, 1⟩ : Point Int).y }] ∧
    (if exampleMapRenderer.mpMap.tileAt 1 (toInt32 (7 + (⟨0, 0⟩ : Point Int).x))
          (toInt32 (2 + (⟨0, 0⟩ : Point Int).y)) = 0
      then exampleMapRenderer.renderMapTilesCell ⟨0, 0⟩ DrawMode.Background 1 2 7
      else []) = [] :=
  ⟨by decide,
    renderTile_draws exampleMapRenderer 5 7 2 1 ⟨9, 4⟩ ⟨2, 1⟩ ⟨0, 0⟩ DrawMode.Background
      (by decide)⟩

theorem mem_intRange (n i : Int) : i ∈ intRange n ↔ 0 ≤ i ∧ i < n := by
  simp only [intRange, List.mem_map, List.mem_range]
  constructor
  · rintro ⟨k, hk, rfl⟩
    simp only [Int.ofNat_eq_coe]
    omega
  · rintro ⟨h0, h1⟩
    exact ⟨i.toNat, by omega, by simp only [Int.ofNat_eq_coe]; omega⟩

theorem nodup_intRange (n : Int) : (intRange n).Nodup := by
  unfold intRange
  exact List.Nodup.map (fun a b h => Int.ofNat.inj h) (List.nodup_range _)

theorem mem_sectionCells (sectionSize : Size Int) (layer y x : Int) :
    (layer, y, x) ∈ sectionCells sectionSize ↔
      (0 ≤ layer ∧ layer < 2) ∧ (0 ≤ y ∧ y < sectionSize.height) ∧
        (0 ≤ x ∧ x < sectionSize.width) := by
  simp only [sectionCells, List.mem_flatMap, List.mem_map, mem_intRange, Prod.mk.injEq]
  constructor
  · rintro ⟨l, hl, yy, hy, xx, hx, rfl, rfl, rfl⟩
    exact ⟨hl, hy, hx⟩
  · rintro ⟨hl, hy, hx⟩
    exact ⟨layer, hl, y, hy, x, hx, rfl, rfl, rfl⟩

theorem nodup_sectionCells (sectionSize : Size Int) : (sectionCells sectionSize).Nodup := by
  unfold sectionCells
  rw [List.nodup_flatMap]
  constructor
  · intro layer _
    rw [List.nodup_flatMap]
    constructor
    · intro y _
      exact List.Nodup.map (fun a b h => by simpa using h) (nodup_intRange _)
    · refine List.Pairwise.imp_of_mem ?_ (nodup_intRange _)
      intro a b _ _ hab
      simp only [Function.onFun, List.disjoint_left, List.mem_map, not_exists, not_and]
      rintro c ⟨x, _, rfl⟩ x2 _ h
      simp only [Prod.mk.injEq] at h
      exact hab h.2.1.symm
  · refine List.Pairwise.imp_of_mem ?_ (nodup_intRange _)
    intro a b _ _ hab
    simp only [Function.onFun, List.disjoint_left, List.mem_flatMap, List.mem_map, not_exists,
      not_and]
    rintro c ⟨y, _, x, _, rfl⟩ y2 _ x2 _ h
    simp only [Prod.mk.injEq] at h
    exact hab h.1.symm

/-- The draws of `renderMapTiles` are those of its cells, in loop order. -/
theorem renderMapTiles_eq_cells (m : MapRenderer) (sectionStart : Point Int)
    (sectionSize : Size Int) (drawMode : DrawMode) :
    m.renderMapTiles sectionStart sectionSize drawMode =
      (sectionCells sectionSize).flatMap
        (fun c => m.renderMapTilesCell sectionStart drawMode c.1 c.2.1 c.2.2) := by
  simp only [MapRenderer.renderMapTiles, sectionCells, List.flatMap_assoc, List.flatMap_map]

/-- C20 (as stated, refuted): `x + sectionStart.x` is a 32-bit `int` addition
and only the upper bounds are checked.  In a section that starts at column
`2147483647`, a non-negative start, the cell `x = 1` has the map column `2^31`,
outside the 4 columns wide map; the sum wraps to `-2147483648`, the cell passes
the check and `renderBackground` draws it, on both layers. -/
theorem renderMapTiles_partition_counterexample :
    (0 ≤ overflowStart.x ∧ 0 ≤ overflowStart.y) ∧
    ((0 : Int) ≤ 1 ∧ (1 : Int) < overflowSize.width) ∧
    ((0 : Int) ≤ 0 ∧ (0 : Int) < overflowSize.height) ∧
    ¬ ((1 : Int) + overflowStart.x < uniformMapRenderer.mpMap.width) ∧
    toInt32 ((1 : Int) + overflowStart.x) = -2147483648 ∧
    uniformMapRenderer.renderMapTilesCell overflowStart DrawMode.Background 0 0 1 =
      [{ tileIndex := 1, x := 1, y := 0 }] ∧
    uniformMapRenderer.renderBackground overflowStart overflowSize =
      [{ tileIndex := 1, x := 1, y := 0 }, { tileIndex := 1, x := 1, y := 0 }] ∧
    ¬ (∀ (m : MapRenderer) (sectionStart : Point Int) (sectionSize : Size Int)
        (layer y x : Int),
        0 ≤ sectionStart.x → 0 ≤ sectionStart.y → (layer = 0 ∨ layer = 1) →
        (0 ≤ x ∧ x < sectionSize.width) → (0 ≤ y ∧ y < sectionSize.height) →
        ¬ (x + sectionStart.x < m.mpMap.width ∧ y + sectionStart.y < m.mpMap.height) →
        m.renderMapTilesCell sectionStart DrawMode.Background layer y x = []) := by
  refine ⟨by decide, by decide, by decide, by decide, by decide, by decide, by decide, ?_⟩
  intro hall
  have h := hall uniformMapRenderer overflowStart overflowSize 0 0 1 (by decide) (by decide)
    (by decide) (by decide) (by decide) (by decide)
  revert h
  decide

/-- C20 (amended): for a section with non-negative start whose far edges
`sectionStart.x + sectionSize.width` and `sectionStart.y + sectionSize.height`
do not exceed `2^31` (so that no map coordinate overflows the 32-bit `int`),
and a cell (`layer` 0 or 1, `0 ≤ x < width`, `0 ≤ y < height` of the section),
each of `renderBackground` and `renderForeground` runs through the cell
exactly once and issues the draws of its cells in loop order; the cell's map
coordinates are non-negative, so it lies inside the map exactly when it passes
the code's upper-bound check.
A cell inside the map with non-zero tile index is drawn, at the
section-relative position `(x, y)`, by `renderForeground` if its attributes
are flagged foreground and by `renderBackground` otherwise, so by exactly one
of the two; with index 0, or outside the map, it is drawn by neither. -/
theorem renderMapTiles_partition (m : MapRenderer) (sectionStart : Point Int)
    (sectionSize : Size Int) (layer y x : Int)
    (hStartX : 0 ≤ sectionStart.x) (hStartY : 0 ≤ sectionStart.y)
    (hEndX : sectionStart.x + sectionSize.width ≤ 2 ^ 31)
    (hEndY : sectionStart.y + sectionSize.height ≤ 2 ^ 31)
    (hLayer : layer = 0 ∨ layer = 1)
    (hx : 0 ≤ x ∧ x < sectionSize.width) (hy : 0 ≤ y ∧ y < sectionSize.height) :
    ((sectionCells sectionSize).filter (fun c => decide (c = (layer, y, x)))).length = 1 ∧
    m.renderBackground sectionStart sectionSize =
      (sectionCells sectionSize).flatMap
        (fun c => m.renderMapTilesCell sectionStart DrawMode.Background c.1 c.2.1 c.2.2) ∧
    m.renderForeground sectionStart sectionSize =
      (sectionCells sectionSize).flatMap
        (fun c => m.renderMapTilesCell sectionStart DrawMode.Foreground c.1 c.2.1 c.2.2) ∧
    (0 ≤ x + sectionStart.x ∧ 0 ≤ y + sectionStart.y) ∧
    m.renderMapTilesCell sectionStart DrawMode.Foreground layer y x =
      (if (x + sectionStart.x < m.mpMap.width ∧ y + sectionStart.y < m.mpMap.height) ∧
          m.mpMap.tileAt layer (x + sectionStart.x) (y + sectionStart.y) ≠ 0 ∧
          (m.mpMap.attributes
            (m.mpMap.tileAt layer (x + sectionStart.x) (y + sectionStart.y))).isForeGround = true
        then [{ tileIndex := m.animatedTileIndex
                  (m.mpMap.tileAt layer (x + sectionStart.x) (y + sectionStart.y)),
                x := x, y := y }]
        else []) ∧
    m.renderMapTilesCell sectionStart DrawMode.Background layer y x =
      (if (x + sectionStart.x < m.mpMap.width ∧ y + sectionStart.y < m.mpMap.height) ∧
          m.mpMap.tileAt layer (x + sectionStart.x) (y + sectionStart.y) ≠ 0 ∧
          (m.mpMap.attributes
            (m.mpMap.tileAt layer (x + sectionStart.x) (y + sectionStart.y))).isForeGround = false
        then [{ tileIndex := m.animatedTileIndex
                  (m.mpMap.tileAt layer (x + sectionStart.x) (y + sectionStart.y)),
                x := x, y := y }]
        else []) ∧
    m.renderMapTilesCell sectionStart DrawMode.Background layer y x ++
        m.renderMapTilesCell sectionStart DrawMode.Foreground layer y x =
      (if (x + sectionStart.x < m.mpMap.width ∧ y + sectionStart.y < m.mpMap.height) ∧
          m.mpMap.tileAt layer (x + sectionStart.x) (y + sectionStart.y) ≠ 0
        then [{ tileIndex := m.animatedTileIndex
                  (m.mpMap.tileAt layer (x + sectionStart.x) (y + sectionStart.y)),
                x := x, y := y }]
        else []) := by
  have hmem : (layer, y, x) ∈ sectionCells sectionSize := by
    rw [mem_sectionCells]
    refine ⟨?_, hy, hx⟩
    rcases hLayer with h | h <;> omega
  have hcol : toInt32 (x + sectionStart.x) = x + sectionStart.x :=
    toInt32_of_mem _ (by omega) (by omega)
  have hrow : toInt32 (y + sectionStart.y) = y + sectionStart.y :=
    toInt32_of_mem _ (by omega) (by omega)
  have hfg : m.renderMapTilesCell sectionStart DrawMode.Foreground layer y x =
      (if (x + sectionStart.x < m.mpMap.width ∧ y + sectionStart.y < m.mpMap.height) ∧
          m.mpMap.tileAt layer (x + sectionStart.x) (y + sectionStart.y) ≠ 0 ∧
          (m.mpMap.attributes
            (m.mpMap.tileAt layer (x + sectionStart.x) (y + sectionStart.y))).isForeGround = true
        then [{ tileIndex := m.animatedTileIndex
                  (m.mpMap.tileAt layer (x + sectionStart.x) (y + sectionStart.y)),
                x := x, y := y }]
        else []) := by
    simp only [MapRenderer.renderMapTilesCell, MapRenderer.renderTile, hcol, hrow]
    by_cases hin : x + sectionStart.x < m.mpMap.width ∧ y + sectionStart.y < m.mpMap.height
    · have hnot : ¬ (x + sectionStart.x ≥ m.mpMap.width ∨ y + sectionStart.y ≥ m.mpMap.height) := by
        omega
      by_cases h0 : m.mpMap.tileAt layer (x + sectionStart.x) (y + sectionStart.y) = 0
      · simp [hnot, hin, h0]
      · cases hf : (m.mpMap.attributes
            (m.mpMap.tileAt layer (x + sectionStart.x) (y + sectionStart.y))).isForeGround <;>
          simp [hnot, hin, h0, hf]
    · have hout : x + sectionStart.x ≥ m.mpMap.width ∨ y + sectionStart.y ≥ m.mpMap.height := by
        omega
      simp [hout, hin]
  have hbg : m.renderMapTilesCell sectionStart DrawMode.Background layer y x =
      (if (x + sectionStart.x < m.mpMap.width ∧ y + sectionStart.y < m.mpMap.height) ∧
          m.mpMap.tileAt layer (x + sectionStart.x) (y + sectionStart.y) ≠ 0 ∧
          (m.mpMap.attributes
            (m.mpMap.tileAt layer (x + sectionStart.x) (y + sectionStart.y))).isForeGround = false
        then [{ tileIndex := m.animatedTileIndex
                  (m.mpMap.tileAt layer (x + sectionStart.x) (y + sectionStart.y)),
                x := x, y := y }]
        else []) := by
    simp only [MapRenderer.renderMapTilesCell, MapRenderer.renderTile, hcol, hrow]
    by_cases hin : x + sectionStart.x < m.mpMap.width ∧ y + sectionStart.y < m.mpMap.height
    · have hnot : ¬ (x + sectionStart.x ≥ m.mpMap.width ∨ y + sectionStart.y ≥ m.mpMap.height) := by
        omega
      by_cases h0 : m.mpMap.tileAt layer (x + sectionStart.x) (y + sectionStart.y) = 0
      · simp [hnot, hin, h0]
      · cases hf : (m.mpMap.attributes
            (m.mpMap.tileAt layer (x + sectionStart.x) (y + sectionStart.y))).isForeGround <;>
          simp [hnot, hin, h0, hf]
    · have hout : x + sectionStart.x ≥ m.mpMap.width ∨ y + sectionStart.y ≥ m.mpMap.height := by
        omega
      simp [hout, hin]
  have hcount : ((sectionCells sectionSize).filter
      (fun c => decide (c = (layer, y, x)))).length = 1 := by
    have h1 := List.count_eq_one_of_mem (nodup_sectionCells sectionSize) hmem
    simp only [List.count, List.countP_eq_length_filter] at h1
    rw [← h1]
    congr 2
  refine ⟨hcount,
    renderMapTiles_eq_cells m sectionStart sectionSize DrawMode.Background,
    renderMapTiles_eq_cells m sectionStart sectionSize DrawMode.Foreground,
    ⟨by omega, by omega⟩, hfg, hbg, ?_⟩
  rw [hfg, hbg]
  by_cases hin : x + sectionStart.x < m.mpMap.width ∧ y + sectionStart.y < m.mpMap.height
  · by_cases h0 : m.mpMap.tileAt layer (x + sectionStart.x) (y + sectionStart.y) = 0
    · simp [hin, h0]
    · cases hf : (m.mpMap.attributes
          (m.mpMap.tileAt layer (x + sectionStart.x) (y + sectionStart.y))).isForeGround <;>
        simp [hin, h0, hf]
  · simp [hin]

/-- Witness for C20: the cell of layer 1 at `(0, 0)` of a 4x3 section that
starts at column 1 of the example map; its tile, index 5, is foreground. -/
theorem renderMapTiles_partition_witness :
    (0 ≤ exampleStart.x ∧ 0 ≤ exampleStart.y ∧
      exampleStart.x + exampleSize.width ≤ 2 ^ 31 ∧
      exampleStart.y + exampleSize.height ≤ 2 ^ 31 ∧ ((1 : Int) = 0 ∨ (1 : Int) = 1) ∧
      ((0 : Int) ≤ 0 ∧ (0 : Int) < exampleSize.width) ∧
      ((0 : Int) ≤ 0 ∧ (0 : Int) < exampleSize.height)) ∧
    ((sectionCells exampleSize).filter (fun c => decide (c = ((1 : Int), (0 : Int), (0 : Int))))).length = 1 ∧
    exampleMapRenderer.renderBackground exampleStart exampleSize =
      (sectionCells exampleSize).flatMap
        (fun c => exampleMapRenderer.renderMapTilesCell exampleStart DrawMode.Background c.1 c.2.1 c.2.2) ∧
    exampleMapRenderer.renderForeground exampleStart exampleSize =
      (sectionCells exampleSize).flatMap
        (fun c => exampleMapRenderer.renderMapTilesCell exampleStart DrawMode.Foreground c.1 c.2.1 c.2.2) ∧
    (0 ≤ (0 : Int) + exampleStart.x ∧ 0 ≤ (0 : Int) + exampleStart.y) ∧
    exampleMapRenderer.renderMapTilesCell exampleStart DrawMode.Foreground (1 : Int) (0 : Int) (0 : Int) =
      (if ((0 : Int) + exampleStart.x < exampleMapRenderer.mpMap.width ∧ (0 : Int) + exampleStart.y < exampleMapRenderer.mpMap.height) ∧
          exampleMapRenderer.mpMap.tileAt (1 : Int) ((0 : Int) + exampleStart.x) ((0 : Int) + exampleStart.y) ≠ 0 ∧
          (exampleMapRenderer.mpMap.attributes
            (exampleMapRenderer.mpMap.tileAt (1 : Int) ((0 : Int) + exampleStart.x) ((0 : Int) + exampleStart.y))).isForeGround = true
        then [{ tileIndex := exampleMapRenderer.animatedTileIndex
                  (exampleMapRenderer.mpMap.tileAt (1 : Int) ((0 : Int) + exampleStart.x) ((0 : Int) + exampleStart.y)),
                x := (0 : Int), y := (0 : Int) }]
        else []) ∧
    exampleMapRenderer.renderMapTilesCell exampleStart DrawMode.Background (1 : Int) (0 : Int) (0 : Int) =
      (if ((0 : Int) + exampleStart.x < exampleMapRenderer.mpMap.width ∧ (0 : Int) + exampleStart.y < exampleMapRenderer.mpMap.height) ∧
          exampleMapRenderer.mpMap.tileAt (1 : Int) ((0 : Int) + exampleStart.x) ((0 : Int) + exampleStart.y) ≠ 0 ∧
          (exampleMapRenderer.mpMap.attributes
            (exampleMapRenderer.mpMap.tileAt (1 : Int) ((0 : Int) + exampleStart.x) ((0 : Int) + exampleStart.y))).isForeGround = false
        then [{ tileIndex := exampleMapRenderer.animatedTileIndex
                  (exampleMapRenderer.mpMap.tileAt (1 : Int) ((0 : Int) + exampleStart.x) ((0 : Int) + exampleStart.y)),
                x := (0 : Int), y := (0 : Int) }]
        else []) ∧
    exampleMapRenderer.renderMapTilesCell exampleStart DrawMode.Background (1 : Int) (0 : Int) (0 : Int) ++
        exampleMapRenderer.renderMapTilesCell exampleStart DrawMode.Foreground (1 : Int) (0 : Int) (0 : Int) =
      (if ((0 : Int) + exampleStart.x < exampleMapRenderer.mpMap.width ∧ (0 : Int) + exampleStart.y < exampleMapRenderer.mpMap.height) ∧
          exampleMapRenderer.mpMap.tileAt (1 : Int) ((0 : Int) + exampleStart.x) ((0 : Int) + exampleStart.y) ≠ 0
        then [{ tileIndex := exampleMapRenderer.animatedTileIndex
                  (exampleMapRenderer.mpMap.tileAt (1 : Int) ((0 : Int) + exampleStart.x) ((0 : Int) + exampleStart.y)),
                x := (0 : Int), y := (0 : Int) }]
        else []) :=
  ⟨by decide,
    renderMapTiles_partition exampleMapRenderer exampleStart exampleSize 1 0 0 (by decide)
      (by decide) (by decide) (by decide) (by decide) (by decide) (by decide)⟩

/-! ### The user profile: JSON values and saved games -/

theorem lookupMember_insertMember_same (key : String) (value : Json)
    (members : List (String × Json)) :
    lookupMember key (insertMember key value members) = some value := by
  induction members with
  | nil => simp [insertMember, lookupMember]
  | cons kv rest ih =>
    obtain ⟨k, v⟩ := kv
    unfold insertMember
    by_cases h1 : k = key
    · simp [h1, lookupMember]
    · by_cases h2 : key < k
      · simp [h1, h2, lookupMember]
      · simp [h1, h2, lookupMember, ih]

theorem lookupMember_insertMember_other (key other : String) (value : Json)
    (members : List (String × Json)) (h : key ≠ other) :
    lookupMember other (insertMember key value members) = lookupMember other members := by
  induction members with
  | nil => simp [insertMember, lookupMember, h]
  | cons kv rest ih =>
    obtain ⟨k, v⟩ := kv
    unfold insertMember
    by_cases h1 : k = key
    · subst h1
      simp [lookupMember, h]
    · by_cases h2 : key < k
      · simp [h1, h2, lookupMember, h]
      · by_cases h3 : k = other
        · subst h3
          simp [h1, h2, lookupMember]
        · simp [h1, h2, lookupMember, h3, ih]

theorem clamp_of_mem (v lo hi : Int) (h1 : lo ≤ v) (h2 : v ≤ hi) : clamp v lo hi = v := by
  unfold clamp
  split
  · omega
  · split <;> omega

/-- What `deserialize<SavedGame>` returns for an object that carries the
eight keys with numbers and a string where the code asks for them. -/
theorem deserializeSavedGame_of_fields (k : ProfileDeps) (json : Json)
    (episode level ammo score : Int) (name : String) (difficulty messages weapon : Json)
    (hEpisode : json.at "episode" = Except.ok (Json.int episode))
    (hLevel : json.at "level" = Except.ok (Json.int level))
    (hDifficulty : json.at "difficulty" = Except.ok difficulty)
    (hMessages : json.at "tutorialMessagesAlreadySeen" = Except.ok messages)
    (hName : json.at "name" = Except.ok (Json.string name))
    (hWeapon : json.at "weapon" = Except.ok weapon)
    (hAmmo : json.at "ammo" = Except.ok (Json.int ammo))
    (hScore : json.at "score" = Except.ok (Json.int score)) :
    deserializeSavedGame k json = Except.ok
      { mSessionId :=
          { mEpisode := clamp (toInt32 episode) 0 (k.NUM_EPISODES - 1)
            mLevel := clamp (toInt32 level) 0 (k.NUM_LEVELS_PER_EPISODE - 1)
            mDifficulty := Difficulty.fromJson difficulty }
        mTutorialMessagesAlreadySeen := messages.elements.foldl
          (fun state messageId => state.markAsShown (TutorialMessageId.fromJson messageId))
          TutorialMessageState.empty
        mName := name
        mWeapon := WeaponType.fromJson weapon
        mAmmo := clamp (toInt32 ammo) 0
          (if WeaponType.fromJson weapon = WeaponType.FlameThrower
            then k.MAX_AMMO_FLAME_THROWER else k.MAX_AMMO)
        mScore := clamp (toInt32 score) 0 k.MAX_SCORE } := by
  simp only [deserializeSavedGame, hEpisode, hLevel, hDifficulty, hMessages, hName, hWeapon,
    hAmmo, hScore, Json.getInt, Json.getString, bind, Except.bind, pure, Except.pure]

theorem difficulty_fromJson_toJson (d : Difficulty) : Difficulty.fromJson d.toJson = d := by
  cases d <;> rfl

theorem weaponType_fromJson_toJson (w : WeaponType) : WeaponType.fromJson w.toJson = w := by
  cases w <;> rfl

theorem tutorialMessageId_fromJson_toJson (id : TutorialMessageId) :
    TutorialMessageId.fromJson id.toJson = id := by
  cases id <;> rfl

theorem TutorialMessageId.staticCast_surjective (id : TutorialMessageId) :
    ∃ i, i < NUM_TUTORIAL_MESSAGES ∧ TutorialMessageId.staticCast i = id := by
  cases id
  · exact ⟨0, by decide, rfl⟩
  · exact ⟨1, by decide, rfl⟩
  · exact ⟨2, by decide, rfl⟩
  · exact ⟨3, by decide, rfl⟩
  · exact ⟨4, by decide, rfl⟩
  · exact ⟨5, by decide, rfl⟩
  · exact ⟨6, by decide, rfl⟩
  · exact ⟨7, by decide, rfl⟩
  · exact ⟨8, by decide, rfl⟩
  · exact ⟨9, by decide, rfl⟩
  · exact ⟨10, by decide, rfl⟩
  · exact ⟨11, by decide, rfl⟩
  · exact ⟨12, by decide, rfl⟩
  · exact ⟨13, by decide, rfl⟩
  · exact ⟨14, by decide, rfl⟩
  · exact ⟨15, by decide, rfl⟩
  · exact ⟨16, by decide, rfl⟩
  · exact ⟨17, by decide, rfl⟩
  · exact ⟨18, by decide, rfl⟩
  · exact ⟨19, by decide, rfl⟩
  · exact ⟨20, by decide, rfl⟩
  · exact ⟨21, by decide, rfl⟩
  · exact ⟨22, by decide, rfl⟩
  · exact ⟨23, by decide, rfl⟩
  · exact ⟨24, by decide, rfl⟩

/-- Marking the messages of a list of jsons marks exactly the messages the
list names, on top of those marked before. -/
theorem markAll_shown (jsons : List Json) (state : TutorialMessageState)
    (id : TutorialMessageId) :
    (jsons.foldl
      (fun state messageId => state.markAsShown (TutorialMessageId.fromJson messageId))
      state).shown id =
      (state.shown id || jsons.any (fun j => decide (TutorialMessageId.fromJson j = id))) := by
  induction jsons generalizing state with
  | nil => simp
  | cons j rest ih =>
    simp only [List.foldl_cons, List.any_cons]
    rw [ih]
    simp only [TutorialMessageState.markAsShown]
    by_cases h : id = TutorialMessageId.fromJson j
    · simp [h]
    · have h2 : ¬ TutorialMessageId.fromJson j = id := fun e => h e.symm
      simp [h, h2]

/-- The tutorial messages survive the round trip through json. -/
theorem tutorialMessageState_roundtrip (s : TutorialMessageState) :
    (serializeTutorialMessageState s).elements.foldl
      (fun state messageId => state.markAsShown (TutorialMessageId.fromJson messageId))
      TutorialMessageState.empty = s := by
  obtain ⟨shown⟩ := s
  have hfun : ∀ id, ((serializeTutorialMessageState ⟨shown⟩).elements.foldl
      (fun state messageId => state.markAsShown (TutorialMessageId.fromJson messageId))
      TutorialMessageState.empty).shown id = shown id := by
    intro id
    rw [markAll_shown]
    simp only [TutorialMessageState.empty, Bool.false_or, serializeTutorialMessageState,
      Json.elements, TutorialMessageState.hasBeenShown]
    cases hs : shown id with
    | true =>
      rw [List.any_eq_true]
      obtain ⟨i, hi, hcast⟩ := TutorialMessageId.staticCast_surjective id
      refine ⟨id.toJson, ?_, by simp [tutorialMessageId_fromJson_toJson]⟩
      rw [List.mem_filterMap]
      exact ⟨i, List.mem_range.mpr hi, by simp [hcast, hs]⟩
    | false =>
      rw [List.any_eq_false]
      intro j hj
      rw [List.mem_filterMap] at hj
      obtain ⟨i, _, hi⟩ := hj
      by_cases hshown : shown (TutorialMessageId.staticCast i) = true
      · simp only [hshown, if_true, Option.some.injEq] at hi
        subst hi
        rw [tutorialMessageId_fromJson_toJson]
        intro hd
        have : TutorialMessageId.staticCast i = id := by simpa using hd
        rw [this, hs] at hshown
        exact absurd hshown (by decide)
      · simp [hshown] at hi
  generalize hres : (serializeTutorialMessageState ⟨shown⟩).elements.foldl
      (fun state messageId => state.markAsShown (TutorialMessageId.fromJson messageId))
      TutorialMessageState.empty = res at hfun
  obtain ⟨shown2⟩ := res
  congr
  funext id
  exact hfun id

theorem serializeSavedGame_at (g : SavedGame) :
    (serializeSavedGame g).at "episode" = Except.ok (Json.int g.mSessionId.mEpisode) ∧
    (serializeSavedGame g).at "level" = Except.ok (Json.int g.mSessionId.mLevel) ∧
    (serializeSavedGame g).at "difficulty" = Except.ok g.mSessionId.mDifficulty.toJson ∧
    (serializeSavedGame g).at "tutorialMessagesAlreadySeen" =
      Except.ok (serializeTutorialMessageState g.mTutorialMessagesAlreadySeen) ∧
    (serializeSavedGame g).at "name" = Except.ok (Json.string g.mName) ∧
    (serializeSavedGame g).at "weapon" = Except.ok g.mWeapon.toJson ∧
    (serializeSavedGame g).at "ammo" = Except.ok (Json.int g.mAmmo) ∧
    (serializeSavedGame g).at "score" = Except.ok (Json.int g.mScore) := by
  have hnull : ∀ key v, Json.null.set key v = Json.object (insertMember key v []) := by
    intro key v
    rfl
  have hobj : ∀ ms key v, (Json.object ms).set key v = Json.object (insertMember key v ms) := by
    intro ms key v
    rfl
  simp only [serializeSavedGame, hnull, hobj, Json.at]
  refine ⟨?_, ?_, ?_, ?_, ?_, ?_, ?_, ?_⟩ <;>
    simp [lookupMember_insertMember_same, lookupMember_insertMember_other]

/-- A saved game whose episode, level, ammo and score lie inside their ranges
survives the round trip through json. -/
theorem savedGame_roundtrip (k : ProfileDeps) (g : SavedGame)
    (hEpisode : 0 ≤ g.mSessionId.mEpisode ∧ g.mSessionId.mEpisode ≤ k.NUM_EPISODES - 1)
    (hLevel : 0 ≤ g.mSessionId.mLevel ∧ g.mSessionId.mLevel ≤ k.NUM_LEVELS_PER_EPISODE - 1)
    (hAmmo : 0 ≤ g.mAmmo ∧ g.mAmmo ≤
      (if g.mWeapon = WeaponType.FlameThrower then k.MAX_AMMO_FLAME_THROWER else k.MAX_AMMO))
    (hScore : 0 ≤ g.mScore ∧ g.mScore ≤ k.MAX_SCORE)
    (hInt : k.NUM_EPISODES - 1 < 2 ^ 31 ∧ k.NUM_LEVELS_PER_EPISODE - 1 < 2 ^ 31 ∧
      k.MAX_AMMO < 2 ^ 31 ∧ k.MAX_AMMO_FLAME_THROWER < 2 ^ 31 ∧ k.MAX_SCORE < 2 ^ 31) :
    deserializeSavedGame k (serializeSavedGame g) = Except.ok g := by
  obtain ⟨h1, h2, h3, h4, h5, h6, h7, h8⟩ := serializeSavedGame_at g
  rw [deserializeSavedGame_of_fields k _ _ _ _ _ _ _ _ _ h1 h2 h3 h4 h5 h6 h7 h8]
  obtain ⟨hi1, hi2, hi3, hi4, hi5⟩ := hInt
  have hAmmoInt : g.mAmmo < 2 ^ 31 := by
    split at hAmmo <;> omega
  rw [toInt32_of_mem _ (by omega) (by omega), toInt32_of_mem _ (by omega) (by omega),
    toInt32_of_mem _ (by omega) hAmmoInt, toInt32_of_mem _ (by omega) (by omega),
    difficulty_fromJson_toJson, weaponType_fromJson_toJson, tutorialMessageState_roundtrip,
    clamp_of_mem _ _ _ hEpisode.1 hEpisode.2, clamp_of_mem _ _ _ hLevel.1 hLevel.2,
    clamp_of_mem _ _ _ hAmmo.1 hAmmo.2, clamp_of_mem _ _ _ hScore.1 hScore.2]

theorem serializeSavedGame_isNull (g : SavedGame) : (serializeSavedGame g).isNull = false := by
  rfl

/-- The loop of `deserialize<SaveSlotArray>` over serialized slots, started at
the first of `n` still empty slots, fills them with the first `n` slots. -/
theorem deserializeSaveSlotsLoop_serialized (k : ProfileDeps)
    (slots : List (Option SavedGame)) :
    ∀ (done : List (Option SavedGame)) (n : Nat), 0 < n →
      (∀ g, some g ∈ slots → deserializeSavedGame k (serializeSavedGame g) = Except.ok g) →
      deserializeSaveSlotsLoop k
          (slots.map (fun slot =>
            match slot with
            | some savedGame => serializeSavedGame savedGame
            | none => Json.null))
          done.length (done ++ List.replicate n none) =
        Except.ok (done ++ slots.take n ++ List.replicate (n - slots.length) none) := by
  induction slots with
  | nil =>
    intro done n _ _
    simp [deserializeSaveSlotsLoop, pure, Except.pure]
  | cons slot rest ih =>
    intro done n hn hvalid
    obtain ⟨m, rfl⟩ : ∃ m, n = m + 1 := ⟨n - 1, by omega⟩
    have hrest : ∀ g, some g ∈ rest →
        deserializeSavedGame k (serializeSavedGame g) = Except.ok g :=
      fun g hg => hvalid g (List.mem_cons_of_mem _ hg)
    have hstep := ih (done ++ [slot]) m
    simp only [List.length_append, List.length_singleton, List.append_assoc,
      List.singleton_append] at hstep
    cases slot with
    | none =>
      simp only [List.map_cons, deserializeSaveSlotsLoop, Json.isNull, Bool.not_true,
        Bool.false_eq_true, if_false, pure, Except.pure, bind, Except.bind,
        List.length_append, List.length_replicate]
      by_cases hm : m = 0
      · subst hm
        simp
      · have hlt : ¬ (done.length + 1 ≥ done.length + (m + 1)) := by omega
        simp only [hlt, if_false, List.replicate_succ]
        rw [hstep (by omega) hrest]
        simp [List.replicate_succ]
    | some g =>
      have hg := hvalid g (List.mem_cons_self _ _)
      simp only [List.map_cons, deserializeSaveSlotsLoop, serializeSavedGame_isNull,
        Bool.not_false, if_true, hg, pure, Except.pure, bind, Except.bind, writeAt,
        List.length_append, List.length_replicate]
      have hlt0 : done.length < done.length + (m + 1) := by omega
      simp only [hlt0, if_true, List.length_set, List.length_append, List.length_replicate]
      have hset : (done ++ List.replicate (m + 1) none).set done.length (some g) =
          done ++ some g :: List.replicate m (none : Option SavedGame) := by
        simp [List.replicate_succ, List.set_append_right]
      rw [hset]
      by_cases hm : m = 0
      · subst hm
        simp
      · have hlt : ¬ (done.length + 1 ≥ done.length + (m + 1)) := by omega
        simp only [hlt, if_false]
        rw [hstep (by omega) hrest]
        simp

/-! ### C17 and C18: saved games -/

/-- C17: a `SaveSlotArray` in which every occupied slot has episode in
`[0, NUM_EPISODES-1]`, level in `[0, NUM_LEVELS_PER_EPISODE-1]`, score in
`[0, MAX_SCORE]` and ammo in `[0, MAX_AMMO_FLAME_THROWER]` for the flame
thrower and in `[0, MAX_AMMO]` otherwise survives the round trip:
`deserialize<SaveSlotArray>(serialize(slots))` succeeds and equals `slots`
(empty slots stay empty; occupied slots keep episode, level, difficulty,
tutorial messages, name, weapon, ammo and score).  The array has its fixed
size and the constants are `int` values. -/
theorem saveSlots_roundtrip (k : ProfileDeps) (slots : List (Option SavedGame))
    (hSize : slots.length = k.NUM_SAVE_SLOTS)
    (hInt : k.NUM_EPISODES - 1 < 2 ^ 31 ∧ k.NUM_LEVELS_PER_EPISODE - 1 < 2 ^ 31 ∧
      k.MAX_AMMO < 2 ^ 31 ∧ k.MAX_AMMO_FLAME_THROWER < 2 ^ 31 ∧ k.MAX_SCORE < 2 ^ 31)
    (hRange : ∀ g, some g ∈ slots →
      (0 ≤ g.mSessionId.mEpisode ∧ g.mSessionId.mEpisode ≤ k.NUM_EPISODES - 1) ∧
      (0 ≤ g.mSessionId.mLevel ∧ g.mSessionId.mLevel ≤ k.NUM_LEVELS_PER_EPISODE - 1) ∧
      (0 ≤ g.mAmmo ∧ g.mAmmo ≤
        (if g.mWeapon = WeaponType.FlameThrower then k.MAX_AMMO_FLAME_THROWER
          else k.MAX_AMMO)) ∧
      (0 ≤ g.mScore ∧ g.mScore ≤ k.MAX_SCORE)) :
    deserializeSaveSlotArray k (serializeSaveSlotArray slots) = Except.ok slots := by
  have hvalid : ∀ g, some g ∈ slots →
      deserializeSavedGame k (serializeSavedGame g) = Except.ok g := by
    intro g hg
    obtain ⟨h1, h2, h3, h4⟩ := hRange g hg
    exact savedGame_roundtrip k g h1 h2 h3 h4 hInt
  unfold deserializeSaveSlotArray serializeSaveSlotArray
  simp only [Json.elements]
  by_cases hn : k.NUM_SAVE_SLOTS = 0
  · have hnil : slots = [] := List.length_eq_zero.mp (by omega)
    subst hnil
    simp [deserializeSaveSlotsLoop, hn, pure, Except.pure]
  · have h := deserializeSaveSlotsLoop_serialized k slots [] k.NUM_SAVE_SLOTS (by omega) hvalid
    simp only [List.length_nil, List.nil_append] at h
    rw [h, ← hSize]
    simp

/-- Witness for C17: the example game in the third of eight slots. -/
theorem saveSlots_roundtrip_witness :
    (exampleSaveSlots.length = exampleProfileDeps.NUM_SAVE_SLOTS ∧
      (exampleProfileDeps.NUM_EPISODES - 1 < 2 ^ 31 ∧
        exampleProfileDeps.NUM_LEVELS_PER_EPISODE - 1 < 2 ^ 31 ∧
        exampleProfileDeps.MAX_AMMO < 2 ^ 31 ∧
        exampleProfileDeps.MAX_AMMO_FLAME_THROWER < 2 ^ 31 ∧
        exampleProfileDeps.MAX_SCORE < 2 ^ 31) ∧
      ((0 ≤ exampleSavedGame.mSessionId.mEpisode ∧
          exampleSavedGame.mSessionId.mEpisode ≤ exampleProfileDeps.NUM_EPISODES - 1) ∧
        (0 ≤ exampleSavedGame.mSessionId.mLevel ∧
          exampleSavedGame.mSessionId.mLevel ≤
            exampleProfileDeps.NUM_LEVELS_PER_EPISODE - 1) ∧
        (0 ≤ exampleSavedGame.mAmmo ∧ exampleSavedGame.mAmmo ≤
          (if exampleSavedGame.mWeapon = WeaponType.FlameThrower
            then exampleProfileDeps.MAX_AMMO_FLAME_THROWER else exampleProfileDeps.MAX_AMMO)) ∧
        (0 ≤ exampleSavedGame.mScore ∧
          exampleSavedGame.mScore ≤ exampleProfileDeps.MAX_SCORE))) ∧
    deserializeSaveSlotArray exampleProfileDeps (serializeSaveSlotArray exampleSaveSlots) =
      Except.ok exampleSaveSlots :=
  ⟨⟨by decide, by decide, by decide⟩,
    saveSlots_roundtrip exampleProfileDeps exampleSaveSlots (by decide) (by decide)
      (by
        intro g hg
        have hg2 : g = exampleSavedGame := by
          simpa [exampleSaveSlots] using hg
        subst hg2
        decide)⟩

/-- The traced loop body issues the draws of the loop body. -/
theorem renderMapTilesCellTraced_draws (m : MapRenderer) (sectionStart : Point Int)
    (drawMode : DrawMode) (layer y x : Int) :
    (m.renderMapTilesCellTraced sectionStart drawMode layer y x).2 =
      m.renderMapTilesCell sectionStart drawMode layer y x := by
  simp only [MapRenderer.renderMapTilesCellTraced, MapRenderer.renderMapTilesCell]
  split
  · rfl
  · split <;> rfl

/-- The map accesses of one cell: none if the cell fails the upper-bound
check, the cell's map coordinates otherwise. -/
theorem renderMapTilesCellTraced_accesses (m : MapRenderer) (sectionStart : Point Int)
    (drawMode : DrawMode) (layer y x : Int) :
    (m.renderMapTilesCellTraced sectionStart drawMode layer y x).1 =
      if toInt32 (x + sectionStart.x) ≥ m.mpMap.width ∨
          toInt32 (y + sectionStart.y) ≥ m.mpMap.height then []
      else [{ layer := layer, col := toInt32 (x + sectionStart.x),
              row := toInt32 (y + sectionStart.y) }] := by
  simp only [MapRenderer.renderMapTilesCellTraced]
  split
  · rfl
  · split <;> rfl

/-- C21 (as stated, refuted): `x + sectionStart.x` is a 32-bit `int` addition.
For the non-negative section start `(2147483647, 0)` and a section 2 columns
wide, the sum of the cell `x = 1` wraps to `-2147483648`, which passes the
upper-bound check, and `renderMapTiles` reads the map at that negative column,
once per layer. -/
theorem renderMapTiles_accesses_counterexample :
    (0 ≤ overflowStart.x ∧ 0 ≤ overflowStart.y) ∧
    uniformMapRenderer.renderMapTilesAccesses overflowStart overflowSize DrawMode.Background =
      [{ layer := 0, col := -2147483648, row := 0 },
       { layer := 1, col := -2147483648, row := 0 }] ∧
    ¬ (∀ (m : MapRenderer) (sectionStart : Point Int) (sectionSize : Size Int)
        (drawMode : DrawMode) (access : MapAccess),
        0 ≤ sectionStart.x → 0 ≤ sectionStart.y →
        access ∈ m.renderMapTilesAccesses sectionStart sectionSize drawMode →
        0 ≤ access.col) := by
  have h : uniformMapRenderer.renderMapTilesAccesses overflowStart overflowSize
      DrawMode.Background =
      [{ layer := 0, col := -2147483648, row := 0 },
       { layer := 1, col := -2147483648, row := 0 }] := by
    decide
  refine ⟨by decide, h, ?_⟩
  intro hall
  have h2 := hall uniformMapRenderer overflowStart overflowSize DrawMode.Background
    { layer := 0, col := -2147483648, row := 0 } (by decide) (by decide)
    (by rw [h]; simp)
  simp at h2

/-- C21 (amended): for a section start with non-negative coordinates and a
section whose far edges `sectionStart.x + sectionSize.width` and
`sectionStart.y + sectionSize.height` do not exceed `2^31` (so that no map
coordinate overflows the 32-bit `int`), every map access
`tileAt(layer, col, row)` that `renderMapTiles` makes, for every map and draw
mode, has `layer` 0 or 1, `0 ≤ col < width` and `0 ≤ row < height` of the map.
The code checks only the upper bounds: for any `int` start, negative or not,
that lies left of and above the map's far edges, a non-empty section reads the
map at the start itself, so with a negative start coordinate the access is out
of bounds.  The traced loop body issues the same draws as the loop body. -/
theorem renderMapTiles_accesses_inBounds (m : MapRenderer)
    (sectionStart otherStart : Point Int) (sectionSize : Size Int) (drawMode : DrawMode)
    (access : MapAccess) (layer y x : Int)
    (hStartX : 0 ≤ sectionStart.x) (hStartY : 0 ≤ sectionStart.y)
    (hEndX : sectionStart.x + sectionSize.width ≤ 2 ^ 31)
    (hEndY : sectionStart.y + sectionSize.height ≤ 2 ^ 31)
    (hAccess : access ∈ m.renderMapTilesAccesses sectionStart sectionSize drawMode) :
    (access.layer = 0 ∨ access.layer = 1) ∧
    (0 ≤ access.col ∧ access.col < m.mpMap.width) ∧
    (0 ≤ access.row ∧ access.row < m.mpMap.height) ∧
    (m.renderMapTilesCellTraced sectionStart drawMode layer y x).2 =
      m.renderMapTilesCell sectionStart drawMode layer y x ∧
    (0 < sectionSize.width → 0 < sectionSize.height →
      fitsInt32 otherStart.x → fitsInt32 otherStart.y →
      otherStart.x < m.mpMap.width → otherStart.y < m.mpMap.height →
      { layer := 0, col := otherStart.x, row := otherStart.y } ∈
        m.renderMapTilesAccesses otherStart sectionSize drawMode) := by
  refine ⟨?_, ?_, ?_, renderMapTilesCellTraced_draws m sectionStart drawMode layer y x, ?_⟩
  all_goals
    simp only [MapRenderer.renderMapTilesAccesses, List.mem_flatMap, mem_intRange,
      renderMapTilesCellTraced_accesses] at hAccess ⊢
  · obtain ⟨l, hl, yy, hy, xx, hx, hmem⟩ := hAccess
    split at hmem
    · simp at hmem
    · simp only [List.mem_singleton] at hmem
      subst hmem
      simp only
      omega
  · obtain ⟨l, hl, yy, hy, xx, hx, hmem⟩ := hAccess
    rw [toInt32_of_mem (xx + sectionStart.x) (by omega) (by omega)] at hmem
    split at hmem
    · simp at hmem
    · rename_i hcheck
      simp only [List.mem_singleton] at hmem
      subst hmem
      simp only
      omega
  · obtain ⟨l, hl, yy, hy, xx, hx, hmem⟩ := hAccess
    rw [toInt32_of_mem (yy + sectionStart.y) (by omega) (by omega)] at hmem
    split at hmem
    · simp at hmem
    · rename_i hcheck
      simp only [List.mem_singleton] at hmem
      subst hmem
      simp only
      omega
  · intro hw hh hfx hfy hx hy
    refine ⟨0, by omega, 0, ⟨le_refl _, hh⟩, 0, ⟨le_refl _, hw⟩, ?_⟩
    have hcheck : ¬ (otherStart.x ≥ m.mpMap.width ∨ otherStart.y ≥ m.mpMap.height) := by
      omega
    simp only [zero_add, toInt32_of_fits _ hfx, toInt32_of_fits _ hfy]
    rw [if_neg hcheck]
    exact List.mem_singleton.mpr rfl

/-- Witness for C21: the section of the example map that starts at column 1,
with the access of its first cell on layer 1; and the start `(-1, 0)`, left of
the map, for the unchecked lower bound. -/
theorem renderMapTiles_accesses_inBounds_witness :
    (0 ≤ exampleStart.x ∧ 0 ≤ exampleStart.y ∧
      exampleStart.x + exampleSize.width ≤ 2 ^ 31 ∧
      exampleStart.y + exampleSize.height ≤ 2 ^ 31 ∧
      ({ layer := 1, col := 1, row := 0 } : MapAccess) ∈
        exampleMapRenderer.renderMapTilesAccesses exampleStart exampleSize
          DrawMode.Background) ∧
    (({ layer := 1, col := 1, row := 0 } : MapAccess).layer = 0 ∨
      ({ layer := 1, col := 1, row := 0 } : MapAccess).layer = 1) ∧
    (0 ≤ ({ layer := 1, col := 1, row := 0 } : MapAccess).col ∧
      ({ layer := 1, col := 1, row := 0 } : MapAccess).col < exampleMapRenderer.mpMap.width) ∧
    (0 ≤ ({ layer := 1, col := 1, row := 0 } : MapAccess).row ∧
      ({ layer := 1, col := 1, row := 0 } : MapAccess).row < exampleMapRenderer.mpMap.height) ∧
    (exampleMapRenderer.renderMapTilesCellTraced exampleStart DrawMode.Background 1 0 0).2 =
      exampleMapRenderer.renderMapTilesCell exampleStart DrawMode.Background 1 0 0 ∧
    (0 < exampleSize.width → 0 < exampleSize.height →
      fitsInt32 (⟨-1, 0⟩ : Point Int).x → fitsInt32 (⟨-1, 0⟩ : Point Int).y →
      (⟨-1, 0⟩ : Point Int).x < exampleMapRenderer.mpMap.width →
      (⟨-1, 0⟩ : Point Int).y < exampleMapRenderer.mpMap.height →
      { layer := 0, col := (⟨-1, 0⟩ : Point Int).x, row := (⟨-1, 0⟩ : Point Int).y } ∈
        exampleMapRenderer.renderMapTilesAccesses ⟨-1, 0⟩ exampleSize DrawMode.Background) :=
  ⟨⟨by decide, by decide, by decide, by decide, by decide⟩,
    renderMapTiles_accesses_inBounds exampleMapRenderer exampleStart ⟨-1, 0⟩ exampleSize
      DrawMode.Background { layer := 1, col := 1, row := 0 } 1 0 0 (by decide) (by decide)
      (by decide) (by decide) (by decide)⟩

end Rigel
